import Mathlib

/-!
# Cluster-selector matching of liqo (pkg/utils/virtualnode)

A shallow embedding of `pkg/utils/virtualnode/virtualnode.go` together with the parts of
`k8s.io/apimachinery` it calls (`labels`, `fields`, `util/validation`, `util/validation/field`,
`util/errors`) and of `strconv.ParseInt`.

Conventions of the embedding:
* a Go pointer that may be nil is an `Option`;
* a Go slice whose nil-ness the code tests (`parseErrs`, the returned `[]error`) is an
  `Option (List _)`, `none` being the nil slice; a slice of which only the length or the elements
  are read is a `List`;
* a Go `map[string]string` is an association list read through `List.lookup`;
* an interface value that may be nil (`labels.Selector`, `fields.Selector`, `error`) is an `Option`;
* what `pterm` prints is returned as a list of lines next to the result.
-/

namespace Liqo

/-! ## k8s.io/api/core/v1 -/

/-- The operator `In` of `corev1.NodeSelectorOperator` (a string type). -/
def NodeSelectorOpIn : String := "In"
/-- The operator `NotIn`. -/
def NodeSelectorOpNotIn : String := "NotIn"
/-- The operator `Exists`. -/
def NodeSelectorOpExists : String := "Exists"
/-- The operator `DoesNotExist`. -/
def NodeSelectorOpDoesNotExist : String := "DoesNotExist"
/-- The operator `Gt`. -/
def NodeSelectorOpGt : String := "Gt"
/-- The operator `Lt`. -/
def NodeSelectorOpLt : String := "Lt"

/-- The type `corev1.NodeSelectorRequirement`: the operator is a string, any string can occur. -/
structure NodeSelectorRequirement where
  Key : String
  Operator : String
  Values : List String
deriving DecidableEq, Repr

/-- The type `corev1.NodeSelectorTerm`. -/
structure NodeSelectorTerm where
  MatchExpressions : List NodeSelectorRequirement
  MatchFields : List NodeSelectorRequirement
deriving DecidableEq, Repr

/-- The type `corev1.NodeSelector`. -/
structure NodeSelector where
  NodeSelectorTerms : List NodeSelectorTerm
deriving DecidableEq, Repr

/-! ## The candidate record -/

/-- The fields of `virtualkubeletv1alpha1.VirtualNode` that the code reads: `ObjectMeta.Name`,
`ObjectMeta.Labels` and `Spec.ClusterIdentity.ClusterID`. -/
structure VirtualNode where
  Name : String
  Labels : List (String × String)
  ClusterID : String
deriving DecidableEq, Repr

/-! ## k8s.io/apimachinery/pkg/util/validation/field -/

/-- One step of a `field.Path`: a child name, an array index or a map key. -/
inductive PathSeg where
  | name (s : String)
  | index (i : Nat)
  | key (k : String)
deriving DecidableEq, Repr

/-- A `*field.Path`, root first; the nil path is the empty list. -/
abbrev Path := List PathSeg

/-- The method `(*Path).Child` with one name. -/
def Path.Child (p : Path) (n : String) : Path := p ++ [PathSeg.name n]

/-- The method `(*Path).Index`. -/
def Path.Index (p : Path) (i : Nat) : Path := p ++ [PathSeg.index i]

/-- The method `(*Path).Key`. -/
def Path.Key (p : Path) (k : String) : Path := p ++ [PathSeg.key k]

/-- The type `field.ErrorType`, restricted to the two kinds built here. -/
inductive ErrorType where
  | Invalid
  | NotSupported
deriving DecidableEq, Repr

/-- The `BadValue` of a `field.Error`: here a string or a list of strings. -/
inductive BadValue where
  | str (s : String)
  | strs (l : List String)
deriving DecidableEq, Repr

/-- The type `field.Error`; `Field` keeps the path itself instead of its rendering. -/
structure FieldError where
  ErrType : ErrorType
  Field : Path
  BadValue : BadValue
  Detail : String
deriving DecidableEq, Repr

/-- The constructor `field.Invalid`. -/
def Invalid (p : Path) (v : BadValue) (detail : String) : FieldError :=
  { ErrType := ErrorType.Invalid, Field := p, BadValue := v, Detail := detail }

/-- The function `strconv.Quote` on strings that need no escaping. -/
def quote (s : String) : String :=
  String.singleton (Char.ofNat 34) ++ s ++ String.singleton (Char.ofNat 34)

/-- The constructor `field.NotSupported`. -/
def NotSupported (p : Path) (v : BadValue) (validValues : List String) : FieldError :=
  { ErrType := ErrorType.NotSupported, Field := p, BadValue := v,
    Detail := if validValues.length > 0
      then "supported values: " ++ ", ".intercalate (validValues.map quote)
      else "" }

/-! ## k8s.io/apimachinery/pkg/util/errors -/

/-- An `errors.Aggregate` that is not nil: the list of the errors it holds. -/
abbrev Aggregate := List FieldError

/-- An `error` value met in this package: a `*field.Error`, or the aggregate that
`labels.NewRequirement` returns. -/
inductive Err where
  | fieldError (e : FieldError)
  | aggregate (es : Aggregate)
deriving DecidableEq, Repr

/-- The function `errors.NewAggregate` on a list of field errors (none of them nil). -/
def NewAggregateOfFieldErrors (errlist : List FieldError) : Option Aggregate :=
  if errlist.length = 0 then none else some errlist

/-- The function `errors.NewAggregate`: nil for the empty list, the list otherwise (the errors of
the embedding are never nil, so filtering the nil ones out keeps them all). -/
def NewAggregate (errlist : List Err) : Option (List Err) :=
  if errlist.length = 0 then none else some errlist

/-- The loop of `errors.Flatten` over `agg.Errors()`: an aggregate is replaced by its errors. -/
def flattenErrors : List Err → List FieldError
  | [] => []
  | Err.fieldError e :: rest => e :: flattenErrors rest
  | Err.aggregate es :: rest =>
    (match NewAggregateOfFieldErrors es with
      | some r => r
      | none => []) ++ flattenErrors rest

/-- The function `errors.Flatten`. -/
def Flatten (agg : Option (List Err)) : Option Aggregate :=
  match agg with
  | none => none
  | some errs => NewAggregateOfFieldErrors (flattenErrors errs)

/-- The loop of `field.ErrorList.ToAggregate`: an error already seen is skipped (Go compares the
rendered messages, the embedding compares the errors). -/
def toAggregateLoop (seen : List FieldError) : List FieldError → List FieldError
  | [] => []
  | e :: rest =>
    if e ∈ seen then toAggregateLoop seen rest else e :: toAggregateLoop (e :: seen) rest

/-- The method `field.ErrorList.ToAggregate`. -/
def ToAggregate (list : List FieldError) : Option Aggregate :=
  if list.length = 0 then none else NewAggregateOfFieldErrors (toAggregateLoop [] list)

/-! ## strconv -/

/-- The digit loop of `strconv.ParseUint` in base 10: the value of a run of decimal digits, or
`none` at the first character that is not one. -/
def parseDigits : List Char → Nat → Option Nat
  | [], acc => some acc
  | c :: cs, acc => if c.isDigit then parseDigits cs (acc * 10 + (c.toNat - 48)) else none

/-- The call `strconv.ParseInt(s, 10, 64)`: `none` stands for a non-nil error (bad syntax or a
value outside the 64-bit signed range). -/
def ParseInt (s : String) : Option Int :=
  match s.data with
  | [] => none
  | c :: cs =>
    let neg : Bool := c = '-'
    let ds := if c = '+' ∨ c = '-' then cs else c :: cs
    if ds.length = 0 then none
    else
      match parseDigits ds 0 with
      | none => none
      | some un =>
        if !neg && un ≥ 2 ^ 63 then none
        else if neg && un > 2 ^ 63 then none
        else some (if neg then -(un : Int) else (un : Int))

/-! ## k8s.io/apimachinery/pkg/util/validation -/

/-- The call `strings.Split(value, sep)` for a one-character separator, on character lists. -/
def splitChars (sep : Char) : List Char → List (List Char)
  | [] => [[]]
  | c :: cs =>
    if c = sep then [] :: splitChars sep cs
    else
      match splitChars sep cs with
      | [] => [[c]]
      | p :: ps => (c :: p) :: ps

/-- The message of `validation.EmptyError`. -/
def EmptyError : String := "must be non-empty"

/-- The message of `validation.MaxLenError`. -/
def MaxLenError (length : Nat) : String :=
  "must be no more than " ++ toString length ++ " characters"

/-- The examples part of `validation.RegexError`. -/
def regexExamples : Nat → List String → String
  | _, [] => ""
  | i, e :: es => (if i > 0 then " or " else "") ++ "'" ++ e ++ "', " ++ regexExamples (i + 1) es

/-- The message of `validation.RegexError`. -/
def RegexError (msg : String) (fmt : String) (examples : List String) : String :=
  if examples.length = 0 then msg ++ " (regex used for validation is '" ++ fmt ++ "')"
  else msg ++ " (e.g. " ++ regexExamples 0 examples ++ "regex used for validation is '" ++ fmt ++ "')"

/-- The characters of the class `[-A-Za-z0-9_.]`. -/
def isQualifiedNameChar (c : Char) : Bool := c.isAlphanum || c = '-' || c = '_' || c = '.'

/-- The text of `qualifiedNameFmt`. -/
def qualifiedNameFmt : String := "([A-Za-z0-9][-A-Za-z0-9_.]*)?[A-Za-z0-9]"

/-- The text of `qualifiedNameErrMsg`. -/
def qualifiedNameErrMsg : String :=
  "must consist of alphanumeric characters, '-', '_' or '.', and must start and end with an alphanumeric character"

/-- Whether `qualifiedNameRegexp` (the anchored `qualifiedNameFmt`) matches: the text is not empty,
starts and ends with an alphanumeric character and has only characters of the class. -/
def matchQualifiedName (cs : List Char) : Bool :=
  match cs with
  | [] => false
  | c :: _ => c.isAlphanum && cs.all isQualifiedNameChar && (cs.getLast?.map Char.isAlphanum).getD false

/-- The characters of the class `[a-z0-9]`. -/
def isLowerAlnum (c : Char) : Bool := c.isLower || c.isDigit

/-- Whether the anchored `dns1123LabelFmt`, `[a-z0-9]([-a-z0-9]*[a-z0-9])?`, matches. -/
def matchDNS1123Label (cs : List Char) : Bool :=
  match cs with
  | [] => false
  | c :: _ => isLowerAlnum c && cs.all (fun x => isLowerAlnum x || x = '-')
      && (cs.getLast?.map isLowerAlnum).getD false

/-- The text of `dns1123SubdomainFmt`. -/
def dns1123SubdomainFmt : String :=
  "[a-z0-9]([-a-z0-9]*[a-z0-9])?(\\.[a-z0-9]([-a-z0-9]*[a-z0-9])?)*"

/-- The text of `dns1123SubdomainErrorMsg`. -/
def dns1123SubdomainErrorMsg : String :=
  "a lowercase RFC 1123 subdomain must consist of lower case alphanumeric characters, '-' or '.', and must start and end with an alphanumeric character"

/-- Whether `dns1123SubdomainRegexp` matches: labels separated by dots. -/
def matchDNS1123Subdomain (cs : List Char) : Bool :=
  (splitChars '.' cs).all matchDNS1123Label

/-- The function `validation.IsDNS1123Subdomain`: the list of complaints. -/
def IsDNS1123Subdomain (value : List Char) : List String :=
  (if (String.mk value).utf8ByteSize > 253 then [MaxLenError 253] else [])
  ++ (if !matchDNS1123Subdomain value
      then [RegexError dns1123SubdomainErrorMsg dns1123SubdomainFmt ["example.com"]] else [])

/-- The name part of `validation.IsQualifiedName`. -/
def qualifiedNamePart (name : List Char) : List String :=
  (if name.length = 0 then ["name part " ++ EmptyError]
   else if (String.mk name).utf8ByteSize > 63 then ["name part " ++ MaxLenError 63] else [])
  ++ (if !matchQualifiedName name
      then ["name part " ++ RegexError qualifiedNameErrMsg qualifiedNameFmt ["MyName", "my.name", "123-abc"]]
      else [])

/-- The function `validation.IsQualifiedName`: the list of complaints, empty when valid. -/
def IsQualifiedName (value : String) : List String :=
  match splitChars '/' value.data with
  | [name] => qualifiedNamePart name
  | [pfx, name] =>
    (if pfx.length = 0 then ["prefix part " ++ EmptyError]
     else (IsDNS1123Subdomain pfx).map (fun m => "prefix part " ++ m))
    ++ qualifiedNamePart name
  | _ =>
    ["a qualified name " ++ RegexError qualifiedNameErrMsg qualifiedNameFmt ["MyName", "my.name", "123-abc"]
      ++ " with an optional DNS subdomain prefix and '/' (e.g. 'example.com/MyName')"]

/-- The text of `labelValueFmt`. -/
def labelValueFmt : String := "(" ++ qualifiedNameFmt ++ ")?"

/-- The text of `labelValueErrMsg`. -/
def labelValueErrMsg : String :=
  "a valid label must be an empty string or consist of alphanumeric characters, '-', '_' or '.', and must start and end with an alphanumeric character"

/-- The function `validation.IsValidLabelValue`: the list of complaints, empty when valid. -/
def IsValidLabelValue (value : String) : List String :=
  (if value.utf8ByteSize > 63 then [MaxLenError 63] else [])
  ++ (if !(value.data.length = 0 || matchQualifiedName value.data)
      then [RegexError labelValueErrMsg labelValueFmt ["MyValue", "my_value", "12345"]] else [])

/-! ## k8s.io/apimachinery/pkg/labels -/

/-- The type `labels.Set`, a `map[string]string`. -/
abbrev LabelSet := List (String × String)

/-- The method `labels.Set.Has`. -/
def LabelSet.Has (ls : LabelSet) (label : String) : Bool := (ls.lookup label).isSome

/-- The method `labels.Set.Get`: the value, the empty string when the key is absent. -/
def LabelSet.Get (ls : LabelSet) (label : String) : String := (ls.lookup label).getD ""

/-- The constants of `selection.Operator`. -/
inductive Operator where
  | DoesNotExist
  | Equals
  | DoubleEquals
  | In
  | NotEquals
  | NotIn
  | Exists
  | GreaterThan
  | LessThan
deriving DecidableEq, Repr

/-- The type `labels.Requirement`. -/
structure Requirement where
  key : String
  operator : Operator
  strValues : List String
deriving DecidableEq, Repr

/-- The method `Requirement.hasValue`. -/
def Requirement.hasValue (r : Requirement) (value : String) : Bool := r.strValues.contains value

/-- The method `Requirement.Matches` (its default case, an operator that is none of the nine
constants, cannot be reached from a value of `Operator`). -/
def Requirement.Matches (r : Requirement) (ls : LabelSet) : Bool :=
  match r.operator with
  | Operator.In | Operator.Equals | Operator.DoubleEquals =>
    if !ls.Has r.key then false else r.hasValue (ls.Get r.key)
  | Operator.NotIn | Operator.NotEquals =>
    if !ls.Has r.key then true else !r.hasValue (ls.Get r.key)
  | Operator.Exists => ls.Has r.key
  | Operator.DoesNotExist => !ls.Has r.key
  | Operator.GreaterThan | Operator.LessThan =>
    if !ls.Has r.key then false
    else
      match ParseInt (ls.Get r.key) with
      | none => false
      | some lsValue =>
        if r.strValues.length ≠ 1 then false
        else
          match r.strValues.head?.bind ParseInt with
          | none => false
          | some rValue =>
            (r.operator == Operator.GreaterThan && decide (lsValue > rValue))
              || (r.operator == Operator.LessThan && decide (lsValue < rValue))

/-- The function `validateLabelKey` of package labels: nil (`none`) for a valid key. -/
def validateLabelKey (k : String) (path : Path) : Option FieldError :=
  let errs := IsQualifiedName k
  if errs.length ≠ 0 then some (Invalid path (BadValue.str k) ("; ".intercalate errs)) else none

/-- The function `validateLabelValue` of package labels: nil (`none`) for a valid value. -/
def validateLabelValue (k v : String) (path : Path) : Option FieldError :=
  let errs := IsValidLabelValue v
  if errs.length ≠ 0 then some (Invalid (path.Key k) (BadValue.str v) ("; ".intercalate errs)) else none

/-- The loop of `NewRequirement` over the values of a `Gt` or `Lt` requirement. -/
def parseIntErrors (valuePath : Path) : Nat → List String → List FieldError
  | _, [] => []
  | i, v :: vs =>
    (match ParseInt v with
      | none => [Invalid (valuePath.Index i) (BadValue.str v)
          "for 'Gt', 'Lt' operators, the value must be an integer"]
      | some _ => [])
    ++ parseIntErrors valuePath (i + 1) vs

/-- The last loop of `NewRequirement`: every value is validated as a label value. -/
def labelValueErrors (key : String) (valuePath : Path) : Nat → List String → List FieldError
  | _, [] => []
  | i, v :: vs =>
    (match validateLabelValue key v (valuePath.Index i) with
      | some e => [e]
      | none => [])
    ++ labelValueErrors key valuePath (i + 1) vs

/-- The switch of `NewRequirement` on the operator: the errors on the number and form of the
values. The default case of the Go switch (an operator that is none of the nine constants) cannot
be reached from a value of `Operator`. -/
def operatorErrors (op : Operator) (vals : List String) (valuePath : Path) : List FieldError :=
  match op with
  | Operator.In | Operator.NotIn =>
    if vals.length = 0
    then [Invalid valuePath (BadValue.strs vals) "for 'in', 'notin' operators, values set can't be empty"]
    else []
  | Operator.Equals | Operator.DoubleEquals | Operator.NotEquals =>
    if vals.length ≠ 1
    then [Invalid valuePath (BadValue.strs vals) "exact-match compatibility requires one single value"]
    else []
  | Operator.Exists | Operator.DoesNotExist =>
    if vals.length ≠ 0
    then [Invalid valuePath (BadValue.strs vals) "values set must be empty for exists and does not exist"]
    else []
  | Operator.GreaterThan | Operator.LessThan =>
    (if vals.length ≠ 1
     then [Invalid valuePath (BadValue.strs vals) "for 'Gt', 'Lt' operators, exactly one value is required"]
     else [])
    ++ parseIntErrors valuePath 0 vals

/-- The list `allErrs` that `NewRequirement` collects. -/
def requirementErrors (key : String) (op : Operator) (vals : List String) (path : Path) :
    List FieldError :=
  (match validateLabelKey key (path.Child "key") with
    | some e => [e]
    | none => [])
  ++ operatorErrors op vals (path.Child "values")
  ++ labelValueErrors key (path.Child "values") 0 vals

/-- The function `labels.NewRequirement(key, op, vals, field.WithPath(path))`: the requirement and
the aggregate of the validation errors (`none` for a nil error). -/
def NewRequirement (key : String) (op : Operator) (vals : List String) (path : Path) :
    Requirement × Option Aggregate :=
  ({ key := key, operator := op, strValues := vals }, ToAggregate (requirementErrors key op vals path))

/-- The values of `labels.Selector` met here: `labels.Nothing()` or an `internalSelector`, the
conjunction of its requirements. -/
inductive LabelsSelector where
  | nothing
  | internal (reqs : List Requirement)
deriving DecidableEq, Repr

/-- The method `Matches` of `nothingSelector` and of `internalSelector`. -/
def LabelsSelector.Matches (s : LabelsSelector) (ls : LabelSet) : Bool :=
  match s with
  | LabelsSelector.nothing => false
  | LabelsSelector.internal reqs => reqs.all (fun r => r.Matches ls)

/-- The method `internalSelector.Add` with one requirement. Go sorts the requirements by key after
appending; `Matches` is their conjunction and does not see the order, which is left out here. -/
def internalSelectorAdd (reqs : List Requirement) (r : Requirement) : List Requirement := reqs ++ [r]

/-! ## k8s.io/apimachinery/pkg/fields -/

/-- The type `fields.Set`, a `map[string]string`. -/
abbrev FieldSet := List (String × String)

/-- The method `fields.Set.Get`: the value, the empty string when the field is absent. -/
def FieldSet.Get (ls : FieldSet) (field : String) : String := (ls.lookup field).getD ""

/-- The one-term selectors `hasTerm` (`fields.OneTermEqualSelector`) and `notHasTerm`
(`fields.OneTermNotEqualSelector`). -/
inductive FieldTerm where
  | hasTerm (field value : String)
  | notHasTerm (field value : String)
deriving DecidableEq, Repr

/-- The method `Matches` of `hasTerm` and of `notHasTerm`. -/
def FieldTerm.Matches (t : FieldTerm) (ls : FieldSet) : Bool :=
  match t with
  | FieldTerm.hasTerm field value => ls.Get field == value
  | FieldTerm.notHasTerm field value => ls.Get field != value

/-- The values of `fields.Selector` met here: `fields.Nothing()` or an `andTerm` of one-term
selectors (`fields.AndSelectors`). -/
inductive FieldsSelector where
  | nothing
  | andTerm (terms : List FieldTerm)
deriving DecidableEq, Repr

/-- The method `Matches` of `nothingSelector` and of `andTerm`. -/
def FieldsSelector.Matches (s : FieldsSelector) (ls : FieldSet) : Bool :=
  match s with
  | FieldsSelector.nothing => false
  | FieldsSelector.andTerm terms => terms.all (fun t => t.Matches ls)

/-! ## pkg/utils/virtualnode/virtualnode.go -/

/-- The compiled term `selectorTerm`; `none` is a nil selector, a nil slice of errors. -/
structure selectorTerm where
  matchLabels : Option LabelsSelector
  matchFields : Option FieldsSelector
  parseErrs : Option (List Err)
deriving DecidableEq, Repr

/-- The compiled selector `Selector`. -/
structure Selector where
  terms : List selectorTerm
deriving DecidableEq, Repr

/-- The table `validSelectorOperators`. -/
def validSelectorOperators : List String :=
  [NodeSelectorOpIn, NodeSelectorOpNotIn, NodeSelectorOpExists, NodeSelectorOpDoesNotExist,
   NodeSelectorOpGt, NodeSelectorOpLt]

/-- The table `validFieldSelectorOperators`. -/
def validFieldSelectorOperators : List String := [NodeSelectorOpIn, NodeSelectorOpNotIn]

/-- The Go builtin `append(s, elems...)` on a slice that may be nil: appending nothing to the nil
slice leaves it nil. -/
def goAppend {α : Type} (s : Option (List α)) (elems : List α) : Option (List α) :=
  match s with
  | none => if elems.length = 0 then none else some elems
  | some l => some (l ++ elems)

/-- The length `len(s)` of a slice that may be nil. -/
def goLen {α : Type} (s : Option (List α)) : Nat :=
  match s with
  | none => 0
  | some l => l.length

/-- The function `isEmptyVirtualNodeSelectorTerm`. -/
def isEmptyVirtualNodeSelectorTerm (term : NodeSelectorTerm) : Bool :=
  term.MatchExpressions.length = 0 && term.MatchFields.length = 0

/-- The loop of `virtualNodeSelectorRequirementsAsFieldSelector`, from index `i` on, threading
`errs` and `selectors`. -/
def fieldSelectorLoop (path : Path) :
    Nat → List NodeSelectorRequirement → List Err → List FieldTerm → List Err × List FieldTerm
  | _, [], errs, selectors => (errs, selectors)
  | i, expr :: rest, errs, selectors =>
    let p := path.Index i
    if expr.Operator = NodeSelectorOpIn then
      if expr.Values.length ≠ 1 then
        fieldSelectorLoop path (i + 1) rest
          (errs ++ [Err.fieldError
            (Invalid (p.Child "values") (BadValue.strs expr.Values) "must have one element")])
          selectors
      else
        fieldSelectorLoop path (i + 1) rest errs
          (selectors ++ [FieldTerm.hasTerm expr.Key (expr.Values.headD "")])
    else if expr.Operator = NodeSelectorOpNotIn then
      if expr.Values.length ≠ 1 then
        fieldSelectorLoop path (i + 1) rest
          (errs ++ [Err.fieldError
            (Invalid (p.Child "values") (BadValue.strs expr.Values) "must have one element")])
          selectors
      else
        fieldSelectorLoop path (i + 1) rest errs
          (selectors ++ [FieldTerm.notHasTerm expr.Key (expr.Values.headD "")])
    else
      fieldSelectorLoop path (i + 1) rest
        (errs ++ [Err.fieldError
          (NotSupported (p.Child "operator") (BadValue.str expr.Operator) validFieldSelectorOperators)])
        selectors

/-- The function `virtualNodeSelectorRequirementsAsFieldSelector`: the field selector (`none` for
nil) and the errors (`none` for nil). -/
def virtualNodeSelectorRequirementsAsFieldSelector (nsr : List NodeSelectorRequirement)
    (path : Path) : Option FieldsSelector × Option (List Err) :=
  if nsr.length = 0 then (some FieldsSelector.nothing, none)
  else
    let r := fieldSelectorLoop path 0 nsr [] []
    if r.1.length ≠ 0 then (none, some r.1)
    else (some (FieldsSelector.andTerm r.2), none)

/-- The switch of `nodeSelectorRequirementsAsSelector` on the operator: the `selection.Operator`
of a supported operator, `none` in the default case. -/
def selectionOperator (op : String) : Option Operator :=
  if op = NodeSelectorOpIn then some Operator.In
  else if op = NodeSelectorOpNotIn then some Operator.NotIn
  else if op = NodeSelectorOpExists then some Operator.Exists
  else if op = NodeSelectorOpDoesNotExist then some Operator.DoesNotExist
  else if op = NodeSelectorOpGt then some Operator.GreaterThan
  else if op = NodeSelectorOpLt then some Operator.LessThan
  else none

/-- The loop of `nodeSelectorRequirementsAsSelector`, from index `i` on, threading `errs` and the
requirements of `selector`. -/
def labelSelectorLoop (path : Path) :
    Nat → List NodeSelectorRequirement → List Err → List Requirement → List Err × List Requirement
  | _, [], errs, selector => (errs, selector)
  | i, expr :: rest, errs, selector =>
    let p := path.Index i
    match selectionOperator expr.Operator with
    | none =>
      labelSelectorLoop path (i + 1) rest
        (errs ++ [Err.fieldError
          (NotSupported (p.Child "operator") (BadValue.str expr.Operator) validSelectorOperators)])
        selector
    | some op =>
      let r := NewRequirement expr.Key op expr.Values p
      match r.2 with
      | some err => labelSelectorLoop path (i + 1) rest (errs ++ [Err.aggregate err]) selector
      | none => labelSelectorLoop path (i + 1) rest errs (internalSelectorAdd selector r.1)

/-- The function `nodeSelectorRequirementsAsSelector`: the label selector (`none` for nil) and the
errors (`none` for nil). -/
def nodeSelectorRequirementsAsSelector (nsm : List NodeSelectorRequirement) (path : Path) :
    Option LabelsSelector × Option (List Err) :=
  if nsm.length = 0 then (some LabelsSelector.nothing, none)
  else
    let r := labelSelectorLoop path 0 nsm [] []
    if r.1.length ≠ 0 then (none, some r.1)
    else (some (LabelsSelector.internal r.2), none)

/-- The function `newVirtualNodeSelectorTerm`. -/
def newVirtualNodeSelectorTerm (term : NodeSelectorTerm) (path : Path) : selectorTerm :=
  let parsedTerm : selectorTerm := { matchLabels := none, matchFields := none, parseErrs := none }
  let parsedTerm :=
    if term.MatchExpressions.length ≠ 0 then
      let r := nodeSelectorRequirementsAsSelector term.MatchExpressions (path.Child "matchExpressions")
      match r.2 with
      | some errs =>
        { parsedTerm with matchLabels := r.1, parseErrs := goAppend parsedTerm.parseErrs errs }
      | none => { parsedTerm with matchLabels := r.1 }
    else parsedTerm
  if term.MatchFields.length ≠ 0 then
    let r := virtualNodeSelectorRequirementsAsFieldSelector term.MatchFields (path.Child "matchFields")
    match r.2 with
    | some errs =>
      { parsedTerm with matchFields := r.1, parseErrs := goAppend parsedTerm.parseErrs errs }
    | none => { parsedTerm with matchFields := r.1 }
  else parsedTerm

/-- The loop of `NewSelector`, from index `i` on, threading `parsedTerms`. -/
def newSelectorLoop (path : Path) :
    Nat → List NodeSelectorTerm → List selectorTerm → List selectorTerm
  | _, [], parsedTerms => parsedTerms
  | i, term :: rest, parsedTerms =>
    if isEmptyVirtualNodeSelectorTerm term then newSelectorLoop path (i + 1) rest parsedTerms
    else
      newSelectorLoop path (i + 1) rest
        (parsedTerms ++ [newVirtualNodeSelectorTerm term (path.Index i)])

/-- The function `NewSelector`; `p` is the path of the options, the nil path `[]` without any. -/
def NewSelector (ns : NodeSelector) (p : Path) : Selector :=
  { terms := newSelectorLoop (p.Child "nodeSelectorTerms") 0 ns.NodeSelectorTerms [] }

/-- The function `extractVirtualNodeFields`. -/
def extractVirtualNodeFields (virtualnode : VirtualNode) : FieldSet :=
  if virtualnode.Name.utf8ByteSize > 0 then [("metadata.name", virtualnode.Name)] else []

/-- The method `selectorTerm.match`. -/
def selectorTerm.doMatch (t : selectorTerm) (nodeLabels : LabelSet) (nodeFields : FieldSet) :
    Bool × Option (List Err) :=
  if t.parseErrs ≠ none then (false, t.parseErrs)
  else if (match t.matchLabels with
      | some l => !l.Matches nodeLabels
      | none => false) then (false, none)
  else if (match t.matchFields with
      | some f => decide (nodeFields.length > 0) && !f.Matches nodeFields
      | none => false) then (false, none)
  else (true, none)

/-- What a call of `Match` yields: the two returned values and the lines printed by `pterm`. -/
structure MatchOutcome where
  matched : Bool
  err : Option Aggregate
  printed : List String
deriving DecidableEq, Repr

/-- The loop of `Selector.Match` over the compiled terms, threading `errs` and the lines printed
so far. -/
def matchLoop (name : String) (nodeLabels : LabelSet) (nodeFields : FieldSet) :
    List selectorTerm → List Err → List String → MatchOutcome
  | [], errs, out => { matched := false, err := Flatten (NewAggregate errs), printed := out }
  | term :: rest, errs, out =>
    let r := term.doMatch nodeLabels nodeFields
    if goLen r.2 > 0 then
      matchLoop name nodeLabels nodeFields rest (errs ++ (r.2.getD [])) out
    else if r.1 then
      { matched := true, err := none, printed := out ++ ["VirtualNode " ++ name ++ " matched"] }
    else
      matchLoop name nodeLabels nodeFields rest errs
        (out ++ ["VirtualNode " ++ name ++ " did not match"])

/-- The method `Selector.Match`; the candidate is a pointer, `none` when nil. -/
def Selector.Match (vns : Selector) (virtualnode : Option VirtualNode) : MatchOutcome :=
  match virtualnode with
  | none => { matched := false, err := none, printed := [] }
  | some vn => matchLoop vn.Name vn.Labels (extractVirtualNodeFields vn) vns.terms [] []

/-- The function `MatchSelectorTerms`. -/
def MatchSelectorTerms (virtualnode : Option VirtualNode) (selector : NodeSelector) : MatchOutcome :=
  if selector.NodeSelectorTerms.length = 0 then { matched := true, err := none, printed := [] }
  else if virtualnode.isNone then { matched := false, err := none, printed := [] }
  else (NewSelector selector []).Match virtualnode

/-! ## pkg/liqo-controller-manager/namespaceoffloading-controller/clusterselector.go -/

/-- The fields of `virtualkubeletv1alpha1.NamespaceMap` that the code reads: the name and
`Labels[liqoconst.RemoteClusterID]`, the empty string when the label is absent. -/
structure NamespaceMap where
  Name : String
  RemoteClusterID : String
deriving DecidableEq, Repr

/-- The fields of `offv1alpha1.NamespaceOffloading` that the code reads: `Namespace` and
`Spec.ClusterSelector`. -/
structure NamespaceOffloading where
  Namespace : String
  ClusterSelector : NodeSelector
deriving DecidableEq, Repr

/-- The Go map `map[string]*NamespaceMap`: an association list, one entry per key. -/
abbrev ClusterIDMap := List (String × NamespaceMap)

/-- The Go assignment `m[k] = v`: the value of an existing key is replaced, a new key is added. -/
def goMapInsert (m : ClusterIDMap) (k : String) (v : NamespaceMap) : ClusterIDMap :=
  match m with
  | [] => [(k, v)]
  | (k0, v0) :: rest => if k0 = k then (k, v) :: rest else (k0, v0) :: goMapInsert rest k v

/-- The loop of `getClusterIDMap` over `nms.Items`, threading `clusterIDMap`. -/
def getClusterIDMapLoop : List NamespaceMap → ClusterIDMap → ClusterIDMap
  | [], m => m
  | nm :: rest, m => getClusterIDMapLoop rest (goMapInsert m nm.RemoteClusterID nm)

/-- The errors that `getClusterIDMap` and `enforceClusterSelector` build with `fmt.Errorf`. -/
inductive ReconcileError where
  | failedToRetrieveNamespaceMaps (cause : String)
  | failedToRetrieveVirtualNodes (cause : String)
  | cardinalityMismatch (virtualNodes namespaceMaps : Nat)
  | invalidClusterSelector (cause : Aggregate)
  | failedToConfigure
deriving DecidableEq, Repr

/-- The method `getClusterIDMap`; `listed` is the outcome of `r.List` on the local NamespaceMaps
(the informational log line of the empty case is left out). -/
def getClusterIDMap (listed : Except String (List NamespaceMap)) :
    Except ReconcileError ClusterIDMap :=
  match listed with
  | Except.error e => Except.error (ReconcileError.failedToRetrieveNamespaceMaps e)
  | Except.ok items =>
    if items.length = 0 then Except.ok [] else Except.ok (getClusterIDMapLoop items [])

/-- Modelled from the spec: `getters.RetrieveClusterIDsFromVirtualNodes`, which is not among the
sources. The spec compares the number of candidates with the number of mapping-state records
(the comment in the code: "the number of virtual nodes"), so the helper yields the cluster
identifier of every virtual node, one per candidate. -/
def RetrieveClusterIDsFromVirtualNodes (virtualNodes : List VirtualNode) : List String :=
  virtualNodes.map (fun vn => vn.ClusterID)

/-- A call to the Mapping Store: `addDesiredMapping(ctx, r.Client, ns, remoteNamespace, nm)` or
`removeDesiredMapping(ctx, r.Client, ns, nm)`; `nm` is the pointer read from `clusterIDMap`,
`none` when the key is absent. -/
inductive Call where
  | add (ns remoteNamespace : String) (nm : Option NamespaceMap)
  | remove (ns : String) (nm : Option NamespaceMap)
deriving DecidableEq, Repr

/-- An issued call and whether it returned a non-nil error. -/
structure CallRecord where
  call : Call
  failed : Bool
deriving DecidableEq, Repr

/-- The event recorded by `r.Recorder.Eventf(nsoff, eventtype, reason, "Invalid ClusterSelector: %v", err)`. -/
structure Event where
  eventtype : String
  reason : String
  err : Aggregate
deriving DecidableEq, Repr

/-- The collaborators of the reconciler that are not among the sources, taken as parameters: the
two functions of the Mapping Store over a state `σ` (the new state and the returned error, `none`
for nil) and the method `remoteNamespaceName`. -/
structure Reconciler (σ : Type) where
  addDesiredMapping : σ → String → String → Option NamespaceMap → σ × Option String
  removeDesiredMapping : σ → String → Option NamespaceMap → σ × Option String
  remoteNamespaceName : NamespaceOffloading → String

/-- What a pass of `enforceClusterSelector` yields: the returned error (`none` for nil), the events
recorded, the calls issued to the Mapping Store in order, and the state of the store. -/
structure PassOutcome (σ : Type) where
  err : Option ReconcileError
  events : List Event
  calls : List CallRecord
  store : σ

/-- The loop of `enforceClusterSelector` over `virtualNodes.Items`, threading `returnErr`, the
calls issued so far and the state of the store. -/
def enforceLoop {σ : Type} (r : Reconciler σ) (nsoff : NamespaceOffloading)
    (clusterIDMap : ClusterIDMap) :
    List VirtualNode → Option ReconcileError → List CallRecord → σ → PassOutcome σ
  | [], returnErr, calls, s => { err := returnErr, events := [], calls := calls, store := s }
  | vn :: rest, returnErr, calls, s =>
    let m := MatchSelectorTerms (some vn) nsoff.ClusterSelector
    match m.err with
    | some err =>
      { err := some (ReconcileError.invalidClusterSelector err),
        events := [{ eventtype := "Warning", reason := "Invalid", err := err }],
        calls := calls, store := s }
    | none =>
      if m.matched then
        let res := r.addDesiredMapping s nsoff.Namespace (r.remoteNamespaceName nsoff)
          (clusterIDMap.lookup vn.ClusterID)
        enforceLoop r nsoff clusterIDMap rest
          (if res.2.isSome then some ReconcileError.failedToConfigure else returnErr)
          (calls ++ [{ call := Call.add nsoff.Namespace (r.remoteNamespaceName nsoff)
                        (clusterIDMap.lookup vn.ClusterID),
                       failed := res.2.isSome }])
          res.1
      else
        let res := r.removeDesiredMapping s nsoff.Namespace (clusterIDMap.lookup vn.ClusterID)
        enforceLoop r nsoff clusterIDMap rest
          (if res.2.isSome then some ReconcileError.failedToConfigure else returnErr)
          (calls ++ [{ call := Call.remove nsoff.Namespace (clusterIDMap.lookup vn.ClusterID),
                       failed := res.2.isSome }])
          res.1

/-- The method `enforceClusterSelector`; `listed` is the outcome of
`getters.ListVirtualNodesByLabels(ctx, r.Client, labels.Everything())` and `s` the state of the
Mapping Store when the pass starts. -/
def enforceClusterSelector {σ : Type} (r : Reconciler σ) (listed : Except String (List VirtualNode))
    (s : σ) (nsoff : NamespaceOffloading) (clusterIDMap : ClusterIDMap) : PassOutcome σ :=
  match listed with
  | Except.error e =>
    { err := some (ReconcileError.failedToRetrieveVirtualNodes e), events := [], calls := [],
      store := s }
  | Except.ok virtualNodes =>
    let clusterIDs := RetrieveClusterIDsFromVirtualNodes virtualNodes
    if clusterIDs.length ≠ clusterIDMap.length then
      { err := some (ReconcileError.cardinalityMismatch clusterIDs.length clusterIDMap.length),
        events := [], calls := [], store := s }
    else enforceLoop r nsoff clusterIDMap virtualNodes none [] s

/-- Modelled from the spec: `addDesiredMapping`, which is not among the sources, on the Mapping
Store seen as the set of the cluster identifiers that have the desired mapping. The call is
idempotent: it inserts the cluster identifier of the record; without a record nothing changes and
an error is returned. -/
def setAddDesiredMapping (s : Finset String) (_ns _remoteNamespace : String)
    (nm : Option NamespaceMap) : Finset String × Option String :=
  match nm with
  | some m => (insert m.RemoteClusterID s, none)
  | none => (s, some "no NamespaceMap")

/-- Modelled from the spec: `removeDesiredMapping`, which is not among the sources, on the Mapping
Store seen as a set of cluster identifiers. The call is idempotent: it erases the cluster
identifier of the record; without a record nothing changes and an error is returned. -/
def setRemoveDesiredMapping (s : Finset String) (_ns : String) (nm : Option NamespaceMap) :
    Finset String × Option String :=
  match nm with
  | some m => (s.erase m.RemoteClusterID, none)
  | none => (s, some "no NamespaceMap")

/-- Modelled from the spec: the reconciler over the Mapping Store seen as a set of cluster
identifiers; the remote namespace takes the name of the local one. -/
def setReconciler : Reconciler (Finset String) :=
  { addDesiredMapping := setAddDesiredMapping,
    removeDesiredMapping := setRemoveDesiredMapping,
    remoteNamespaceName := fun nsoff => nsoff.Namespace }

/-- A Mapping Store that keeps no state but the number of calls received, and fails the calls
whose position is marked in `failing`. -/
def countingReconciler (failing : Nat → Bool) : Reconciler Nat :=
  { addDesiredMapping := fun n _ _ _ => (n + 1, if failing n then some "add failed" else none),
    removeDesiredMapping := fun n _ _ => (n + 1, if failing n then some "remove failed" else none),
    remoteNamespaceName := fun nsoff => nsoff.Namespace }

/-! ## sigs.k8s.io/controller-runtime: owner references -/

/-- An owner reference of `k8s.io/apimachinery/pkg/apis/meta/v1`. -/
structure OwnerReference where
  APIVersion : String
  Kind : String
  Name : String
  UID : String
deriving DecidableEq, Repr

/-- The part of a `runtime.Scheme` that `SetOwnerReference` reads for an owner of the type
`Configuration`: the group-version and the kind registered for the type, `none` when the type is
not registered. -/
structure Scheme where
  configurationGVK : Option (String × String)
deriving DecidableEq, Repr

/-- The group of an API version, as `schema.ParseGroupVersion` reads it: `v` has the empty group,
`g/v` the group `g`, anything with more than one slash is an error. -/
def parseGroup (apiVersion : String) : Option String :=
  match apiVersion.splitOn "/" with
  | [_] => some ""
  | [g, _] => some g
  | _ => none

/-- Go: `referSameObject(a, b)`: same group, kind and name; a version that does not parse gives
`false`. -/
def referSameObject (a b : OwnerReference) : Bool :=
  match parseGroup a.APIVersion, parseGroup b.APIVersion with
  | some ga, some gb => ga == gb && a.Kind == b.Kind && a.Name == b.Name
  | _, _ => false

/-- Go: `upsertOwnerRef(ref, object)`: the reference replaces the first one of the object that
refers to the same owner, and is appended when there is none. -/
def upsertOwnerRef (ref : OwnerReference) : List OwnerReference → List OwnerReference
  | [] => [ref]
  | r :: rest => if referSameObject r ref then ref :: rest else r :: upsertOwnerRef ref rest

/-! ## The API types of `apis/networking/v1alpha1` and `apis/ipam/v1alpha1`

Only the fields that the configuration controller reads or writes. -/

/-- The pod and external CIDR of a cluster: `ClusterConfig.CIDR`. -/
structure ClusterConfigCIDR where
  Pod : String
  External : String
deriving DecidableEq, Repr

structure ClusterConfig where
  CIDR : ClusterConfigCIDR
deriving DecidableEq, Repr

structure ConfigurationSpec where
  Remote : ClusterConfig
deriving DecidableEq, Repr

structure ConfigurationStatus where
  Remote : ClusterConfig
deriving DecidableEq, Repr

/-- The resource `networkingv1alpha1.Configuration`. -/
structure Configuration where
  Name : String
  Namespace : String
  UID : String
  Spec : ConfigurationSpec
  Status : ConfigurationStatus
deriving DecidableEq, Repr

structure NetworkSpec where
  CIDR : String
deriving DecidableEq, Repr

structure NetworkStatus where
  CIDR : String
deriving DecidableEq, Repr

/-- The resource `ipamv1alpha1.Network`. -/
structure Network where
  Name : String
  Namespace : String
  Labels : List (String × String)
  OwnerReferences : List OwnerReference
  Spec : NetworkSpec
  Status : NetworkStatus
deriving DecidableEq, Repr

/-- Go: `ctrlutil.SetOwnerReference(owner, object, scheme)` for a `Configuration` owner and a
`Network` object. The owner is validated (a namespaced owner needs an object of its namespace),
its group-version-kind is read from the scheme and the owner reference is upserted; on an error
the object is left as it is. The error itself is dropped by the only caller and is not returned
here. -/
def SetOwnerReference (owner : Configuration) (object : Network) (scheme : Scheme) : Network :=
  if owner.Namespace ≠ "" ∧ (object.Namespace = "" ∨ owner.Namespace ≠ object.Namespace) then
    object
  else
    match scheme.configurationGVK with
    | none => object
    | some (groupVersion, kind) =>
      { object with
        OwnerReferences := upsertOwnerRef
          { APIVersion := groupVersion, Kind := kind, Name := owner.Name, UID := owner.UID }
          object.OwnerReferences }

/-! ## pkg/liqonet/configuration-controller/label.go -/

/-- Go: `const LabelCIDRType`. -/
def LabelCIDRType : String := "configuration.liqo.io/cidr-type"

/-- Go: `type LabelCIDRTypeValue string`. -/
abbrev LabelCIDRTypeValue := String

def LabelCIDRTypePod : LabelCIDRTypeValue := "pod"

def LabelCIDRTypeExternal : LabelCIDRTypeValue := "external"

def LabelCIDRTypeValues : List LabelCIDRTypeValue := [LabelCIDRTypePod, LabelCIDRTypeExternal]

/-- Go: `ForgeLabel(cidrType)`: the map with the single entry `LabelCIDRType: cidrType`. -/
def ForgeLabel (cidrType : LabelCIDRTypeValue) : List (String × String) :=
  [(LabelCIDRType, cidrType)]

/-- Go: `ForgeLabelSelector(cidrType)`, that is `labels.SelectorFromSet(ForgeLabel(cidrType))`:
the selector of a label set is kept as the set. -/
def ForgeLabelSelector (cidrType : LabelCIDRTypeValue) : List (String × String) :=
  ForgeLabel cidrType

/-- The text of the selector of a label set: `k=v` joined by commas. -/
def labelSetString (ls : List (String × String)) : String :=
  ",".intercalate (ls.map (fun kv => kv.1 ++ "=" ++ kv.2))

/-! ## pkg/liqonet/configuration-controller/network.go -/

/-- Go: `ForgeNetwork(cfg, cidrType, scheme)`. -/
def ForgeNetwork (cfg : Configuration) (cidrType : LabelCIDRTypeValue) (scheme : Scheme) :
    Network :=
  let network : Network :=
    { Name := cfg.Name ++ "-" ++ cidrType,
      Namespace := cfg.Namespace,
      Labels := ForgeLabel cidrType,
      OwnerReferences := [],
      Spec := { CIDR := cfg.Spec.Remote.CIDR.Pod },
      Status := { CIDR := "" } }
  SetOwnerReference cfg network scheme

/-- The cluster client as `CreateOrGetNetwork` uses it, over a cluster state `σ`:
`getters.ListNetworkByLabel(ctx, cl, ns, ls)`, which is not among the sources, and
`cl.Create(ctx, network)`, which on success stores the object and writes the stored object back
through the pointer. -/
structure Client (σ : Type) where
  ListNetworkByLabel : σ → String → List (String × String) → Except String (List Network)
  Create : σ → Network → σ × Except String Network

/-- Go: `CreateOrGetNetwork(ctx, cl, scheme, cfg, cidrType)`. The result is the cluster state, the
returned pointer (`none` for nil) and the returned error. -/
def CreateOrGetNetwork {σ : Type} (cl : Client σ) (s : σ) (scheme : Scheme) (cfg : Configuration)
    (cidrType : LabelCIDRTypeValue) : σ × Option Network × Option String :=
  let ls := ForgeLabelSelector cidrType
  let ns := cfg.Namespace
  match cl.ListNetworkByLabel s ns ls with
  | Except.error err => (s, none, some err)
  | Except.ok items =>
    if items.length = 1 then (s, items.head?, none)
    else if items.length > 1 then
      (s, none, some ("multiple networks found with label selector '" ++ labelSetString ls ++ "'"))
    else
      let network := ForgeNetwork cfg cidrType scheme
      match cl.Create s network with
      | (s1, Except.error err) => (s1, none, some err)
      | (s1, Except.ok stored) => (s1, some stored, none)

/-! ## pkg/liqonet/configuration-controller/configuration-controller.go -/

/-- How a call of `RemapConfiguration` ends: it returns `(requeue, err)` and leaves the
configuration as `cfg`, or it faults on the dereference of a nil pointer. -/
inductive RemapOutcome where
  | returned (requeue : Bool) (err : Option String) (cfg : Configuration)
  | nilPointerDereference
deriving DecidableEq, Repr

/-- The loop of `RemapConfiguration` over the CIDR types; `cidrRemapped` is declared before the
loop and keeps its value when the type is neither `pod` nor `external`. The informational log line
is left out. -/
def remapLoop {σ : Type} (cl : Client σ) (scheme : Scheme) :
    List LabelCIDRTypeValue → String → σ → Configuration → σ × RemapOutcome
  | [], _, s, cfg => (s, RemapOutcome.returned false none cfg)
  | cidrType :: rest, cidrRemapped0, s, cfg =>
    let cidrRemapped :=
      if cidrType = LabelCIDRTypePod then cfg.Status.Remote.CIDR.Pod
      else if cidrType = LabelCIDRTypeExternal then cfg.Status.Remote.CIDR.External
      else cidrRemapped0
    if cidrRemapped ≠ "" then remapLoop cl scheme rest cidrRemapped s cfg
    else
      match CreateOrGetNetwork cl s scheme cfg cidrType with
      | (s1, network, some err) =>
        -- fmt.Errorf(" %w --> Unable to create or get the network '%s'", err, network.Name)
        match network with
        | none => (s1, RemapOutcome.nilPointerDereference)
        | some n =>
          (s1, RemapOutcome.returned true
            (some (" " ++ err ++ " --> Unable to create or get the network '" ++ n.Name ++ "'"))
            cfg)
      | (s1, network, none) =>
        match network with
        | none => (s1, RemapOutcome.nilPointerDereference)
        | some n =>
          if n.Status.CIDR = "" then (s1, RemapOutcome.returned true none cfg)
          else
            let cfg1 : Configuration :=
              if cidrType = LabelCIDRTypePod then
                { cfg with Status := { Remote := { CIDR :=
                    { cfg.Status.Remote.CIDR with Pod := n.Status.CIDR } } } }
              else if cidrType = LabelCIDRTypeExternal then
                { cfg with Status := { Remote := { CIDR :=
                    { cfg.Status.Remote.CIDR with External := n.Status.CIDR } } } }
              else cfg
            remapLoop cl scheme rest cidrRemapped s1 cfg1

/-- Go: `(r *ConfigurationReconciler).RemapConfiguration(ctx, cfg)`; `r.Client` and `r.Scheme`
are `cl` and `scheme`. -/
def RemapConfiguration {σ : Type} (cl : Client σ) (scheme : Scheme) (s : σ)
    (cfg : Configuration) : σ × RemapOutcome :=
  remapLoop cl scheme LabelCIDRTypeValues "" s cfg

/-! ## Definitions that follow the wording of the specification -/

/-- A term is degenerate when it has no label requirement and no field requirement. -/
def degenerate (t : NodeSelectorTerm) : Bool :=
  t.MatchExpressions.isEmpty && t.MatchFields.isEmpty

/-- A label requirement is accepted by a label set when its operator is one of the six supported
ones and the requirement (key, operator, values) holds of the label set. -/
def labelRequirementAccepts (ls : LabelSet) (e : NodeSelectorRequirement) : Bool :=
  match selectionOperator e.Operator with
  | some op => Requirement.Matches { key := e.Key, operator := op, strValues := e.Values } ls
  | none => false

/-- A field requirement is accepted by a field set when its operator is `In` and the observed
value of the field is among its values, or its operator is `NotIn` and the observed value is not
among its values. -/
def fieldRequirementAccepts (fs : FieldSet) (e : NodeSelectorRequirement) : Bool :=
  if e.Operator = NodeSelectorOpIn then e.Values.contains (fs.Get e.Key)
  else if e.Operator = NodeSelectorOpNotIn then !e.Values.contains (fs.Get e.Key)
  else false

/-- A field requirement is well formed when its operator is `In` or `NotIn` and it has exactly one
value. -/
def fieldRequirementValid (e : NodeSelectorRequirement) : Bool :=
  (e.Operator = NodeSelectorOpIn || e.Operator = NodeSelectorOpNotIn) && e.Values.length = 1

/-- The convergence call the specification prescribes for a candidate: add-desired-mapping when
the candidate matched the expression, remove-desired-mapping when it did not, on the mapping-state
record found under the cluster identifier of the candidate. -/
def convergenceCall (remoteNamespace : String) (nsoff : NamespaceOffloading)
    (clusterIDMap : ClusterIDMap) (vn : VirtualNode) : Call :=
  if (MatchSelectorTerms (some vn) nsoff.ClusterSelector).matched
  then Call.add nsoff.Namespace remoteNamespace (clusterIDMap.lookup vn.ClusterID)
  else Call.remove nsoff.Namespace (clusterIDMap.lookup vn.ClusterID)

/-- The call to the Mapping Store that the loop of `enforceClusterSelector` makes for a candidate
whose match returned no error: the new state of the store and the returned error. -/
def convergenceStep {σ : Type} (r : Reconciler σ) (nsoff : NamespaceOffloading)
    (clusterIDMap : ClusterIDMap) (vn : VirtualNode) (s : σ) : σ × Option String :=
  if (MatchSelectorTerms (some vn) nsoff.ClusterSelector).matched
  then r.addDesiredMapping s nsoff.Namespace (r.remoteNamespaceName nsoff)
    (clusterIDMap.lookup vn.ClusterID)
  else r.removeDesiredMapping s nsoff.Namespace (clusterIDMap.lookup vn.ClusterID)

/-- The record of that call: the call and whether it returned an error. -/
def convergenceRecord {σ : Type} (r : Reconciler σ) (nsoff : NamespaceOffloading)
    (clusterIDMap : ClusterIDMap) (vn : VirtualNode) (s : σ) : CallRecord :=
  { call := convergenceCall (r.remoteNamespaceName nsoff) nsoff clusterIDMap vn,
    failed := (convergenceStep r nsoff clusterIDMap vn s).2.isSome }

/-- The convergence calls of the candidates that precede the first candidate for which the match
returns an error (of all the candidates when there is none). -/
def passCalls (remoteNamespace : String) (nsoff : NamespaceOffloading)
    (clusterIDMap : ClusterIDMap) : List VirtualNode → List Call
  | [] => []
  | vn :: rest =>
    match (MatchSelectorTerms (some vn) nsoff.ClusterSelector).err with
    | some _ => []
    | none =>
      convergenceCall remoteNamespace nsoff clusterIDMap vn
        :: passCalls remoteNamespace nsoff clusterIDMap rest

/-- The effect of one call on the Mapping Store seen as a set of cluster identifiers. -/
def applyCall (s : Finset String) : Call → Finset String
  | Call.add ns remoteNamespace nm => (setAddDesiredMapping s ns remoteNamespace nm).1
  | Call.remove ns nm => (setRemoveDesiredMapping s ns nm).1

/-- Whether the cluster identifier `k` is in the set after one call, `b` telling whether it was
in the set before. -/
def stepMem (k : String) (b : Bool) : Call → Bool
  | Call.add _ _ (some m) => if m.RemoteClusterID = k then true else b
  | Call.remove _ (some m) => if m.RemoteClusterID = k then false else b
  | _ => b

/-- A label requirement compiles when its operator is one of the six supported ones and
`labels.NewRequirement` reports no error for it (the path only labels the errors). -/
def labelRequirementCompiles (e : NodeSelectorRequirement) : Bool :=
  match selectionOperator e.Operator with
  | some op => (NewRequirement e.Key op e.Values []).2.isNone
  | none => false

/-- A term compiles without errors when all its label requirements compile and all its field
requirements are well formed. -/
def termCompiles (t : NodeSelectorTerm) : Bool :=
  t.MatchExpressions.all labelRequirementCompiles && t.MatchFields.all fieldRequirementValid

/-- A term matches a candidate, whatever its position in the expression: it is not degenerate, it
compiles, its label requirements are all accepted and its field requirements are all accepted or
the field check is skipped. -/
def termMatches (c : VirtualNode) (t : NodeSelectorTerm) : Bool :=
  !degenerate t && termCompiles t
  && t.MatchExpressions.all (labelRequirementAccepts c.Labels)
  && (t.MatchFields.isEmpty || (extractVirtualNodeFields c).isEmpty
      || t.MatchFields.all (fieldRequirementAccepts (extractVirtualNodeFields c)))

/-- A term is broken when it is not degenerate and does not compile. -/
def termBroken (t : NodeSelectorTerm) : Bool := !degenerate t && !termCompiles t

/-- The expression without its degenerate terms. -/
def removeDegenerate (E : NodeSelector) : NodeSelector :=
  { NodeSelectorTerms := E.NodeSelectorTerms.filter (fun t => !degenerate t) }

/-- The compile errors collected from all the compiled terms of a selector, in the order of the
terms, the errors of an aggregate taken one by one. -/
def collectedErrors (vns : Selector) : List FieldError :=
  flattenErrors (vns.terms.flatMap (fun t => t.parseErrs.getD []))

/-- The mapping-state record a call is invoked with, `none` for a nil pointer. -/
def callRecord : Call → Option NamespaceMap
  | Call.add _ _ nm => nm
  | Call.remove _ nm => nm

/-- The cluster identifier a call targets: that of the record it is invoked with. -/
def callTarget (c : Call) : Option String := (callRecord c).map (fun m => m.RemoteClusterID)

/-- What the Mapping Store does with one call received in the state `s`: the new state and the
error it returns, `none` for nil. -/
def issueCall {σ : Type} (r : Reconciler σ) (s : σ) : Call → σ × Option String
  | Call.add ns remoteNamespace nm => r.addDesiredMapping s ns remoteNamespace nm
  | Call.remove ns nm => r.removeDesiredMapping s ns nm

/-- The errors that the Mapping Store returns for a list of calls received one after the other
from the state `s`. -/
def storeAnswers {σ : Type} (r : Reconciler σ) : σ → List Call → List (Option String)
  | _, [] => []
  | s, c :: rest => (issueCall r s c).2 :: storeAnswers r (issueCall r s c).1 rest

/-- No error of the list is an aggregate without errors. -/
def noEmptyAggregate (es : List Err) : Prop := ∀ a, Err.aggregate a ∈ es → a ≠ []

/-! ## Lemmas on the loops -/

theorem newSelectorLoop_degenerate (path : Path) (ts : List NodeSelectorTerm) :
    ∀ (i : Nat) (acc : List selectorTerm),
      (∀ t ∈ ts, isEmptyVirtualNodeSelectorTerm t = true) → newSelectorLoop path i ts acc = acc := by
  induction ts with
  | nil => intro i acc _; rfl
  | cons t rest ih =>
    intro i acc h
    have ht : isEmptyVirtualNodeSelectorTerm t = true := h t (List.mem_cons_self _ _)
    simp only [newSelectorLoop, ht, if_true]
    exact ih (i + 1) acc (fun u hu => h u (List.mem_cons_of_mem _ hu))

/-! ## Lemmas on `selectorTerm.match` and the loop of `Match` -/

theorem doMatch_snd_of_true (t : selectorTerm) (ls : LabelSet) (fs : FieldSet)
    (h : (t.doMatch ls fs).1 = true) : (t.doMatch ls fs).2 = none := by
  unfold selectorTerm.doMatch at h ⊢
  split_ifs at h ⊢
  all_goals simp_all

theorem doMatch_snd (t : selectorTerm) (ls : LabelSet) (fs : FieldSet) :
    (t.doMatch ls fs).2 = t.parseErrs := by
  unfold selectorTerm.doMatch
  split_ifs with h1 <;> simp_all

theorem doMatch_false_of_parseErrs (t : selectorTerm) (ls : LabelSet) (fs : FieldSet)
    (h : t.parseErrs ≠ none) : (t.doMatch ls fs).1 = false := by
  unfold selectorTerm.doMatch
  simp [h]

theorem matchLoop_matched_iff (name : String) (ls : LabelSet) (fs : FieldSet)
    (terms : List selectorTerm) :
    ∀ (errs : List Err) (out : List String),
      (matchLoop name ls fs terms errs out).matched = true
        ↔ ∃ t ∈ terms, (t.doMatch ls fs).1 = true := by
  induction terms with
  | nil => intro errs out; simp [matchLoop]
  | cons t rest ih =>
    intro errs out
    unfold matchLoop
    by_cases hlen : goLen (t.doMatch ls fs).2 > 0
    · have hf : (t.doMatch ls fs).1 = false := by
        cases hb : (t.doMatch ls fs).1 with
        | false => rfl
        | true =>
          have := doMatch_snd_of_true t ls fs hb
          rw [this] at hlen
          simp [goLen] at hlen
      simp only [hlen, if_true, ih, List.mem_cons, exists_eq_or_imp, hf, Bool.false_eq_true,
        false_or]
    · cases hb : (t.doMatch ls fs).1 with
      | true => simp [hlen, hb]
      | false => simp [hlen, hb, ih]

theorem matchLoop_err_of_matched (name : String) (ls : LabelSet) (fs : FieldSet)
    (terms : List selectorTerm) :
    ∀ (errs : List Err) (out : List String),
      (matchLoop name ls fs terms errs out).matched = true →
        (matchLoop name ls fs terms errs out).err = none := by
  induction terms with
  | nil => intro errs out h; simp [matchLoop] at h
  | cons t rest ih =>
    intro errs out
    unfold matchLoop
    by_cases hlen : goLen (t.doMatch ls fs).2 > 0
    · simp only [hlen, if_true]; exact ih _ _
    · cases hb : (t.doMatch ls fs).1 with
      | true => intro _; simp [hlen, hb]
      | false => simp only [hlen, if_false, hb, Bool.false_eq_true]; exact ih _ _

theorem matchLoop_err_of_unmatched (name : String) (ls : LabelSet) (fs : FieldSet)
    (terms : List selectorTerm) :
    ∀ (errs : List Err) (out : List String),
      (∀ t ∈ terms, (t.doMatch ls fs).1 = false) →
        (matchLoop name ls fs terms errs out).err
          = Flatten (NewAggregate (errs ++ terms.flatMap (fun t => t.parseErrs.getD []))) := by
  induction terms with
  | nil => intro errs out _; simp [matchLoop]
  | cons t rest ih =>
    intro errs out h
    have hf : (t.doMatch ls fs).1 = false := h t (List.mem_cons_self _ _)
    have hrest : ∀ u ∈ rest, (u.doMatch ls fs).1 = false :=
      fun u hu => h u (List.mem_cons_of_mem _ hu)
    unfold matchLoop
    simp only [doMatch_snd]
    by_cases hlen : goLen t.parseErrs > 0
    · simp only [hlen, if_true, ih _ _ hrest, List.flatMap_cons, List.append_assoc]
    · have hnil : t.parseErrs.getD [] = [] := by
        cases hp : t.parseErrs with
        | none => rfl
        | some l =>
          rw [hp] at hlen
          simp only [goLen, gt_iff_lt, List.length_pos, ne_eq, not_not] at hlen
          simp [hlen]
      simp only [hlen, if_false, hf, Bool.false_eq_true, ih _ _ hrest, List.flatMap_cons, hnil,
        List.nil_append]

/-! ## Lemmas on the errors that compilation records -/

theorem ToAggregate_ne_nil (l : List FieldError) (a : Aggregate) (h : ToAggregate l = some a) :
    a ≠ [] := by
  unfold ToAggregate NewAggregateOfFieldErrors at h
  split_ifs at h with h1 h2
  simp only [Option.some.injEq] at h
  subst h
  intro hnil
  exact h2 (by simp [hnil])

theorem noEmptyAggregate_append (xs ys : List Err) (hx : noEmptyAggregate xs)
    (hy : noEmptyAggregate ys) : noEmptyAggregate (xs ++ ys) := by
  intro a ha
  rcases List.mem_append.mp ha with h | h
  · exact hx a h
  · exact hy a h

theorem noEmptyAggregate_fieldError (xs : List Err) (e : FieldError) (hx : noEmptyAggregate xs) :
    noEmptyAggregate (xs ++ [Err.fieldError e]) := by
  apply noEmptyAggregate_append _ _ hx
  intro a ha
  simp at ha

theorem flattenErrors_append (xs ys : List Err) :
    flattenErrors (xs ++ ys) = flattenErrors xs ++ flattenErrors ys := by
  induction xs with
  | nil => rfl
  | cons x rest ih =>
    cases x with
    | fieldError e => simp [flattenErrors, ih]
    | aggregate es => simp [flattenErrors, ih]

theorem flattenErrors_eq_nil_iff (es : List Err) (h : noEmptyAggregate es) :
    flattenErrors es = [] ↔ es = [] := by
  constructor
  · intro hf
    cases es with
    | nil => rfl
    | cons x rest =>
      exfalso
      cases x with
      | fieldError e => simp [flattenErrors] at hf
      | aggregate a =>
        have ha : a ≠ [] := h a (List.mem_cons_self _ _)
        cases a with
        | nil => exact ha rfl
        | cons y ys => simp [flattenErrors, NewAggregateOfFieldErrors] at hf
  · intro he; subst he; rfl

theorem labelSelectorLoop_errs_ne_nil (path : Path) (nsm : List NodeSelectorRequirement) :
    ∀ (i : Nat) (errs : List Err) (sel : List Requirement),
      errs ≠ [] → (labelSelectorLoop path i nsm errs sel).1 ≠ [] := by
  induction nsm with
  | nil => intro i errs sel h; simpa [labelSelectorLoop] using h
  | cons e rest ih =>
    intro i errs sel h
    unfold labelSelectorLoop
    cases hop : selectionOperator e.Operator with
    | none => exact ih _ _ _ (by simp)
    | some op =>
      cases hr : (NewRequirement e.Key op e.Values (Path.Index path i)).2 with
      | none => simp only [hr]; exact ih _ _ _ h
      | some err => simp only [hr]; exact ih _ _ _ (by simp)

theorem labelSelectorLoop_noEmptyAggregate (path : Path) (nsm : List NodeSelectorRequirement) :
    ∀ (i : Nat) (errs : List Err) (sel : List Requirement),
      noEmptyAggregate errs → noEmptyAggregate (labelSelectorLoop path i nsm errs sel).1 := by
  induction nsm with
  | nil => intro i errs sel h; simpa [labelSelectorLoop] using h
  | cons e rest ih =>
    intro i errs sel h
    unfold labelSelectorLoop
    cases hop : selectionOperator e.Operator with
    | none => exact ih _ _ _ (noEmptyAggregate_fieldError _ _ h)
    | some op =>
      cases hr : (NewRequirement e.Key op e.Values (Path.Index path i)).2 with
      | none => simp only [hr]; exact ih _ _ _ h
      | some err =>
        simp only [hr]
        apply ih
        apply noEmptyAggregate_append _ _ h
        intro a ha
        simp only [List.mem_singleton, Err.aggregate.injEq] at ha
        subst ha
        exact ToAggregate_ne_nil _ _ hr

theorem labelSelectorLoop_unsupported (path : Path) (nsm : List NodeSelectorRequirement) :
    ∀ (i : Nat) (errs : List Err) (sel : List Requirement),
      (∃ e ∈ nsm, selectionOperator e.Operator = none) →
        (labelSelectorLoop path i nsm errs sel).1 ≠ [] := by
  induction nsm with
  | nil => intro i errs sel h; simp at h
  | cons e rest ih =>
    intro i errs sel h
    unfold labelSelectorLoop
    cases hop : selectionOperator e.Operator with
    | none => exact labelSelectorLoop_errs_ne_nil _ _ _ _ _ (by simp)
    | some op =>
      have hrest : ∃ u ∈ rest, selectionOperator u.Operator = none := by
        obtain ⟨u, hu, hnone⟩ := h
        rcases List.mem_cons.mp hu with rfl | hmem
        · rw [hop] at hnone; cases hnone
        · exact ⟨u, hmem, hnone⟩
      cases hr : (NewRequirement e.Key op e.Values (Path.Index path i)).2 with
      | none => simp only [hr]; exact ih _ _ _ hrest
      | some err => simp only [hr]; exact ih _ _ _ hrest

theorem labelSelectorLoop_matches (path : Path) (ls : LabelSet)
    (nsm : List NodeSelectorRequirement) :
    ∀ (i : Nat) (errs : List Err) (sel : List Requirement),
      (labelSelectorLoop path i nsm errs sel).1 = [] →
        (labelSelectorLoop path i nsm errs sel).2.all (fun r => r.Matches ls)
          = (sel.all (fun r => r.Matches ls) && nsm.all (labelRequirementAccepts ls)) := by
  induction nsm with
  | nil => intro i errs sel _; simp [labelSelectorLoop]
  | cons e rest ih =>
    intro i errs sel h
    unfold labelSelectorLoop at h ⊢
    cases hop : selectionOperator e.Operator with
    | none =>
      simp only [hop] at h
      exact absurd h (labelSelectorLoop_errs_ne_nil _ _ _ _ _ (by simp))
    | some op =>
      simp only [hop] at h
      cases hr : (NewRequirement e.Key op e.Values (Path.Index path i)).2 with
      | none =>
        simp only [hr] at h ⊢
        rw [ih _ _ _ h]
        simp [internalSelectorAdd, labelRequirementAccepts, hop, NewRequirement, Bool.and_assoc]
      | some err =>
        simp only [hr] at h
        exact absurd h (labelSelectorLoop_errs_ne_nil _ _ _ _ _ (by simp))

theorem NodeSelectorOpNotIn_ne_In : ¬ NodeSelectorOpNotIn = NodeSelectorOpIn := by decide

theorem fieldSelectorLoop_errs_length (path : Path) (nsr : List NodeSelectorRequirement) :
    ∀ (i : Nat) (errs : List Err) (sels : List FieldTerm),
      (fieldSelectorLoop path i nsr errs sels).1.length
        = errs.length + (nsr.filter (fun e => !fieldRequirementValid e)).length := by
  induction nsr with
  | nil => intro i errs sels; simp [fieldSelectorLoop]
  | cons e rest ih =>
    intro i errs sels
    unfold fieldSelectorLoop
    by_cases hin : e.Operator = NodeSelectorOpIn
    · by_cases hv : e.Values.length = 1
      · simp [hin, hv, ih, fieldRequirementValid]
      · simp [hin, hv, ih, fieldRequirementValid]; omega
    · by_cases hnin : e.Operator = NodeSelectorOpNotIn
      · by_cases hv : e.Values.length = 1
        · simp [hnin, NodeSelectorOpNotIn_ne_In, hv, ih, fieldRequirementValid]
        · simp [hnin, NodeSelectorOpNotIn_ne_In, hv, ih, fieldRequirementValid]; omega
      · simp [hin, hnin, ih, fieldRequirementValid]; omega

theorem fieldSelectorLoop_errs_ne_nil (path : Path) (nsr : List NodeSelectorRequirement)
    (i : Nat) (errs : List Err) (sels : List FieldTerm) (h : errs ≠ []) :
    (fieldSelectorLoop path i nsr errs sels).1 ≠ [] := by
  intro hnil
  have hlen := fieldSelectorLoop_errs_length path nsr i errs sels
  rw [hnil] at hlen
  have : 0 < errs.length := List.length_pos.mpr h
  simp only [List.length_nil] at hlen
  omega

theorem fieldSelectorLoop_noEmptyAggregate (path : Path) (nsr : List NodeSelectorRequirement) :
    ∀ (i : Nat) (errs : List Err) (sels : List FieldTerm),
      noEmptyAggregate errs → noEmptyAggregate (fieldSelectorLoop path i nsr errs sels).1 := by
  induction nsr with
  | nil => intro i errs sels h; simpa [fieldSelectorLoop] using h
  | cons e rest ih =>
    intro i errs sels h
    unfold fieldSelectorLoop
    split_ifs
    · exact ih _ _ _ (noEmptyAggregate_fieldError _ _ h)
    · exact ih _ _ _ h
    · exact ih _ _ _ (noEmptyAggregate_fieldError _ _ h)
    · exact ih _ _ _ h
    · exact ih _ _ _ (noEmptyAggregate_fieldError _ _ h)

theorem hasTerm_matches (fs : FieldSet) (e : NodeSelectorRequirement)
    (hin : e.Operator = NodeSelectorOpIn) (hv : e.Values.length = 1) :
    (FieldTerm.hasTerm e.Key (e.Values.headD "")).Matches fs = fieldRequirementAccepts fs e := by
  obtain ⟨v, hv1⟩ := List.length_eq_one.mp hv
  simp [fieldRequirementAccepts, hin, FieldTerm.Matches, hv1, beq_eq_decide]

theorem notHasTerm_matches (fs : FieldSet) (e : NodeSelectorRequirement)
    (hnin : e.Operator = NodeSelectorOpNotIn) (hv : e.Values.length = 1) :
    (FieldTerm.notHasTerm e.Key (e.Values.headD "")).Matches fs = fieldRequirementAccepts fs e := by
  obtain ⟨v, hv1⟩ := List.length_eq_one.mp hv
  simp [fieldRequirementAccepts, hnin, NodeSelectorOpNotIn_ne_In, FieldTerm.Matches, hv1, bne,
    beq_eq_decide]

theorem fieldSelectorLoop_matches (path : Path) (fs : FieldSet)
    (nsr : List NodeSelectorRequirement) :
    ∀ (i : Nat) (errs : List Err) (sels : List FieldTerm),
      (fieldSelectorLoop path i nsr errs sels).1 = [] →
        (fieldSelectorLoop path i nsr errs sels).2.all (fun t => t.Matches fs)
          = (sels.all (fun t => t.Matches fs) && nsr.all (fieldRequirementAccepts fs)) := by
  induction nsr with
  | nil => intro i errs sels _; simp [fieldSelectorLoop]
  | cons e rest ih =>
    intro i errs sels h
    unfold fieldSelectorLoop at h ⊢
    by_cases hin : e.Operator = NodeSelectorOpIn
    · by_cases hv : e.Values.length = 1
      · simp only [hin, hv, if_true, ne_eq, not_true_eq_false, if_false] at h ⊢
        rw [ih _ _ _ h]
        rw [List.all_append, List.all_cons, List.all_cons, List.all_nil, Bool.and_true,
          Bool.and_assoc, hasTerm_matches fs e hin hv]
      · simp only [hin, hv, if_true, ne_eq, not_false_eq_true] at h
        exact absurd h (fieldSelectorLoop_errs_ne_nil _ _ _ _ _ (by simp))
    · by_cases hnin : e.Operator = NodeSelectorOpNotIn
      · by_cases hv : e.Values.length = 1
        · simp only [hnin, NodeSelectorOpNotIn_ne_In, hv, if_true, ne_eq, not_true_eq_false,
            if_false] at h ⊢
          rw [ih _ _ _ h]
          rw [List.all_append, List.all_cons, List.all_cons, List.all_nil, Bool.and_true,
            Bool.and_assoc, notHasTerm_matches fs e hnin hv]
        · simp only [hnin, NodeSelectorOpNotIn_ne_In, hv, if_true, if_false, ne_eq,
            not_false_eq_true] at h
          exact absurd h (fieldSelectorLoop_errs_ne_nil _ _ _ _ _ (by simp))
      · simp only [hin, hnin, if_false] at h
        exact absurd h (fieldSelectorLoop_errs_ne_nil _ _ _ _ _ (by simp))

/-! ## Lemmas on the compilation of a term -/

theorem nodeSelectorRequirementsAsSelector_eq (nsm : List NodeSelectorRequirement) (path : Path)
    (hne : nsm.length ≠ 0) :
    nodeSelectorRequirementsAsSelector nsm path =
      if (labelSelectorLoop path 0 nsm [] []).1 = []
      then (some (LabelsSelector.internal (labelSelectorLoop path 0 nsm [] []).2), none)
      else (none, some (labelSelectorLoop path 0 nsm [] []).1) := by
  unfold nodeSelectorRequirementsAsSelector
  rw [if_neg hne]
  by_cases h : (labelSelectorLoop path 0 nsm [] []).1 = []
  · simp [h]
  · simp [h]

theorem virtualNodeSelectorRequirementsAsFieldSelector_eq (nsr : List NodeSelectorRequirement)
    (path : Path) (hne : nsr.length ≠ 0) :
    virtualNodeSelectorRequirementsAsFieldSelector nsr path =
      if (fieldSelectorLoop path 0 nsr [] []).1 = []
      then (some (FieldsSelector.andTerm (fieldSelectorLoop path 0 nsr [] []).2), none)
      else (none, some (fieldSelectorLoop path 0 nsr [] []).1) := by
  unfold virtualNodeSelectorRequirementsAsFieldSelector
  rw [if_neg hne]
  by_cases h : (fieldSelectorLoop path 0 nsr [] []).1 = []
  · simp [h]
  · simp [h]

theorem labelErrs_spec (nsm : List NodeSelectorRequirement) (path : Path) (es : List Err)
    (h : (nodeSelectorRequirementsAsSelector nsm path).2 = some es) :
    es ≠ [] ∧ noEmptyAggregate es := by
  by_cases hne : nsm.length = 0
  · simp [nodeSelectorRequirementsAsSelector, hne] at h
  · rw [nodeSelectorRequirementsAsSelector_eq nsm path hne] at h
    by_cases h0 : (labelSelectorLoop path 0 nsm [] []).1 = []
    · rw [if_pos h0] at h
      simp at h
    · rw [if_neg h0] at h
      simp only [Option.some.injEq] at h
      subst h
      refine ⟨h0, ?_⟩
      apply labelSelectorLoop_noEmptyAggregate
      intro a ha
      simp at ha

theorem fieldErrs_spec (nsr : List NodeSelectorRequirement) (path : Path) (es : List Err)
    (h : (virtualNodeSelectorRequirementsAsFieldSelector nsr path).2 = some es) :
    es ≠ [] ∧ noEmptyAggregate es := by
  by_cases hne : nsr.length = 0
  · simp [virtualNodeSelectorRequirementsAsFieldSelector, hne] at h
  · rw [virtualNodeSelectorRequirementsAsFieldSelector_eq nsr path hne] at h
    by_cases h0 : (fieldSelectorLoop path 0 nsr [] []).1 = []
    · rw [if_pos h0] at h
      simp at h
    · rw [if_neg h0] at h
      simp only [Option.some.injEq] at h
      subst h
      refine ⟨h0, ?_⟩
      apply fieldSelectorLoop_noEmptyAggregate
      intro a ha
      simp at ha

theorem labelSelector_of_no_errs (nsm : List NodeSelectorRequirement) (path : Path)
    (ls : LabelSet) (hne : nsm.length ≠ 0)
    (h : (nodeSelectorRequirementsAsSelector nsm path).2 = none) :
    ∃ l, (nodeSelectorRequirementsAsSelector nsm path).1 = some l
      ∧ l.Matches ls = nsm.all (labelRequirementAccepts ls) := by
  rw [nodeSelectorRequirementsAsSelector_eq nsm path hne] at h ⊢
  by_cases h0 : (labelSelectorLoop path 0 nsm [] []).1 = []
  · rw [if_pos h0]
    refine ⟨_, rfl, ?_⟩
    simp only [LabelsSelector.Matches]
    rw [labelSelectorLoop_matches path ls nsm 0 [] [] h0]
    simp
  · rw [if_neg h0] at h
    simp at h

theorem fieldSelector_of_no_errs (nsr : List NodeSelectorRequirement) (path : Path)
    (fs : FieldSet) (hne : nsr.length ≠ 0)
    (h : (virtualNodeSelectorRequirementsAsFieldSelector nsr path).2 = none) :
    ∃ f, (virtualNodeSelectorRequirementsAsFieldSelector nsr path).1 = some f
      ∧ f.Matches fs = nsr.all (fieldRequirementAccepts fs) := by
  rw [virtualNodeSelectorRequirementsAsFieldSelector_eq nsr path hne] at h ⊢
  by_cases h0 : (fieldSelectorLoop path 0 nsr [] []).1 = []
  · rw [if_pos h0]
    refine ⟨_, rfl, ?_⟩
    simp only [FieldsSelector.Matches]
    rw [fieldSelectorLoop_matches path fs nsr 0 [] [] h0]
    simp
  · rw [if_neg h0] at h
    simp at h

theorem labelErrs_of_empty (nsm : List NodeSelectorRequirement) (path : Path)
    (h : nsm.length = 0) : (nodeSelectorRequirementsAsSelector nsm path).2 = none := by
  simp [nodeSelectorRequirementsAsSelector, h]

theorem fieldErrs_of_empty (nsr : List NodeSelectorRequirement) (path : Path)
    (h : nsr.length = 0) : (virtualNodeSelectorRequirementsAsFieldSelector nsr path).2 = none := by
  simp [virtualNodeSelectorRequirementsAsFieldSelector, h]

theorem goAppend_nil {α : Type} (s : Option (List α)) : goAppend s [] = s := by
  cases s <;> simp [goAppend]

theorem newVirtualNodeSelectorTerm_eq (term : NodeSelectorTerm) (path : Path) :
    newVirtualNodeSelectorTerm term path =
      { matchLabels :=
          if term.MatchExpressions.length ≠ 0
          then (nodeSelectorRequirementsAsSelector term.MatchExpressions
            (path.Child "matchExpressions")).1
          else none,
        matchFields :=
          if term.MatchFields.length ≠ 0
          then (virtualNodeSelectorRequirementsAsFieldSelector term.MatchFields
            (path.Child "matchFields")).1
          else none,
        parseErrs :=
          goAppend
            (goAppend none ((nodeSelectorRequirementsAsSelector term.MatchExpressions
              (path.Child "matchExpressions")).2.getD []))
            ((virtualNodeSelectorRequirementsAsFieldSelector term.MatchFields
              (path.Child "matchFields")).2.getD []) } := by
  unfold newVirtualNodeSelectorTerm
  by_cases h1 : term.MatchExpressions.length = 0
  · have hA := labelErrs_of_empty term.MatchExpressions (path.Child "matchExpressions") h1
    by_cases h2 : term.MatchFields.length = 0
    · have hB := fieldErrs_of_empty term.MatchFields (path.Child "matchFields") h2
      simp [h1, h2, hA, hB, goAppend]
    · cases hB : (virtualNodeSelectorRequirementsAsFieldSelector term.MatchFields
          (path.Child "matchFields")).2 with
      | none => simp [h1, h2, hA, hB, goAppend]
      | some es => simp [h1, h2, hA, hB, goAppend_nil]
  · cases hA : (nodeSelectorRequirementsAsSelector term.MatchExpressions
        (path.Child "matchExpressions")).2 with
    | none =>
      by_cases h2 : term.MatchFields.length = 0
      · have hB := fieldErrs_of_empty term.MatchFields (path.Child "matchFields") h2
        simp [h1, h2, hA, hB, goAppend]
      · cases hB : (virtualNodeSelectorRequirementsAsFieldSelector term.MatchFields
            (path.Child "matchFields")).2 with
        | none => simp [h1, h2, hA, hB, goAppend]
        | some es => simp [h1, h2, hA, hB, goAppend_nil]
    | some el =>
      by_cases h2 : term.MatchFields.length = 0
      · have hB := fieldErrs_of_empty term.MatchFields (path.Child "matchFields") h2
        simp [h1, h2, hA, hB, goAppend_nil]
      · cases hB : (virtualNodeSelectorRequirementsAsFieldSelector term.MatchFields
            (path.Child "matchFields")).2 with
        | none => simp [h1, h2, hA, hB, goAppend_nil]
        | some es => simp [h1, h2, hA, hB]

theorem newVirtualNodeSelectorTerm_parseErrs_none_iff (term : NodeSelectorTerm) (path : Path) :
    (newVirtualNodeSelectorTerm term path).parseErrs = none
      ↔ (nodeSelectorRequirementsAsSelector term.MatchExpressions
            (path.Child "matchExpressions")).2 = none
        ∧ (virtualNodeSelectorRequirementsAsFieldSelector term.MatchFields
            (path.Child "matchFields")).2 = none := by
  rw [newVirtualNodeSelectorTerm_eq]
  cases hA : (nodeSelectorRequirementsAsSelector term.MatchExpressions
      (path.Child "matchExpressions")).2 with
  | none =>
    cases hB : (virtualNodeSelectorRequirementsAsFieldSelector term.MatchFields
        (path.Child "matchFields")).2 with
    | none => simp [goAppend]
    | some es =>
      have := (fieldErrs_spec _ _ _ hB).1
      simp [goAppend, this]
  | some el =>
    have := (labelErrs_spec _ _ _ hA).1
    simp [goAppend, this]

theorem newVirtualNodeSelectorTerm_errs_ok (term : NodeSelectorTerm) (path : Path)
    (es : List Err) (h : (newVirtualNodeSelectorTerm term path).parseErrs = some es) :
    es ≠ [] ∧ noEmptyAggregate es := by
  rw [newVirtualNodeSelectorTerm_eq] at h
  cases hA : (nodeSelectorRequirementsAsSelector term.MatchExpressions
      (path.Child "matchExpressions")).2 with
  | none =>
    cases hB : (virtualNodeSelectorRequirementsAsFieldSelector term.MatchFields
        (path.Child "matchFields")).2 with
    | none => simp [hA, hB, goAppend] at h
    | some eb =>
      have hb := fieldErrs_spec _ _ _ hB
      simp [hA, hB, goAppend, hb.1] at h
      subst h
      exact hb
  | some el =>
    have ha := labelErrs_spec _ _ _ hA
    cases hB : (virtualNodeSelectorRequirementsAsFieldSelector term.MatchFields
        (path.Child "matchFields")).2 with
    | none =>
      simp [hA, hB, goAppend, ha.1] at h
      subst h
      exact ha
    | some eb =>
      have hb := fieldErrs_spec _ _ _ hB
      simp [hA, hB, goAppend, ha.1] at h
      subst h
      exact ⟨by simp [ha.1], noEmptyAggregate_append _ _ ha.2 hb.2⟩

theorem doMatch_fst_iff (ct : selectorTerm) (ls : LabelSet) (fs : FieldSet) :
    (ct.doMatch ls fs).1 = true
      ↔ ct.parseErrs = none
        ∧ (∀ l, ct.matchLabels = some l → l.Matches ls = true)
        ∧ (∀ f, ct.matchFields = some f → fs.length = 0 ∨ f.Matches fs = true) := by
  unfold selectorTerm.doMatch
  by_cases hp : ct.parseErrs = none
  · cases hl : ct.matchLabels with
    | none =>
      cases hf : ct.matchFields with
      | none => simp [hp]
      | some f =>
        by_cases hlen : fs.length = 0
        · simp [hp, hlen]
        · by_cases hm : f.Matches fs = true
          · simp [hp, hm]
          · simp [hp, hm, hlen, Nat.pos_of_ne_zero hlen]
    | some l =>
      by_cases hml : l.Matches ls = true
      · cases hf : ct.matchFields with
        | none => simp [hp, hml]
        | some f =>
          by_cases hlen : fs.length = 0
          · simp [hp, hml, hlen]
          · by_cases hm : f.Matches fs = true
            · simp [hp, hml, hm]
            · simp [hp, hml, hm, hlen, Nat.pos_of_ne_zero hlen]
      · simp [hp, hml]
  · simp [hp]

theorem compiled_doMatch_iff (t : NodeSelectorTerm) (path : Path) (ls : LabelSet) (fs : FieldSet) :
    ((newVirtualNodeSelectorTerm t path).doMatch ls fs).1 = true
      ↔ (newVirtualNodeSelectorTerm t path).parseErrs = none
        ∧ t.MatchExpressions.all (labelRequirementAccepts ls) = true
        ∧ (t.MatchFields.isEmpty = true ∨ fs.isEmpty = true
            ∨ t.MatchFields.all (fieldRequirementAccepts fs) = true) := by
  rw [doMatch_fst_iff]
  apply and_congr_right
  intro hp
  obtain ⟨hA, hB⟩ := (newVirtualNodeSelectorTerm_parseErrs_none_iff t path).mp hp
  rw [newVirtualNodeSelectorTerm_eq]
  apply and_congr
  · by_cases h1 : t.MatchExpressions.length = 0
    · have : t.MatchExpressions = [] := List.length_eq_zero.mp h1
      simp [this]
    · obtain ⟨l, hl, hm⟩ := labelSelector_of_no_errs t.MatchExpressions _ ls h1 hA
      simp only [ne_eq, h1, not_false_eq_true, if_true, hl, Option.some.injEq, forall_eq', hm]
  · by_cases h2 : t.MatchFields.length = 0
    · have : t.MatchFields = [] := List.length_eq_zero.mp h2
      simp [this]
    · obtain ⟨f, hf, hm⟩ := fieldSelector_of_no_errs t.MatchFields _ fs h2 hB
      have hne : t.MatchFields ≠ [] := fun h => h2 (by simp [h])
      simp only [ne_eq, h2, not_false_eq_true, if_true, hf, Option.some.injEq, forall_eq', hm,
        List.isEmpty_iff, hne, false_or, List.length_eq_zero]

theorem mem_newSelectorLoop (path : Path) (ts : List NodeSelectorTerm) :
    ∀ (i : Nat) (acc : List selectorTerm) (ct : selectorTerm),
      ct ∈ newSelectorLoop path i ts acc
        ↔ ct ∈ acc ∨ ∃ j t, ts[j]? = some t ∧ isEmptyVirtualNodeSelectorTerm t = false
            ∧ ct = newVirtualNodeSelectorTerm t (path.Index (i + j)) := by
  induction ts with
  | nil => intro i acc ct; simp [newSelectorLoop]
  | cons t rest ih =>
    intro i acc ct
    unfold newSelectorLoop
    by_cases he : isEmptyVirtualNodeSelectorTerm t = true
    · rw [if_pos he, ih]
      apply or_congr_right
      constructor
      · rintro ⟨j, u, hj, hu, hct⟩
        exact ⟨j + 1, u, by simpa using hj, hu, by rw [hct]; congr 2; omega⟩
      · rintro ⟨j, u, hj, hu, hct⟩
        cases j with
        | zero =>
          simp only [List.getElem?_cons_zero, Option.some.injEq] at hj
          subst hj
          rw [he] at hu
          cases hu
        | succ k =>
          exact ⟨k, u, by simpa using hj, hu, by rw [hct]; congr 2; omega⟩
    · rw [if_neg he, ih]
      simp only [List.mem_append, List.mem_singleton]
      constructor
      · rintro ((h | h) | ⟨j, u, hj, hu, hct⟩)
        · exact Or.inl h
        · exact Or.inr ⟨0, t, by simp, by simpa using he, by simpa using h⟩
        · exact Or.inr ⟨j + 1, u, by simpa using hj, hu, by rw [hct]; congr 2; omega⟩
      · rintro (h | ⟨j, u, hj, hu, hct⟩)
        · exact Or.inl (Or.inl h)
        · cases j with
          | zero =>
            simp only [List.getElem?_cons_zero, Option.some.injEq] at hj
            subst hj
            exact Or.inl (Or.inr (by simpa using hct))
          | succ k =>
            exact Or.inr ⟨k, u, by simpa using hj, hu, by rw [hct]; congr 2; omega⟩

theorem Flatten_NewAggregate_eq_none_iff (es : List Err) (h : noEmptyAggregate es) :
    Flatten (NewAggregate es) = none ↔ es = [] := by
  cases es with
  | nil => simp [NewAggregate, Flatten]
  | cons x rest =>
    have hf : flattenErrors (x :: rest) ≠ [] :=
      (flattenErrors_eq_nil_iff _ h).not.mpr (by simp)
    simp [NewAggregate, Flatten, NewAggregateOfFieldErrors, hf]

theorem fieldRequirementValid_iff (e : NodeSelectorRequirement) :
    fieldRequirementValid e = true
      ↔ (e.Operator = NodeSelectorOpIn ∨ e.Operator = NodeSelectorOpNotIn)
        ∧ e.Values.length = 1 := by
  simp [fieldRequirementValid]

/-! ## Lemmas on the loop of `enforceClusterSelector` -/

theorem enforceLoop_cons_err {σ : Type} (r : Reconciler σ) (nsoff : NamespaceOffloading)
    (clusterIDMap : ClusterIDMap) (vn : VirtualNode) (rest : List VirtualNode)
    (returnErr : Option ReconcileError) (calls : List CallRecord) (s : σ) (e : Aggregate)
    (h : (MatchSelectorTerms (some vn) nsoff.ClusterSelector).err = some e) :
    enforceLoop r nsoff clusterIDMap (vn :: rest) returnErr calls s
      = { err := some (ReconcileError.invalidClusterSelector e),
          events := [{ eventtype := "Warning", reason := "Invalid", err := e }],
          calls := calls, store := s } := by
  unfold enforceLoop
  simp only [h]

theorem enforceLoop_cons_ok {σ : Type} (r : Reconciler σ) (nsoff : NamespaceOffloading)
    (clusterIDMap : ClusterIDMap) (vn : VirtualNode) (rest : List VirtualNode)
    (returnErr : Option ReconcileError) (calls : List CallRecord) (s : σ)
    (h : (MatchSelectorTerms (some vn) nsoff.ClusterSelector).err = none) :
    enforceLoop r nsoff clusterIDMap (vn :: rest) returnErr calls s
      = enforceLoop r nsoff clusterIDMap rest
          (if (convergenceStep r nsoff clusterIDMap vn s).2.isSome
            then some ReconcileError.failedToConfigure else returnErr)
          (calls ++ [convergenceRecord r nsoff clusterIDMap vn s])
          (convergenceStep r nsoff clusterIDMap vn s).1 := by
  rw [enforceLoop]
  simp only [h]
  by_cases hm : (MatchSelectorTerms (some vn) nsoff.ClusterSelector).matched = true
  · simp only [hm, if_true, convergenceStep, convergenceCall, convergenceRecord]
  · simp only [hm, if_false, Bool.false_eq_true, convergenceStep, convergenceCall,
      convergenceRecord]

theorem enforceLoop_calls {σ : Type} (r : Reconciler σ) (nsoff : NamespaceOffloading)
    (clusterIDMap : ClusterIDMap) (vns : List VirtualNode) :
    ∀ (returnErr : Option ReconcileError) (calls : List CallRecord) (s : σ),
      ∃ news, (enforceLoop r nsoff clusterIDMap vns returnErr calls s).calls = calls ++ news
        ∧ news.map (fun c => c.call)
            = passCalls (r.remoteNamespaceName nsoff) nsoff clusterIDMap vns := by
  induction vns with
  | nil => intro returnErr calls s; exact ⟨[], by simp [enforceLoop], rfl⟩
  | cons vn rest ih =>
    intro returnErr calls s
    unfold passCalls
    cases herr : (MatchSelectorTerms (some vn) nsoff.ClusterSelector).err with
    | some e =>
      rw [enforceLoop_cons_err _ _ _ _ _ _ _ _ e herr]
      exact ⟨[], by simp, rfl⟩
    | none =>
      rw [enforceLoop_cons_ok _ _ _ _ _ _ _ _ herr]
      obtain ⟨news, h1, h2⟩ := ih
        (if (convergenceStep r nsoff clusterIDMap vn s).2.isSome
          then some ReconcileError.failedToConfigure else returnErr)
        (calls ++ [convergenceRecord r nsoff clusterIDMap vn s])
        (convergenceStep r nsoff clusterIDMap vn s).1
      refine ⟨convergenceRecord r nsoff clusterIDMap vn s :: news, ?_, ?_⟩
      · rw [h1, List.append_assoc]; rfl
      · simp [h2, convergenceRecord]

theorem passCalls_of_no_error (remoteNamespace : String) (nsoff : NamespaceOffloading)
    (clusterIDMap : ClusterIDMap) (vns : List VirtualNode)
    (h : ∀ c ∈ vns, (MatchSelectorTerms (some c) nsoff.ClusterSelector).err = none) :
    passCalls remoteNamespace nsoff clusterIDMap vns
      = vns.map (convergenceCall remoteNamespace nsoff clusterIDMap) := by
  induction vns with
  | nil => rfl
  | cons vn rest ih =>
    unfold passCalls
    rw [h vn (List.mem_cons_self _ _)]
    simp only [List.map_cons]
    rw [ih (fun c hc => h c (List.mem_cons_of_mem _ hc))]

theorem enforceLoop_no_error {σ : Type} (r : Reconciler σ) (nsoff : NamespaceOffloading)
    (clusterIDMap : ClusterIDMap) (vns : List VirtualNode) :
    ∀ (returnErr : Option ReconcileError) (calls : List CallRecord) (s : σ),
      (∀ c ∈ vns, (MatchSelectorTerms (some c) nsoff.ClusterSelector).err = none) →
      ∃ news, (enforceLoop r nsoff clusterIDMap vns returnErr calls s).calls = calls ++ news
        ∧ news.length = vns.length
        ∧ (enforceLoop r nsoff clusterIDMap vns returnErr calls s).events = []
        ∧ (enforceLoop r nsoff clusterIDMap vns returnErr calls s).err
            = if news.any (fun c => c.failed) then some ReconcileError.failedToConfigure
              else returnErr := by
  induction vns with
  | nil =>
    intro returnErr calls s _
    exact ⟨[], by simp [enforceLoop], rfl, rfl, by simp [enforceLoop]⟩
  | cons vn rest ih =>
    intro returnErr calls s h
    have hvn := h vn (List.mem_cons_self _ _)
    have hrest : ∀ c ∈ rest, (MatchSelectorTerms (some c) nsoff.ClusterSelector).err = none :=
      fun c hc => h c (List.mem_cons_of_mem _ hc)
    rw [enforceLoop_cons_ok _ _ _ _ _ _ _ _ hvn]
    obtain ⟨news, h1, h2, h3, h4⟩ := ih
      (if (convergenceStep r nsoff clusterIDMap vn s).2.isSome
        then some ReconcileError.failedToConfigure else returnErr)
      (calls ++ [convergenceRecord r nsoff clusterIDMap vn s])
      (convergenceStep r nsoff clusterIDMap vn s).1 hrest
    refine ⟨convergenceRecord r nsoff clusterIDMap vn s :: news, ?_, ?_, h3, ?_⟩
    · rw [h1, List.append_assoc]; rfl
    · simp [h2]
    · rw [h4]
      cases hf : (convergenceStep r nsoff clusterIDMap vn s).2.isSome <;>
        cases hn : news.any (fun c => c.failed) <;> simp [hf, hn, convergenceRecord]

theorem enforceLoop_stops {σ : Type} (r : Reconciler σ) (nsoff : NamespaceOffloading)
    (clusterIDMap : ClusterIDMap) (vns : List VirtualNode) :
    ∀ (returnErr : Option ReconcileError) (calls : List CallRecord) (s : σ),
      (∃ c ∈ vns, (MatchSelectorTerms (some c) nsoff.ClusterSelector).err ≠ none) →
      ∃ pre c post e, vns = pre ++ c :: post
        ∧ (∀ x ∈ pre, (MatchSelectorTerms (some x) nsoff.ClusterSelector).err = none)
        ∧ (MatchSelectorTerms (some c) nsoff.ClusterSelector).err = some e
        ∧ (enforceLoop r nsoff clusterIDMap vns returnErr calls s).events
            = [{ eventtype := "Warning", reason := "Invalid", err := e }]
        ∧ (enforceLoop r nsoff clusterIDMap vns returnErr calls s).err
            = some (ReconcileError.invalidClusterSelector e)
        ∧ (enforceLoop r nsoff clusterIDMap vns returnErr calls s).calls.length
            = calls.length + pre.length := by
  induction vns with
  | nil => intro returnErr calls s h; simp at h
  | cons vn rest ih =>
    intro returnErr calls s h
    cases herr : (MatchSelectorTerms (some vn) nsoff.ClusterSelector).err with
    | some e =>
      rw [enforceLoop_cons_err _ _ _ _ _ _ _ _ e herr]
      exact ⟨[], vn, rest, e, rfl, by simp, herr, rfl, rfl, by simp⟩
    | none =>
      have hrest : ∃ c ∈ rest, (MatchSelectorTerms (some c) nsoff.ClusterSelector).err ≠ none := by
        obtain ⟨c, hc, hce⟩ := h
        rcases List.mem_cons.mp hc with rfl | hmem
        · exact absurd herr hce
        · exact ⟨c, hmem, hce⟩
      rw [enforceLoop_cons_ok _ _ _ _ _ _ _ _ herr]
      obtain ⟨pre, c, post, e, h1, h2, h3, h4, h5, h6⟩ := ih
        (if (convergenceStep r nsoff clusterIDMap vn s).2.isSome
          then some ReconcileError.failedToConfigure else returnErr)
        (calls ++ [convergenceRecord r nsoff clusterIDMap vn s])
        (convergenceStep r nsoff clusterIDMap vn s).1 hrest
      refine ⟨vn :: pre, c, post, e, by rw [h1]; rfl, ?_, h3, h4, h5, ?_⟩
      · intro x hx
        rcases List.mem_cons.mp hx with rfl | hmem
        · exact herr
        · exact h2 x hmem
      · rw [h6]; simp; omega

theorem enforceClusterSelector_ok_eq {σ : Type} (r : Reconciler σ) (vns : List VirtualNode)
    (s : σ) (nsoff : NamespaceOffloading) (clusterIDMap : ClusterIDMap)
    (hcard : (RetrieveClusterIDsFromVirtualNodes vns).length = clusterIDMap.length) :
    enforceClusterSelector r (Except.ok vns) s nsoff clusterIDMap
      = enforceLoop r nsoff clusterIDMap vns none [] s := by
  unfold enforceClusterSelector
  simp only [hcard, ne_eq, not_true_eq_false, if_false]

theorem enforceClusterSelector_mismatch_eq {σ : Type} (r : Reconciler σ) (vns : List VirtualNode)
    (s : σ) (nsoff : NamespaceOffloading) (clusterIDMap : ClusterIDMap)
    (h : (RetrieveClusterIDsFromVirtualNodes vns).length ≠ clusterIDMap.length) :
    enforceClusterSelector r (Except.ok vns) s nsoff clusterIDMap
      = { err := some (ReconcileError.cardinalityMismatch
            (RetrieveClusterIDsFromVirtualNodes vns).length clusterIDMap.length),
          events := [], calls := [], store := s } := by
  unfold enforceClusterSelector
  simp only [h, ne_eq, not_false_eq_true, if_true]

/-! ## Lemmas on the Mapping Store seen as a set -/

theorem mem_applyCall (k : String) (s : Finset String) (c : Call) :
    decide (k ∈ applyCall s c) = stepMem k (decide (k ∈ s)) c := by
  cases c with
  | add ns rn nm =>
    cases nm with
    | none => simp [applyCall, setAddDesiredMapping, stepMem]
    | some m =>
      by_cases h : m.RemoteClusterID = k
      · simp [applyCall, setAddDesiredMapping, stepMem, h]
      · have h' : ¬ k = m.RemoteClusterID := fun e => h e.symm
        simp [applyCall, setAddDesiredMapping, stepMem, h, h']
  | remove ns nm =>
    cases nm with
    | none => simp [applyCall, setRemoveDesiredMapping, stepMem]
    | some m =>
      by_cases h : m.RemoteClusterID = k
      · simp [applyCall, setRemoveDesiredMapping, stepMem, h]
      · have h' : ¬ k = m.RemoteClusterID := fun e => h e.symm
        simp [applyCall, setRemoveDesiredMapping, stepMem, h, h']

theorem mem_foldl_applyCall (k : String) (cl : List Call) :
    ∀ s : Finset String,
      decide (k ∈ cl.foldl applyCall s) = cl.foldl (stepMem k) (decide (k ∈ s)) := by
  induction cl with
  | nil => intro s; rfl
  | cons c rest ih =>
    intro s
    simp only [List.foldl_cons]
    rw [ih, mem_applyCall]

theorem stepMem_id_or_const (k : String) (c : Call) :
    (∀ b, stepMem k b c = b) ∨ (∃ v, ∀ b, stepMem k b c = v) := by
  cases c with
  | add ns rn nm =>
    cases nm with
    | none => exact Or.inl (fun b => rfl)
    | some m =>
      by_cases h : m.RemoteClusterID = k
      · exact Or.inr ⟨true, fun b => by simp [stepMem, h]⟩
      · exact Or.inl (fun b => by simp [stepMem, h])
  | remove ns nm =>
    cases nm with
    | none => exact Or.inl (fun b => rfl)
    | some m =>
      by_cases h : m.RemoteClusterID = k
      · exact Or.inr ⟨false, fun b => by simp [stepMem, h]⟩
      · exact Or.inl (fun b => by simp [stepMem, h])

theorem foldl_stepMem_id_or_const (k : String) (cl : List Call) :
    (∀ b, cl.foldl (stepMem k) b = b) ∨ (∃ v, ∀ b, cl.foldl (stepMem k) b = v) := by
  induction cl with
  | nil => exact Or.inl (fun b => rfl)
  | cons c rest ih =>
    simp only [List.foldl_cons]
    rcases ih with hid | ⟨v, hv⟩
    · rcases stepMem_id_or_const k c with hc | ⟨w, hw⟩
      · exact Or.inl (fun b => by rw [hid, hc])
      · exact Or.inr ⟨w, fun b => by rw [hid, hw]⟩
    · exact Or.inr ⟨v, fun b => hv _⟩

theorem foldl_applyCall_idempotent (cl : List Call) (s : Finset String) :
    cl.foldl applyCall (cl.foldl applyCall s) = cl.foldl applyCall s := by
  ext k
  have h1 := mem_foldl_applyCall k cl (cl.foldl applyCall s)
  have h2 := mem_foldl_applyCall k cl s
  have h3 : decide (k ∈ cl.foldl applyCall (cl.foldl applyCall s))
      = decide (k ∈ cl.foldl applyCall s) := by
    rw [h1]
    rcases foldl_stepMem_id_or_const k cl with hid | ⟨v, hv⟩
    · rw [hid]
    · rw [hv, h2, hv]
  simpa using h3

theorem convergenceStep_setReconciler (nsoff : NamespaceOffloading) (clusterIDMap : ClusterIDMap)
    (vn : VirtualNode) (s : Finset String) :
    (convergenceStep setReconciler nsoff clusterIDMap vn s).1
      = applyCall s (convergenceCall nsoff.Namespace nsoff clusterIDMap vn) := by
  unfold convergenceStep convergenceCall
  by_cases hm : (MatchSelectorTerms (some vn) nsoff.ClusterSelector).matched = true
  · simp [hm, setReconciler, applyCall]
  · simp [hm, setReconciler, applyCall]

theorem enforceLoop_setReconciler_store (nsoff : NamespaceOffloading) (clusterIDMap : ClusterIDMap)
    (vns : List VirtualNode) :
    ∀ (returnErr : Option ReconcileError) (calls : List CallRecord) (s : Finset String),
      (enforceLoop setReconciler nsoff clusterIDMap vns returnErr calls s).store
        = (passCalls nsoff.Namespace nsoff clusterIDMap vns).foldl applyCall s := by
  induction vns with
  | nil => intro returnErr calls s; rfl
  | cons vn rest ih =>
    intro returnErr calls s
    unfold passCalls
    cases herr : (MatchSelectorTerms (some vn) nsoff.ClusterSelector).err with
    | some e =>
      rw [enforceLoop_cons_err _ _ _ _ _ _ _ _ e herr]
      rfl
    | none =>
      rw [enforceLoop_cons_ok _ _ _ _ _ _ _ _ herr, ih, convergenceStep_setReconciler]
      rfl

theorem foldl_stepMem_untouched (k : String) (nsoff : NamespaceOffloading)
    (remoteNamespace : String) (clusterIDMap : ClusterIDMap)
    (hkeys : ∀ id m, clusterIDMap.lookup id = some m → m.RemoteClusterID = id)
    (post : List VirtualNode) :
    ∀ b : Bool, (∀ x ∈ post, x.ClusterID ≠ k) →
      (post.map (convergenceCall remoteNamespace nsoff clusterIDMap)).foldl (stepMem k) b = b := by
  induction post with
  | nil => intro b _; rfl
  | cons x rest ih =>
    intro b h
    have hx : x.ClusterID ≠ k := h x (List.mem_cons_self _ _)
    have hstep : stepMem k b (convergenceCall remoteNamespace nsoff clusterIDMap x) = b := by
      unfold convergenceCall
      cases hl : clusterIDMap.lookup x.ClusterID with
      | none => split <;> rfl
      | some m =>
        have hm : m.RemoteClusterID ≠ k := by
          rw [hkeys _ _ hl]
          exact hx
        split <;> simp [stepMem, hm]
    simp only [List.map_cons, List.foldl_cons, hstep]
    exact ih b (fun y hy => h y (List.mem_cons_of_mem _ hy))

theorem toAggregateLoop_ne_nil (l : List FieldError) (h : l ≠ []) : toAggregateLoop [] l ≠ [] := by
  cases l with
  | nil => exact absurd rfl h
  | cons e rest => simp [toAggregateLoop]

theorem ToAggregate_isSome (l : List FieldError) (h : l ≠ []) : (ToAggregate l).isSome = true := by
  have h1 : ¬ l.length = 0 := fun h0 => h (List.length_eq_zero.mp h0)
  have h2 : ¬ (toAggregateLoop [] l).length = 0 :=
    fun h0 => toAggregateLoop_ne_nil l h (List.length_eq_zero.mp h0)
  simp [ToAggregate, NewAggregateOfFieldErrors, h1, h2]

theorem operatorErrors_numeric_ne_nil (op : Operator) (vals : List String) (valuePath : Path)
    (hop : op = Operator.GreaterThan ∨ op = Operator.LessThan)
    (hval : ¬ ∃ v, vals = [v] ∧ (ParseInt v).isSome = true) :
    operatorErrors op vals valuePath ≠ [] := by
  have key : (if vals.length ≠ 1
      then [Invalid valuePath (BadValue.strs vals)
        "for 'Gt', 'Lt' operators, exactly one value is required"]
      else []) ++ parseIntErrors valuePath 0 vals ≠ [] := by
    by_cases hlen : vals.length = 1
    · obtain ⟨v, hv⟩ := List.length_eq_one.mp hlen
      subst hv
      have hp : ParseInt v = none := by
        cases hpv : ParseInt v with
        | none => rfl
        | some n => exact absurd ⟨v, rfl, by simp [hpv]⟩ hval
      simp [parseIntErrors, hp]
    · simp [hlen]
  rcases hop with rfl | rfl
  · exact key
  · exact key

theorem labelSelectorLoop_errs_mono (path : Path) (nsm : List NodeSelectorRequirement) :
    ∀ (i : Nat) (errs : List Err) (sel : List Requirement) (x : Err),
      x ∈ errs → x ∈ (labelSelectorLoop path i nsm errs sel).1 := by
  induction nsm with
  | nil => intro i errs sel x h; simpa [labelSelectorLoop] using h
  | cons e rest ih =>
    intro i errs sel x h
    unfold labelSelectorLoop
    cases hop : selectionOperator e.Operator with
    | none => exact ih _ _ _ _ (List.mem_append_left _ h)
    | some op =>
      cases hr : (NewRequirement e.Key op e.Values (Path.Index path i)).2 with
      | none => simp only [hr]; exact ih _ _ _ _ h
      | some err => simp only [hr]; exact ih _ _ _ _ (List.mem_append_left _ h)

theorem labelSelectorLoop_records (path : Path) (nsm : List NodeSelectorRequirement) :
    ∀ (i : Nat) (errs : List Err) (sel : List Requirement) (j : Nat)
      (e : NodeSelectorRequirement) (op : Operator) (a : Aggregate),
      nsm[j]? = some e → selectionOperator e.Operator = some op →
      (NewRequirement e.Key op e.Values (Path.Index path (i + j))).2 = some a →
        Err.aggregate a ∈ (labelSelectorLoop path i nsm errs sel).1 := by
  induction nsm with
  | nil => intro i errs sel j e op a hj; simp at hj
  | cons e0 rest ih =>
    intro i errs sel j e op a hj hop ha
    cases j with
    | zero =>
      simp only [List.getElem?_cons_zero, Option.some.injEq] at hj
      subst hj
      rw [Nat.add_zero] at ha
      unfold labelSelectorLoop
      simp only [hop, ha]
      exact labelSelectorLoop_errs_mono _ _ _ _ _ _ (by simp)
    | succ k =>
      have hk : rest[k]? = some e := by simpa using hj
      have ha' : (NewRequirement e.Key op e.Values (Path.Index path (i + 1 + k))).2 = some a := by
        rw [← ha]; congr 3; omega
      unfold labelSelectorLoop
      cases hop0 : selectionOperator e0.Operator with
      | none => exact ih _ _ _ k e op a hk hop ha'
      | some op0 =>
        cases hr : (NewRequirement e0.Key op0 e0.Values (Path.Index path i)).2 with
        | none => simp only [hr]; exact ih _ _ _ k e op a hk hop ha'
        | some err => simp only [hr]; exact ih _ _ _ k e op a hk hop ha'

theorem MatchSelectorTerms_err_of_unmatched (E : NodeSelector) (c : VirtualNode)
    (h : (MatchSelectorTerms (some c) E).matched = false) :
    (MatchSelectorTerms (some c) E).err
      = Flatten (NewAggregate ((NewSelector E []).terms.flatMap (fun t => t.parseErrs.getD []))) := by
  unfold MatchSelectorTerms at h ⊢
  by_cases hlen : E.NodeSelectorTerms.length = 0
  · simp [hlen] at h
  · simp only [hlen, if_false, Option.isNone_some, Bool.false_eq_true, Selector.Match] at h ⊢
    have hno : ∀ t ∈ (NewSelector E []).terms,
        (t.doMatch c.Labels (extractVirtualNodeFields c)).1 = false := by
      intro t ht
      cases hb : (t.doMatch c.Labels (extractVirtualNodeFields c)).1 with
      | false => rfl
      | true =>
        have := (matchLoop_matched_iff c.Name c.Labels (extractVirtualNodeFields c)
          (NewSelector E []).terms [] []).mpr ⟨t, ht, hb⟩
        rw [h] at this
        cases this
    rw [matchLoop_err_of_unmatched _ _ _ _ _ _ hno, List.nil_append]

/-! ## Lemmas on what the match reads of a candidate -/

theorem Requirement_Matches_congr (r : Requirement) (ls1 ls2 : LabelSet)
    (h : ∀ k, ls1.lookup k = ls2.lookup k) : r.Matches ls1 = r.Matches ls2 := by
  unfold Requirement.Matches LabelSet.Has LabelSet.Get
  rw [h r.key]

theorem LabelsSelector_Matches_congr (l : LabelsSelector) (ls1 ls2 : LabelSet)
    (h : ∀ k, ls1.lookup k = ls2.lookup k) : l.Matches ls1 = l.Matches ls2 := by
  cases l with
  | nothing => rfl
  | internal reqs =>
    simp only [LabelsSelector.Matches]
    congr 1
    funext r
    exact Requirement_Matches_congr r ls1 ls2 h

theorem doMatch_congr (t : selectorTerm) (ls1 ls2 : LabelSet) (fs : FieldSet)
    (h : ∀ k, ls1.lookup k = ls2.lookup k) : t.doMatch ls1 fs = t.doMatch ls2 fs := by
  unfold selectorTerm.doMatch
  cases hl : t.matchLabels with
  | none => rfl
  | some l => simp only [LabelsSelector_Matches_congr l ls1 ls2 h]

theorem matchLoop_congr (name : String) (ls1 ls2 : LabelSet) (fs : FieldSet)
    (h : ∀ k, ls1.lookup k = ls2.lookup k) (terms : List selectorTerm) :
    ∀ (errs : List Err) (out : List String),
      matchLoop name ls1 fs terms errs out = matchLoop name ls2 fs terms errs out := by
  induction terms with
  | nil => intro errs out; rfl
  | cons t rest ih =>
    intro errs out
    unfold matchLoop
    simp only [doMatch_congr t ls1 ls2 fs h, ih]

theorem utf8ByteSize_go_pos (c : Char) (cs : List Char) : 0 < String.utf8ByteSize.go (c :: cs) := by
  simp only [String.utf8ByteSize.go]
  have := Char.utf8Size_pos c
  omega

theorem utf8ByteSize_pos (s : String) (h : s ≠ "") : 0 < s.utf8ByteSize := by
  cases s with
  | mk l =>
    cases l with
    | nil => exact absurd rfl h
    | cons c cs => exact utf8ByteSize_go_pos c cs

theorem extractVirtualNodeFields_of_name (c : VirtualNode) (h : c.Name ≠ "") :
    extractVirtualNodeFields c = [("metadata.name", c.Name)] := by
  unfold extractVirtualNodeFields
  rw [if_pos (utf8ByteSize_pos c.Name h)]

theorem MatchSelectorTerms_single (c : VirtualNode) (t : NodeSelectorTerm)
    (hnd : isEmptyVirtualNodeSelectorTerm t = false) :
    (MatchSelectorTerms (some c) { NodeSelectorTerms := [t] }).matched
      = ((newVirtualNodeSelectorTerm t (Path.Index (Path.Child [] "nodeSelectorTerms") 0)).doMatch
          c.Labels (extractVirtualNodeFields c)).1 := by
  have hterms : (NewSelector { NodeSelectorTerms := [t] } []).terms
      = [newVirtualNodeSelectorTerm t (Path.Index (Path.Child [] "nodeSelectorTerms") 0)] := by
    simp [NewSelector, newSelectorLoop, hnd]
  have hiff := matchLoop_matched_iff c.Name c.Labels (extractVirtualNodeFields c)
    (NewSelector { NodeSelectorTerms := [t] } []).terms [] []
  rw [hterms] at hiff
  have hM : (MatchSelectorTerms (some c) { NodeSelectorTerms := [t] }).matched
      = (matchLoop c.Name c.Labels (extractVirtualNodeFields c)
          [newVirtualNodeSelectorTerm t (Path.Index (Path.Child [] "nodeSelectorTerms") 0)]
          [] []).matched := by
    simp [MatchSelectorTerms, Selector.Match, hterms]
  rw [hM]
  cases hb : ((newVirtualNodeSelectorTerm t
      (Path.Index (Path.Child [] "nodeSelectorTerms") 0)).doMatch
        c.Labels (extractVirtualNodeFields c)).1 with
  | true => exact hiff.mpr ⟨_, List.mem_singleton.mpr rfl, hb⟩
  | false =>
    cases hm : (matchLoop c.Name c.Labels (extractVirtualNodeFields c)
        [newVirtualNodeSelectorTerm t (Path.Index (Path.Child [] "nodeSelectorTerms") 0)]
        [] []).matched with
    | false => rfl
    | true =>
      obtain ⟨u, hu, hum⟩ := hiff.mp hm
      rw [List.mem_singleton.mp hu, hb] at hum
      cases hum

/-! ## Lemmas: compilation does not depend on the path -/

theorem parseIntErrors_eq_nil_iff (valuePath : Path) (vals : List String) :
    ∀ i : Nat, parseIntErrors valuePath i vals = [] ↔ ∀ v ∈ vals, (ParseInt v).isSome = true := by
  induction vals with
  | nil => intro i; simp [parseIntErrors]
  | cons v rest ih =>
    intro i
    unfold parseIntErrors
    cases hp : ParseInt v with
    | none => simp [hp]
    | some n => simp [hp, ih]

theorem labelValueErrors_eq_nil_iff (key : String) (valuePath : Path) (vals : List String) :
    ∀ i : Nat, labelValueErrors key valuePath i vals = []
      ↔ ∀ v ∈ vals, (IsValidLabelValue v).length = 0 := by
  induction vals with
  | nil => intro i; simp [labelValueErrors]
  | cons v rest ih =>
    intro i
    unfold labelValueErrors validateLabelValue
    by_cases hv : (IsValidLabelValue v).length = 0
    · have hv' : IsValidLabelValue v = [] := List.length_eq_zero.mp hv
      simp [hv, hv', ih]
    · have hv' : ¬ IsValidLabelValue v = [] := fun h => hv (by rw [h]; rfl)
      simp [hv, hv']

theorem operatorErrors_nil_congr (op : Operator) (vals : List String) (p q : Path) :
    operatorErrors op vals p = [] ↔ operatorErrors op vals q = [] := by
  cases op <;> simp [operatorErrors, parseIntErrors_eq_nil_iff]

theorem requirementErrors_nil_congr (key : String) (op : Operator) (vals : List String)
    (p q : Path) :
    requirementErrors key op vals p = [] ↔ requirementErrors key op vals q = [] := by
  unfold requirementErrors validateLabelKey
  have ho := operatorErrors_nil_congr op vals (p.Child "values") (q.Child "values")
  by_cases hk : (IsQualifiedName key).length = 0
  · simp [hk, labelValueErrors_eq_nil_iff, ho]
  · simp [hk]

theorem ToAggregate_eq_none_iff (l : List FieldError) : ToAggregate l = none ↔ l = [] := by
  constructor
  · intro h
    by_contra hne
    have := ToAggregate_isSome l hne
    rw [h] at this
    cases this
  · intro h
    subst h
    rfl

theorem NewRequirement_none_congr (key : String) (op : Operator) (vals : List String)
    (p q : Path) :
    (NewRequirement key op vals p).2 = none ↔ (NewRequirement key op vals q).2 = none := by
  simp only [NewRequirement, ToAggregate_eq_none_iff]
  exact requirementErrors_nil_congr key op vals p q

theorem labelSelectorLoop_errs_nil_iff (path : Path) (nsm : List NodeSelectorRequirement) :
    ∀ (i : Nat) (errs : List Err) (sel : List Requirement),
      (labelSelectorLoop path i nsm errs sel).1 = []
        ↔ errs = [] ∧ nsm.all labelRequirementCompiles = true := by
  induction nsm with
  | nil => intro i errs sel; simp [labelSelectorLoop]
  | cons e rest ih =>
    intro i errs sel
    unfold labelSelectorLoop
    cases hop : selectionOperator e.Operator with
    | none =>
      simp only [ih, List.all_cons, labelRequirementCompiles, hop]
      simp
    | some op =>
      cases hr : (NewRequirement e.Key op e.Values (Path.Index path i)).2 with
      | none =>
        have h0 := (NewRequirement_none_congr e.Key op e.Values (Path.Index path i) []).mp hr
        simp only [hr, ih, List.all_cons, labelRequirementCompiles, hop, h0]
        simp
      | some err =>
        have h0 : (NewRequirement e.Key op e.Values []).2 ≠ none := by
          intro hn
          have := (NewRequirement_none_congr e.Key op e.Values (Path.Index path i) []).mpr hn
          rw [hr] at this
          cases this
        obtain ⟨a, ha⟩ := Option.ne_none_iff_exists'.mp h0
        simp only [hr, ih, List.all_cons, labelRequirementCompiles, hop, ha]
        simp

theorem fieldSelectorLoop_errs_nil_iff (path : Path) (nsr : List NodeSelectorRequirement)
    (i : Nat) (sels : List FieldTerm) :
    (fieldSelectorLoop path i nsr [] sels).1 = [] ↔ nsr.all fieldRequirementValid = true := by
  have hlen := fieldSelectorLoop_errs_length path nsr i [] sels
  rw [← List.length_eq_zero, hlen]
  simp [List.filter_eq_nil_iff]

theorem parseErrs_none_iff_termCompiles (t : NodeSelectorTerm) (path : Path) :
    (newVirtualNodeSelectorTerm t path).parseErrs = none ↔ termCompiles t = true := by
  rw [newVirtualNodeSelectorTerm_parseErrs_none_iff]
  have hA : (nodeSelectorRequirementsAsSelector t.MatchExpressions
      (path.Child "matchExpressions")).2 = none
      ↔ t.MatchExpressions.all labelRequirementCompiles = true := by
    by_cases h1 : t.MatchExpressions.length = 0
    · have : t.MatchExpressions = [] := List.length_eq_zero.mp h1
      simp [nodeSelectorRequirementsAsSelector, this]
    · rw [nodeSelectorRequirementsAsSelector_eq _ _ h1]
      have := labelSelectorLoop_errs_nil_iff (path.Child "matchExpressions")
        t.MatchExpressions 0 [] []
      by_cases h0 : (labelSelectorLoop (path.Child "matchExpressions") 0
          t.MatchExpressions [] []).1 = []
      · rw [if_pos h0]
        simpa using (this.mp h0).2
      · rw [if_neg h0]
        simp only [reduceCtorEq, false_iff]
        intro hall
        exact h0 (this.mpr ⟨rfl, hall⟩)
  have hB : (virtualNodeSelectorRequirementsAsFieldSelector t.MatchFields
      (path.Child "matchFields")).2 = none
      ↔ t.MatchFields.all fieldRequirementValid = true := by
    by_cases h1 : t.MatchFields.length = 0
    · have : t.MatchFields = [] := List.length_eq_zero.mp h1
      simp [virtualNodeSelectorRequirementsAsFieldSelector, this]
    · rw [virtualNodeSelectorRequirementsAsFieldSelector_eq _ _ h1]
      have := fieldSelectorLoop_errs_nil_iff (path.Child "matchFields") t.MatchFields 0 []
      by_cases h0 : (fieldSelectorLoop (path.Child "matchFields") 0 t.MatchFields [] []).1 = []
      · rw [if_pos h0]
        simpa using this.mp h0
      · rw [if_neg h0]
        simp only [reduceCtorEq, false_iff]
        intro hall
        exact h0 (this.mpr hall)
  rw [hA, hB]
  simp [termCompiles]

/-! ## Lemmas: the result of `MatchSelectorTerms` in terms of the terms alone -/

theorem degenerate_eq_isEmpty (t : NodeSelectorTerm) :
    degenerate t = isEmptyVirtualNodeSelectorTerm t := by
  unfold degenerate isEmptyVirtualNodeSelectorTerm
  cases t.MatchExpressions <;> cases t.MatchFields <;> simp

theorem compiled_doMatch_iff_termMatches (c : VirtualNode) (t : NodeSelectorTerm) (path : Path)
    (hnd : isEmptyVirtualNodeSelectorTerm t = false) :
    ((newVirtualNodeSelectorTerm t path).doMatch c.Labels (extractVirtualNodeFields c)).1 = true
      ↔ termMatches c t = true := by
  rw [compiled_doMatch_iff, parseErrs_none_iff_termCompiles]
  simp only [termMatches, degenerate_eq_isEmpty, hnd, Bool.not_false, Bool.true_and,
    Bool.and_eq_true, Bool.or_eq_true]
  constructor
  · rintro ⟨h1, h2, h3⟩
    refine ⟨⟨h1, h2⟩, ?_⟩
    rcases h3 with h3 | h3 | h3
    · exact Or.inl (Or.inl h3)
    · exact Or.inl (Or.inr h3)
    · exact Or.inr h3
  · rintro ⟨⟨h1, h2⟩, h3⟩
    refine ⟨h1, h2, ?_⟩
    rcases h3 with (h3 | h3) | h3
    · exact Or.inl h3
    · exact Or.inr (Or.inl h3)
    · exact Or.inr (Or.inr h3)

theorem mem_NewSelector_terms (E : NodeSelector) (p : Path) (ct : selectorTerm) :
    ct ∈ (NewSelector E p).terms
      ↔ ∃ j t, E.NodeSelectorTerms[j]? = some t ∧ isEmptyVirtualNodeSelectorTerm t = false
          ∧ ct = newVirtualNodeSelectorTerm t (Path.Index (Path.Child p "nodeSelectorTerms") j) := by
  simp only [NewSelector]
  rw [mem_newSelectorLoop]
  simp

theorem MatchSelectorTerms_nonempty_eq (E : NodeSelector) (c : VirtualNode)
    (hne : E.NodeSelectorTerms ≠ []) :
    MatchSelectorTerms (some c) E
      = matchLoop c.Name c.Labels (extractVirtualNodeFields c) (NewSelector E []).terms [] [] := by
  have hlen : ¬ E.NodeSelectorTerms.length = 0 := fun h => hne (List.length_eq_zero.mp h)
  unfold MatchSelectorTerms
  rw [if_neg hlen]
  simp [Selector.Match]

theorem MatchSelectorTerms_matched_iff_mem (E : NodeSelector) (c : VirtualNode)
    (hne : E.NodeSelectorTerms ≠ []) :
    (MatchSelectorTerms (some c) E).matched = true
      ↔ ∃ t ∈ E.NodeSelectorTerms, termMatches c t = true := by
  rw [MatchSelectorTerms_nonempty_eq E c hne, matchLoop_matched_iff]
  constructor
  · rintro ⟨ct, hct, hm⟩
    obtain ⟨j, t, hj, hnd, heq⟩ := (mem_NewSelector_terms E [] ct).mp hct
    subst heq
    exact ⟨t, List.getElem?_mem hj, (compiled_doMatch_iff_termMatches c t _ hnd).mp hm⟩
  · rintro ⟨t, ht, hm⟩
    obtain ⟨j, hj⟩ := List.mem_iff_getElem?.mp ht
    have hnd : isEmptyVirtualNodeSelectorTerm t = false := by
      cases hd : isEmptyVirtualNodeSelectorTerm t with
      | false => rfl
      | true => simp [termMatches, degenerate_eq_isEmpty, hd] at hm
    exact ⟨_, (mem_NewSelector_terms E [] _).mpr ⟨j, t, hj, hnd, rfl⟩,
      (compiled_doMatch_iff_termMatches c t _ hnd).mpr hm⟩

theorem compiled_parseErrs_flatMap (E : NodeSelector) (p : Path) :
    noEmptyAggregate ((NewSelector E p).terms.flatMap (fun t => t.parseErrs.getD []))
      ∧ ((NewSelector E p).terms.flatMap (fun t => t.parseErrs.getD []) = []
          ↔ ∀ t ∈ (NewSelector E p).terms, t.parseErrs = none) := by
  have hok : ∀ t ∈ (NewSelector E p).terms, ∀ es, t.parseErrs = some es →
      es ≠ [] ∧ noEmptyAggregate es := by
    intro t ht es hes
    obtain ⟨j, u, _, _, heq⟩ := (mem_NewSelector_terms E p t).mp ht
    subst heq
    exact newVirtualNodeSelectorTerm_errs_ok _ _ _ hes
  constructor
  · intro a ha
    obtain ⟨t, ht, hat⟩ := List.mem_flatMap.mp ha
    cases hp : t.parseErrs with
    | none => simp [hp] at hat
    | some es =>
      rw [hp] at hat
      exact (hok t ht es hp).2 a hat
  · rw [List.flatMap_eq_nil_iff]
    constructor
    · intro h t ht
      cases hp : t.parseErrs with
      | none => rfl
      | some es =>
        have := h t ht
        rw [hp] at this
        exact absurd this (hok t ht es hp).1
    · intro h t ht
      rw [h t ht]
      rfl

theorem MatchSelectorTerms_err_of_matched (E : NodeSelector) (c : VirtualNode)
    (h : (MatchSelectorTerms (some c) E).matched = true) :
    (MatchSelectorTerms (some c) E).err = none := by
  by_cases hne : E.NodeSelectorTerms = []
  · simp [MatchSelectorTerms, hne]
  · rw [MatchSelectorTerms_nonempty_eq E c hne] at h ⊢
    exact matchLoop_err_of_matched _ _ _ _ _ _ h

theorem MatchSelectorTerms_err_ne_none_iff (E : NodeSelector) (c : VirtualNode) :
    (MatchSelectorTerms (some c) E).err ≠ none
      ↔ (MatchSelectorTerms (some c) E).matched = false
        ∧ ∃ t ∈ E.NodeSelectorTerms, termBroken t = true := by
  cases hm : (MatchSelectorTerms (some c) E).matched with
  | true => simp [MatchSelectorTerms_err_of_matched E c hm]
  | false =>
    rw [MatchSelectorTerms_err_of_unmatched E c hm]
    obtain ⟨hok, hnil⟩ := compiled_parseErrs_flatMap E []
    rw [Ne, Flatten_NewAggregate_eq_none_iff _ hok, hnil]
    simp only [true_and]
    constructor
    · intro h
      push_neg at h
      obtain ⟨ct, hct, hne⟩ := h
      obtain ⟨j, t, hj, hnd, heq⟩ := (mem_NewSelector_terms E [] ct).mp hct
      subst heq
      refine ⟨t, List.getElem?_mem hj, ?_⟩
      have hc : ¬ termCompiles t = true :=
        fun hc => hne ((parseErrs_none_iff_termCompiles t _).mpr hc)
      simp [termBroken, degenerate_eq_isEmpty, hnd, hc]
    · rintro ⟨t, ht, hb⟩ hall
      obtain ⟨j, hj⟩ := List.mem_iff_getElem?.mp ht
      simp only [termBroken, degenerate_eq_isEmpty, Bool.and_eq_true, Bool.not_eq_true'] at hb
      have := hall _ ((mem_NewSelector_terms E [] _).mpr ⟨j, t, hj, hb.1, rfl⟩)
      rw [parseErrs_none_iff_termCompiles] at this
      rw [this] at hb
      exact absurd hb.2 (by simp)

theorem newSelectorLoop_eq (path : Path) (ts : List NodeSelectorTerm) :
    ∀ (i : Nat) (acc : List selectorTerm),
      newSelectorLoop path i ts acc
        = acc ++ ((ts.enumFrom i).filter (fun it => !isEmptyVirtualNodeSelectorTerm it.2)).map
            (fun it => newVirtualNodeSelectorTerm it.2 (path.Index it.1)) := by
  induction ts with
  | nil => intro i acc; simp [newSelectorLoop]
  | cons t rest ih =>
    intro i acc
    unfold newSelectorLoop
    by_cases he : isEmptyVirtualNodeSelectorTerm t = true
    · rw [if_pos he, ih]
      simp [List.enumFrom, List.filter_cons, he]
    · rw [if_neg he, ih]
      simp [List.enumFrom, List.filter_cons, he]

theorem enumFrom_filter_length (ts : List NodeSelectorTerm) (f : NodeSelectorTerm → Bool) :
    ∀ i : Nat, ((ts.enumFrom i).filter (fun it => f it.2)).length = (ts.filter f).length := by
  induction ts with
  | nil => intro i; rfl
  | cons t rest ih =>
    intro i
    by_cases h : f t = true
    · simp [List.enumFrom, List.filter_cons, h, ih]
    · simp [List.enumFrom, List.filter_cons, h, ih]

theorem MatchSelectorTerms_congr_of_mem (E E' : NodeSelector) (c : VirtualNode)
    (hne : E.NodeSelectorTerms ≠ []) (hne' : E'.NodeSelectorTerms ≠ [])
    (hm : ∀ t, termMatches c t = true → (t ∈ E.NodeSelectorTerms ↔ t ∈ E'.NodeSelectorTerms))
    (hb : ∀ t, termBroken t = true → (t ∈ E.NodeSelectorTerms ↔ t ∈ E'.NodeSelectorTerms)) :
    (MatchSelectorTerms (some c) E).matched = (MatchSelectorTerms (some c) E').matched
      ∧ ((MatchSelectorTerms (some c) E).err = none
          ↔ (MatchSelectorTerms (some c) E').err = none) := by
  have h1 : (MatchSelectorTerms (some c) E).matched = (MatchSelectorTerms (some c) E').matched := by
    rw [Bool.eq_iff_iff, MatchSelectorTerms_matched_iff_mem E c hne,
      MatchSelectorTerms_matched_iff_mem E' c hne']
    constructor
    · rintro ⟨t, ht, htm⟩
      exact ⟨t, (hm t htm).mp ht, htm⟩
    · rintro ⟨t, ht, htm⟩
      exact ⟨t, (hm t htm).mpr ht, htm⟩
  refine ⟨h1, ?_⟩
  have h2 := MatchSelectorTerms_err_ne_none_iff E c
  have h3 := MatchSelectorTerms_err_ne_none_iff E' c
  rw [← not_iff_not, ← Ne, ← Ne, h2, h3, h1]
  apply and_congr_right
  intro _
  constructor
  · rintro ⟨t, ht, htb⟩
    exact ⟨t, (hb t htb).mp ht, htb⟩
  · rintro ⟨t, ht, htb⟩
    exact ⟨t, (hb t htb).mpr ht, htb⟩

/-! ## Lemmas: every compile error carries the path of its requirement -/

theorem pfx_child (p q : Path) (n : String) (h : p <+: q) : p <+: q.Child n :=
  h.trans (List.prefix_append q _)

theorem pfx_index (p q : Path) (i : Nat) (h : p <+: q) : p <+: q.Index i :=
  h.trans (List.prefix_append q _)

theorem pfx_key (p q : Path) (k : String) (h : p <+: q) : p <+: q.Key k :=
  h.trans (List.prefix_append q _)

theorem snoc_prefix_inj (p f : Path) (a b : PathSeg)
    (ha : (p ++ [a]) <+: f) (hb : (p ++ [b]) <+: f) : a = b := by
  obtain ⟨t1, h1⟩ := ha
  obtain ⟨t2, h2⟩ := hb
  rw [← h2, List.append_assoc, List.append_assoc] at h1
  have := List.append_cancel_left h1
  simp only [List.singleton_append, List.cons.injEq] at this
  exact this.1

theorem mem_flattenErrors (es : List Err) (fe : FieldError) :
    fe ∈ flattenErrors es
      ↔ Err.fieldError fe ∈ es ∨ ∃ a, Err.aggregate a ∈ es ∧ fe ∈ a := by
  induction es with
  | nil => simp [flattenErrors]
  | cons x rest ih =>
    cases x with
    | fieldError e =>
      simp only [flattenErrors, List.mem_cons, ih, Err.fieldError.injEq, reduceCtorEq, false_or]
      tauto
    | aggregate a =>
      have hagg : fe ∈ (match NewAggregateOfFieldErrors a with
          | some r => r
          | none => []) ↔ fe ∈ a := by
        unfold NewAggregateOfFieldErrors
        cases a with
        | nil => simp
        | cons y ys => simp
      simp only [flattenErrors, List.mem_append, hagg, ih, List.mem_cons, reduceCtorEq, false_or,
        Err.aggregate.injEq]
      constructor
      · rintro (h | h | ⟨b, hb, hfe⟩)
        · exact Or.inr ⟨a, Or.inl rfl, h⟩
        · exact Or.inl h
        · exact Or.inr ⟨b, Or.inr hb, hfe⟩
      · rintro (h | ⟨b, hb | hb, hfe⟩)
        · exact Or.inr (Or.inl h)
        · subst hb; exact Or.inl hfe
        · exact Or.inr (Or.inr ⟨b, hb, hfe⟩)

theorem flattenErrors_aggregate (a : Aggregate) : flattenErrors [Err.aggregate a] = a := by
  unfold flattenErrors NewAggregateOfFieldErrors
  cases a with
  | nil => simp [flattenErrors]
  | cons y ys => simp [flattenErrors]

theorem toAggregateLoop_spec (l : List FieldError) :
    ∀ seen : List FieldError,
      (toAggregateLoop seen l).Nodup ∧ ∀ x ∈ toAggregateLoop seen l, x ∈ l ∧ x ∉ seen := by
  induction l with
  | nil => intro seen; simp [toAggregateLoop]
  | cons e rest ih =>
    intro seen
    unfold toAggregateLoop
    by_cases he : e ∈ seen
    · rw [if_pos he]
      obtain ⟨h1, h2⟩ := ih seen
      exact ⟨h1, fun x hx => ⟨List.mem_cons_of_mem _ (h2 x hx).1, (h2 x hx).2⟩⟩
    · rw [if_neg he]
      obtain ⟨h1, h2⟩ := ih (e :: seen)
      refine ⟨List.nodup_cons.mpr ⟨fun hmem => (h2 e hmem).2 (List.mem_cons_self _ _), h1⟩, ?_⟩
      intro x hx
      rcases List.mem_cons.mp hx with rfl | hmem
      · exact ⟨List.mem_cons_self _ _, he⟩
      · exact ⟨List.mem_cons_of_mem _ (h2 x hmem).1,
          fun hs => (h2 x hmem).2 (List.mem_cons_of_mem _ hs)⟩

theorem ToAggregate_spec (l : List FieldError) (a : Aggregate) (h : ToAggregate l = some a) :
    a.Nodup ∧ ∀ x ∈ a, x ∈ l := by
  unfold ToAggregate NewAggregateOfFieldErrors at h
  split_ifs at h with h1 h2
  simp only [Option.some.injEq] at h
  subst h
  exact ⟨(toAggregateLoop_spec l []).1, fun x hx => ((toAggregateLoop_spec l []).2 x hx).1⟩

theorem parseIntErrors_pfx (valuePath : Path) (vals : List String) :
    ∀ (i : Nat), ∀ fe ∈ parseIntErrors valuePath i vals, valuePath <+: fe.Field := by
  induction vals with
  | nil => intro i fe h; simp [parseIntErrors] at h
  | cons v rest ih =>
    intro i fe h
    unfold parseIntErrors at h
    rcases List.mem_append.mp h with h1 | h1
    · cases hp : ParseInt v with
      | none =>
        simp only [hp, List.mem_singleton] at h1
        subst h1
        exact pfx_index _ _ _ List.prefix_rfl
      | some n => simp [hp] at h1
    · exact ih _ fe h1

theorem labelValueErrors_pfx (key : String) (valuePath : Path) (vals : List String) :
    ∀ (i : Nat), ∀ fe ∈ labelValueErrors key valuePath i vals, valuePath <+: fe.Field := by
  induction vals with
  | nil => intro i fe h; simp [labelValueErrors] at h
  | cons v rest ih =>
    intro i fe h
    unfold labelValueErrors at h
    rcases List.mem_append.mp h with h1 | h1
    · unfold validateLabelValue at h1
      by_cases hv : (IsValidLabelValue v).length ≠ 0
      · rw [if_pos hv] at h1
        simp only [List.mem_singleton] at h1
        subst h1
        exact pfx_key _ _ _ (pfx_index _ _ _ List.prefix_rfl)
      · rw [if_neg hv] at h1
        simp at h1
    · exact ih _ fe h1

theorem operatorErrors_pfx (op : Operator) (vals : List String) (valuePath : Path) :
    ∀ fe ∈ operatorErrors op vals valuePath, valuePath <+: fe.Field := by
  intro fe h
  have hinv : ∀ (d : String) (c : Prop) [Decidable c],
      fe ∈ (if c then [Invalid valuePath (BadValue.strs vals) d] else []) →
        valuePath <+: fe.Field := by
    intro d c _ hmem
    split_ifs at hmem
    · rw [List.mem_singleton.mp hmem]
      exact List.prefix_rfl
    · simp at hmem
  cases op
  case GreaterThan =>
    rcases List.mem_append.mp h with h1 | h1
    · exact hinv _ _ h1
    · exact parseIntErrors_pfx _ _ _ fe h1
  case LessThan =>
    rcases List.mem_append.mp h with h1 | h1
    · exact hinv _ _ h1
    · exact parseIntErrors_pfx _ _ _ fe h1
  all_goals exact hinv _ _ h

theorem requirementErrors_pfx (key : String) (op : Operator) (vals : List String) (path : Path) :
    ∀ fe ∈ requirementErrors key op vals path, path <+: fe.Field := by
  intro fe h
  unfold requirementErrors at h
  rcases List.mem_append.mp h with h1 | h1
  · rcases List.mem_append.mp h1 with h2 | h2
    · unfold validateLabelKey at h2
      by_cases hk : (IsQualifiedName key).length ≠ 0
      · rw [if_pos hk] at h2
        simp only [List.mem_singleton] at h2
        subst h2
        exact pfx_child _ _ _ List.prefix_rfl
      · rw [if_neg hk] at h2
        simp at h2
    · exact (pfx_child path path "values" List.prefix_rfl).trans
        (operatorErrors_pfx op vals _ fe h2)
  · exact (pfx_child path path "values" List.prefix_rfl).trans
      (labelValueErrors_pfx key _ vals 0 fe h1)

theorem nodup_append_of_index (path : Path) (i : Nat) (X1 X2 : List FieldError)
    (h1 : X1.Nodup) (h2 : X2.Nodup)
    (p1 : ∀ fe ∈ X1, path.Index i <+: fe.Field)
    (p2 : ∀ fe ∈ X2, ∃ j, i + 1 ≤ j ∧ path.Index j <+: fe.Field) :
    (X1 ++ X2).Nodup := by
  apply List.Nodup.append h1 h2
  intro fe hf1 hf2
  obtain ⟨j, hj, hpj⟩ := p2 fe hf2
  have := snoc_prefix_inj path fe.Field _ _ (p1 fe hf1) hpj
  simp only [PathSeg.index.injEq] at this
  omega

theorem labelSelectorLoop_flatten (path : Path) (nsm : List NodeSelectorRequirement) :
    ∀ (i : Nat) (errs : List Err) (sel : List Requirement),
      ∃ X, flattenErrors (labelSelectorLoop path i nsm errs sel).1 = flattenErrors errs ++ X
        ∧ X.Nodup ∧ ∀ fe ∈ X, ∃ j, i ≤ j ∧ path.Index j <+: fe.Field := by
  induction nsm with
  | nil => intro i errs sel; exact ⟨[], by simp [labelSelectorLoop], List.nodup_nil, by simp⟩
  | cons e rest ih =>
    intro i errs sel
    unfold labelSelectorLoop
    cases hop : selectionOperator e.Operator with
    | none =>
      obtain ⟨X, h1, h2, h3⟩ := ih (i + 1)
        (errs ++ [Err.fieldError (NotSupported ((path.Index i).Child "operator")
          (BadValue.str e.Operator) validSelectorOperators)]) sel
      refine ⟨[NotSupported ((path.Index i).Child "operator") (BadValue.str e.Operator)
        validSelectorOperators] ++ X, ?_, ?_, ?_⟩
      · simp only [h1, flattenErrors_append, flattenErrors, List.append_assoc]
      · apply nodup_append_of_index path i _ _ (List.nodup_singleton _) h2
        · intro fe hfe
          rw [List.mem_singleton.mp hfe]
          exact pfx_child _ _ _ List.prefix_rfl
        · exact h3
      · intro fe hfe
        rcases List.mem_append.mp hfe with hf | hf
        · rw [List.mem_singleton.mp hf]
          exact ⟨i, Nat.le_refl _, pfx_child _ _ _ List.prefix_rfl⟩
        · obtain ⟨j, hj, hp⟩ := h3 fe hf
          exact ⟨j, by omega, hp⟩
    | some op =>
      cases hr : (NewRequirement e.Key op e.Values (Path.Index path i)).2 with
      | none =>
        simp only [hr]
        obtain ⟨X, h1, h2, h3⟩ := ih (i + 1) errs (internalSelectorAdd sel
          (NewRequirement e.Key op e.Values (Path.Index path i)).1)
        refine ⟨X, h1, h2, ?_⟩
        intro fe hfe
        obtain ⟨j, hj, hp⟩ := h3 fe hfe
        exact ⟨j, by omega, hp⟩
      | some a =>
        simp only [hr]
        obtain ⟨X, h1, h2, h3⟩ := ih (i + 1) (errs ++ [Err.aggregate a]) sel
        obtain ⟨ha1, ha2⟩ := ToAggregate_spec _ a hr
        have hpa : ∀ fe ∈ a, path.Index i <+: fe.Field :=
          fun fe hfe => requirementErrors_pfx _ _ _ _ fe (ha2 fe hfe)
        refine ⟨a ++ X, ?_, ?_, ?_⟩
        · rw [h1, flattenErrors_append, flattenErrors_aggregate, List.append_assoc]
        · exact nodup_append_of_index path i _ _ ha1 h2 hpa h3
        · intro fe hfe
          rcases List.mem_append.mp hfe with hf | hf
          · exact ⟨i, Nat.le_refl _, hpa fe hf⟩
          · obtain ⟨j, hj, hp⟩ := h3 fe hf
            exact ⟨j, by omega, hp⟩

theorem fieldSelectorLoop_step (path : Path) (e : NodeSelectorRequirement)
    (rest : List NodeSelectorRequirement) (i : Nat) (errs : List Err) (sels : List FieldTerm) :
    (∃ sels', fieldSelectorLoop path i (e :: rest) errs sels
        = fieldSelectorLoop path (i + 1) rest errs sels')
      ∨ (∃ fe sels', path.Index i <+: fe.Field
          ∧ fieldSelectorLoop path i (e :: rest) errs sels
            = fieldSelectorLoop path (i + 1) rest (errs ++ [Err.fieldError fe]) sels') := by
  rw [fieldSelectorLoop]
  by_cases hin : e.Operator = NodeSelectorOpIn
  · by_cases hv : e.Values.length ≠ 1
    · right
      refine ⟨Invalid ((path.Index i).Child "values") (BadValue.strs e.Values)
        "must have one element", sels, pfx_child _ _ "values" List.prefix_rfl, ?_⟩
      rw [if_pos hin, if_pos hv]
    · left
      refine ⟨sels ++ [FieldTerm.hasTerm e.Key (e.Values.headD "")], ?_⟩
      rw [if_pos hin, if_neg hv]
  · by_cases hnin : e.Operator = NodeSelectorOpNotIn
    · by_cases hv : e.Values.length ≠ 1
      · right
        refine ⟨Invalid ((path.Index i).Child "values") (BadValue.strs e.Values)
          "must have one element", sels, pfx_child _ _ "values" List.prefix_rfl, ?_⟩
        rw [if_neg hin, if_pos hnin, if_pos hv]
      · left
        refine ⟨sels ++ [FieldTerm.notHasTerm e.Key (e.Values.headD "")], ?_⟩
        rw [if_neg hin, if_pos hnin, if_neg hv]
    · right
      refine ⟨NotSupported ((path.Index i).Child "operator") (BadValue.str e.Operator)
        validFieldSelectorOperators, sels, pfx_child _ _ "operator" List.prefix_rfl, ?_⟩
      rw [if_neg hin, if_neg hnin]

theorem fieldSelectorLoop_flatten (path : Path) (nsr : List NodeSelectorRequirement) :
    ∀ (i : Nat) (errs : List Err) (sels : List FieldTerm),
      ∃ X, flattenErrors (fieldSelectorLoop path i nsr errs sels).1 = flattenErrors errs ++ X
        ∧ X.Nodup ∧ ∀ fe ∈ X, ∃ j, i ≤ j ∧ path.Index j <+: fe.Field := by
  induction nsr with
  | nil => intro i errs sels; exact ⟨[], by simp [fieldSelectorLoop], List.nodup_nil, by simp⟩
  | cons e rest ih =>
    intro i errs sels
    rcases fieldSelectorLoop_step path e rest i errs sels with ⟨sels', heq⟩ | ⟨fe0, sels', hp0, heq⟩
    · rw [heq]
      obtain ⟨X, h1, h2, h3⟩ := ih (i + 1) errs sels'
      refine ⟨X, h1, h2, ?_⟩
      intro fe hfe
      obtain ⟨j, hj, hp⟩ := h3 fe hfe
      exact ⟨j, by omega, hp⟩
    · rw [heq]
      obtain ⟨X, h1, h2, h3⟩ := ih (i + 1) (errs ++ [Err.fieldError fe0]) sels'
      refine ⟨[fe0] ++ X, ?_, ?_, ?_⟩
      · simp only [h1, flattenErrors_append, flattenErrors, List.append_assoc]
      · apply nodup_append_of_index path i _ _ (List.nodup_singleton _) h2
        · intro fe hfe
          rw [List.mem_singleton.mp hfe]
          exact hp0
        · exact h3
      · intro fe hfe
        rcases List.mem_append.mp hfe with hf | hf
        · rw [List.mem_singleton.mp hf]
          exact ⟨i, Nat.le_refl _, hp0⟩
        · obtain ⟨j, hj, hp⟩ := h3 fe hf
          exact ⟨j, by omega, hp⟩

theorem labelErrs_getD (nsm : List NodeSelectorRequirement) (path : Path) :
    (nodeSelectorRequirementsAsSelector nsm path).2.getD []
      = (labelSelectorLoop path 0 nsm [] []).1 := by
  by_cases h1 : nsm.length = 0
  · have : nsm = [] := List.length_eq_zero.mp h1
    subst this
    rfl
  · rw [nodeSelectorRequirementsAsSelector_eq _ _ h1]
    by_cases h0 : (labelSelectorLoop path 0 nsm [] []).1 = []
    · rw [if_pos h0, h0]; rfl
    · rw [if_neg h0]; rfl

theorem fieldErrs_getD (nsr : List NodeSelectorRequirement) (path : Path) :
    (virtualNodeSelectorRequirementsAsFieldSelector nsr path).2.getD []
      = (fieldSelectorLoop path 0 nsr [] []).1 := by
  by_cases h1 : nsr.length = 0
  · have : nsr = [] := List.length_eq_zero.mp h1
    subst this
    rfl
  · rw [virtualNodeSelectorRequirementsAsFieldSelector_eq _ _ h1]
    by_cases h0 : (fieldSelectorLoop path 0 nsr [] []).1 = []
    · rw [if_pos h0, h0]; rfl
    · rw [if_neg h0]; rfl

theorem goAppend_getD {α : Type} (a b : List α) :
    (goAppend (goAppend none a) b).getD [] = a ++ b := by
  cases a with
  | nil =>
    cases b with
    | nil => rfl
    | cons y ys => simp [goAppend]
  | cons x xs => simp [goAppend]

theorem term_errors_nodup (t : NodeSelectorTerm) (tp : Path) :
    (flattenErrors ((newVirtualNodeSelectorTerm t tp).parseErrs.getD [])).Nodup
      ∧ ∀ fe ∈ flattenErrors ((newVirtualNodeSelectorTerm t tp).parseErrs.getD []),
          tp <+: fe.Field := by
  rw [newVirtualNodeSelectorTerm_eq]
  simp only [goAppend_getD, labelErrs_getD, fieldErrs_getD, flattenErrors_append]
  obtain ⟨XL, l1, l2, l3⟩ :=
    labelSelectorLoop_flatten (tp.Child "matchExpressions") t.MatchExpressions 0 [] []
  obtain ⟨XF, f1, f2, f3⟩ :=
    fieldSelectorLoop_flatten (tp.Child "matchFields") t.MatchFields 0 [] []
  rw [l1, f1]
  simp only [flattenErrors, List.nil_append]
  have hl : ∀ fe ∈ XL, tp.Child "matchExpressions" <+: fe.Field := by
    intro fe hfe
    obtain ⟨j, _, hp⟩ := l3 fe hfe
    exact (pfx_index _ _ j List.prefix_rfl).trans hp
  have hf : ∀ fe ∈ XF, tp.Child "matchFields" <+: fe.Field := by
    intro fe hfe
    obtain ⟨j, _, hp⟩ := f3 fe hfe
    exact (pfx_index _ _ j List.prefix_rfl).trans hp
  constructor
  · apply List.Nodup.append l2 f2
    intro fe h1 h2
    have := snoc_prefix_inj tp fe.Field _ _ (hl fe h1) (hf fe h2)
    simp only [PathSeg.name.injEq] at this
    exact absurd this (by decide)
  · intro fe hfe
    rcases List.mem_append.mp hfe with h | h
    · exact (pfx_child tp tp _ List.prefix_rfl).trans (hl fe h)
    · exact (pfx_child tp tp _ List.prefix_rfl).trans (hf fe h)

theorem newSelectorLoop_flatten (path : Path) (ts : List NodeSelectorTerm) :
    ∀ (i : Nat) (acc : List selectorTerm),
      ∃ X, flattenErrors ((newSelectorLoop path i ts acc).flatMap (fun t => t.parseErrs.getD []))
          = flattenErrors (acc.flatMap (fun t => t.parseErrs.getD [])) ++ X
        ∧ X.Nodup ∧ ∀ fe ∈ X, ∃ j, i ≤ j ∧ path.Index j <+: fe.Field := by
  induction ts with
  | nil => intro i acc; exact ⟨[], by simp [newSelectorLoop], List.nodup_nil, by simp⟩
  | cons t rest ih =>
    intro i acc
    unfold newSelectorLoop
    by_cases he : isEmptyVirtualNodeSelectorTerm t = true
    · rw [if_pos he]
      obtain ⟨X, h1, h2, h3⟩ := ih (i + 1) acc
      refine ⟨X, h1, h2, ?_⟩
      intro fe hfe
      obtain ⟨j, hj, hp⟩ := h3 fe hfe
      exact ⟨j, by omega, hp⟩
    · rw [if_neg he]
      obtain ⟨X, h1, h2, h3⟩ := ih (i + 1) (acc ++ [newVirtualNodeSelectorTerm t (path.Index i)])
      obtain ⟨t1, t2⟩ := term_errors_nodup t (path.Index i)
      refine ⟨flattenErrors ((newVirtualNodeSelectorTerm t (path.Index i)).parseErrs.getD [])
        ++ X, ?_, ?_, ?_⟩
      · rw [h1]
        simp only [List.flatMap_append, List.flatMap_cons, List.flatMap_nil, List.append_nil,
          flattenErrors_append, List.append_assoc]
      · exact nodup_append_of_index path i _ _ t1 h2 t2 h3
      · intro fe hfe
        rcases List.mem_append.mp hfe with hf | hf
        · exact ⟨i, Nat.le_refl _, t2 fe hf⟩
        · obtain ⟨j, hj, hp⟩ := h3 fe hf
          exact ⟨j, by omega, hp⟩

theorem collectedErrors_nodup (E : NodeSelector) (p : Path) :
    (collectedErrors (NewSelector E p)).Nodup := by
  obtain ⟨X, h1, h2, _⟩ :=
    newSelectorLoop_flatten (p.Child "nodeSelectorTerms") E.NodeSelectorTerms 0 []
  unfold collectedErrors NewSelector
  rw [h1]
  simpa [flattenErrors] using h2

/-! ## Lemmas on the records and targets of the calls of a pass -/

theorem callRecord_convergenceCall (remoteNamespace : String) (nsoff : NamespaceOffloading)
    (clusterIDMap : ClusterIDMap) (vn : VirtualNode) :
    callRecord (convergenceCall remoteNamespace nsoff clusterIDMap vn)
      = clusterIDMap.lookup vn.ClusterID := by
  unfold convergenceCall
  split <;> rfl

theorem mem_passCalls (remoteNamespace : String) (nsoff : NamespaceOffloading)
    (clusterIDMap : ClusterIDMap) (vns : List VirtualNode) (call : Call)
    (h : call ∈ passCalls remoteNamespace nsoff clusterIDMap vns) :
    ∃ vn ∈ vns, call = convergenceCall remoteNamespace nsoff clusterIDMap vn := by
  induction vns with
  | nil => simp [passCalls] at h
  | cons vn rest ih =>
    unfold passCalls at h
    cases herr : (MatchSelectorTerms (some vn) nsoff.ClusterSelector).err with
    | some e => simp [herr] at h
    | none =>
      simp only [herr, List.mem_cons] at h
      rcases h with h | h
      · exact ⟨vn, List.mem_cons_self _ _, h⟩
      · obtain ⟨x, hx, hc⟩ := ih h
        exact ⟨x, List.mem_cons_of_mem _ hx, hc⟩

theorem passCalls_targets_nodup (remoteNamespace : String) (nsoff : NamespaceOffloading)
    (clusterIDMap : ClusterIDMap)
    (hkeys : ∀ id m, clusterIDMap.lookup id = some m → m.RemoteClusterID = id)
    (vns : List VirtualNode) (hnodup : (vns.map (fun vn => vn.ClusterID)).Nodup) :
    ((passCalls remoteNamespace nsoff clusterIDMap vns).filterMap callTarget).Nodup
      ∧ ∀ k ∈ (passCalls remoteNamespace nsoff clusterIDMap vns).filterMap callTarget,
          k ∈ vns.map (fun vn => vn.ClusterID) := by
  induction vns with
  | nil => simp [passCalls]
  | cons vn rest ih =>
    simp only [List.map_cons, List.nodup_cons] at hnodup
    obtain ⟨ih1, ih2⟩ := ih hnodup.2
    unfold passCalls
    cases herr : (MatchSelectorTerms (some vn) nsoff.ClusterSelector).err with
    | some e => simp
    | none =>
      simp only [List.filterMap_cons, callTarget, callRecord_convergenceCall]
      cases hl : clusterIDMap.lookup vn.ClusterID with
      | none =>
        simp only [Option.map_none']
        exact ⟨ih1, fun k hk => List.mem_cons_of_mem _ (ih2 k hk)⟩
      | some m =>
        have hm : m.RemoteClusterID = vn.ClusterID := hkeys _ _ hl
        simp only [Option.map_some', hm]
        refine ⟨List.nodup_cons.mpr ⟨fun hmem => hnodup.1 (ih2 _ hmem), ih1⟩, ?_⟩
        intro k hk
        rcases List.mem_cons.mp hk with rfl | hk'
        · exact List.mem_cons_self _ _
        · exact List.mem_cons_of_mem _ (ih2 k hk')

/-! ## Lemmas on the configuration controller -/

theorem CreateOrGetNetwork_error_nil {σ : Type} (cl : Client σ) (s : σ) (scheme : Scheme)
    (cfg : Configuration) (cidrType : LabelCIDRTypeValue)
    (h : (CreateOrGetNetwork cl s scheme cfg cidrType).2.2 ≠ none) :
    (CreateOrGetNetwork cl s scheme cfg cidrType).2.1 = none := by
  unfold CreateOrGetNetwork at h ⊢
  simp only at h ⊢
  cases hl : cl.ListNetworkByLabel s cfg.Namespace (ForgeLabelSelector cidrType) with
  | error err => rfl
  | ok items =>
    rw [hl] at h
    simp only at h ⊢
    by_cases h1 : items.length = 1
    · rw [if_pos h1] at h
      exact absurd rfl h
    · rw [if_neg h1] at h ⊢
      by_cases hgt : items.length > 1
      · rw [if_pos hgt]
      · rw [if_neg hgt] at h ⊢
        rcases hc : cl.Create s (ForgeNetwork cfg cidrType scheme) with ⟨s1, res⟩
        rw [hc] at h
        cases res with
        | error err => rfl
        | ok stored => exact absurd rfl h

theorem remapLoop_pod_error {σ : Type} (cl : Client σ) (scheme : Scheme) (s : σ)
    (cfg : Configuration) (hunset : cfg.Status.Remote.CIDR.Pod = "")
    (herr : (CreateOrGetNetwork cl s scheme cfg LabelCIDRTypePod).2.2 ≠ none) :
    (RemapConfiguration cl scheme s cfg).2 = RemapOutcome.nilPointerDereference := by
  have hnil := CreateOrGetNetwork_error_nil cl s scheme cfg LabelCIDRTypePod herr
  unfold RemapConfiguration LabelCIDRTypeValues remapLoop
  simp only [if_true, hunset, ne_eq, not_true_eq_false, if_false]
  rcases hres : CreateOrGetNetwork cl s scheme cfg LabelCIDRTypePod with ⟨s1, network, err⟩
  rw [hres] at hnil herr
  simp only at hnil herr
  subst hnil
  cases err with
  | none => exact absurd rfl herr
  | some e => rfl

theorem ForgeNetwork_fields (cfg : Configuration) (cidrType : LabelCIDRTypeValue)
    (scheme : Scheme) :
    (ForgeNetwork cfg cidrType scheme).Name = cfg.Name ++ "-" ++ cidrType
      ∧ (ForgeNetwork cfg cidrType scheme).Namespace = cfg.Namespace
      ∧ (ForgeNetwork cfg cidrType scheme).Labels = [(LabelCIDRType, cidrType)]
      ∧ (ForgeNetwork cfg cidrType scheme).Spec.CIDR = cfg.Spec.Remote.CIDR.Pod := by
  unfold ForgeNetwork SetOwnerReference
  simp only
  split
  · exact ⟨rfl, rfl, rfl, rfl⟩
  · split <;> exact ⟨rfl, rfl, rfl, rfl⟩

/-! ## Lemmas: the result of a pass and the answers of the Mapping Store -/

theorem issueCall_convergenceCall {σ : Type} (r : Reconciler σ) (nsoff : NamespaceOffloading)
    (clusterIDMap : ClusterIDMap) (vn : VirtualNode) (s : σ) :
    issueCall r s (convergenceCall (r.remoteNamespaceName nsoff) nsoff clusterIDMap vn)
      = convergenceStep r nsoff clusterIDMap vn s := by
  unfold convergenceCall convergenceStep
  split <;> rfl

theorem enforceLoop_err_answers {σ : Type} (r : Reconciler σ) (nsoff : NamespaceOffloading)
    (clusterIDMap : ClusterIDMap) (vns : List VirtualNode) :
    ∀ (returnErr : Option ReconcileError) (calls : List CallRecord) (s : σ),
      (∀ c ∈ vns, (MatchSelectorTerms (some c) nsoff.ClusterSelector).err = none) →
      (enforceLoop r nsoff clusterIDMap vns returnErr calls s).err
        = if (storeAnswers r s (vns.map
              (convergenceCall (r.remoteNamespaceName nsoff) nsoff clusterIDMap))).any
                Option.isSome
          then some ReconcileError.failedToConfigure else returnErr := by
  induction vns with
  | nil =>
    intro returnErr calls s _
    simp [enforceLoop, storeAnswers]
  | cons vn rest ih =>
    intro returnErr calls s h
    have hvn := h vn (List.mem_cons_self _ _)
    have hrest : ∀ c ∈ rest, (MatchSelectorTerms (some c) nsoff.ClusterSelector).err = none :=
      fun c hc => h c (List.mem_cons_of_mem _ hc)
    rw [enforceLoop_cons_ok _ _ _ _ _ _ _ _ hvn, ih _ _ _ hrest]
    simp only [List.map_cons, storeAnswers, issueCall_convergenceCall, List.any_cons]
    cases hf : (convergenceStep r nsoff clusterIDMap vn s).2.isSome <;>
      cases hn : (storeAnswers r (convergenceStep r nsoff clusterIDMap vn s).1
        (rest.map (convergenceCall (r.remoteNamespaceName nsoff) nsoff clusterIDMap))).any
          Option.isSome <;> simp

theorem enforceLoop_failed_answers {σ : Type} (r : Reconciler σ) (nsoff : NamespaceOffloading)
    (clusterIDMap : ClusterIDMap) (vns : List VirtualNode) :
    ∀ (returnErr : Option ReconcileError) (calls : List CallRecord) (s : σ),
      ∃ news, (enforceLoop r nsoff clusterIDMap vns returnErr calls s).calls = calls ++ news
        ∧ news.map (fun c => c.failed)
            = (storeAnswers r s (news.map (fun c => c.call))).map Option.isSome := by
  induction vns with
  | nil => intro returnErr calls s; exact ⟨[], by simp [enforceLoop], rfl⟩
  | cons vn rest ih =>
    intro returnErr calls s
    cases herr : (MatchSelectorTerms (some vn) nsoff.ClusterSelector).err with
    | some e =>
      rw [enforceLoop_cons_err _ _ _ _ _ _ _ _ e herr]
      exact ⟨[], by simp, rfl⟩
    | none =>
      rw [enforceLoop_cons_ok _ _ _ _ _ _ _ _ herr]
      obtain ⟨news, h1, h2⟩ := ih
        (if (convergenceStep r nsoff clusterIDMap vn s).2.isSome
          then some ReconcileError.failedToConfigure else returnErr)
        (calls ++ [convergenceRecord r nsoff clusterIDMap vn s])
        (convergenceStep r nsoff clusterIDMap vn s).1
      refine ⟨convergenceRecord r nsoff clusterIDMap vn s :: news, ?_, ?_⟩
      · rw [h1, List.append_assoc]; rfl
      · simp only [List.map_cons, storeAnswers, convergenceRecord, issueCall_convergenceCall]
        rw [h2]

/-! ## Lemmas: the map built by `getClusterIDMap` is keyed by the identifiers of its records -/

theorem lookup_goMapInsert (m : ClusterIDMap) (k : String) (v : NamespaceMap) (id : String) :
    (goMapInsert m k v).lookup id = if id = k then some v else m.lookup id := by
  induction m with
  | nil =>
    by_cases h : id = k
    · subst h; simp [goMapInsert, List.lookup]
    · have e : (id == k) = false := by simpa using h
      simp [goMapInsert, List.lookup, e, h]
  | cons kv rest ih =>
    obtain ⟨k0, v0⟩ := kv
    unfold goMapInsert
    by_cases h0 : k0 = k
    · rw [if_pos h0]
      subst h0
      by_cases h : id = k0
      · subst h; simp [List.lookup]
      · have e : (id == k0) = false := by simpa using h
        simp [List.lookup, e, h]
    · rw [if_neg h0]
      by_cases h : id = k0
      · subst h
        have hne : ¬ id = k := h0
        simp [List.lookup, hne]
      · have e : (id == k0) = false := by simpa using h
        simp only [List.lookup, e]
        exact ih

theorem getClusterIDMapLoop_keyed (items : List NamespaceMap) :
    ∀ m : ClusterIDMap, (∀ id x, m.lookup id = some x → x.RemoteClusterID = id) →
      ∀ id x, (getClusterIDMapLoop items m).lookup id = some x → x.RemoteClusterID = id := by
  induction items with
  | nil => intro m hm; exact hm
  | cons nm rest ih =>
    intro m hm
    unfold getClusterIDMapLoop
    apply ih
    intro id x hx
    rw [lookup_goMapInsert] at hx
    by_cases h : id = nm.RemoteClusterID
    · rw [if_pos h] at hx
      cases hx
      exact h.symm
    · rw [if_neg h] at hx
      exact hm id x hx

/-! ## Theorems -/

/-- C2: for every non-nil candidate, `MatchSelectorTerms` on an expression of zero terms returns
`(true, nil)`; nothing is compiled or evaluated, so nothing is printed either. -/
theorem MatchSelectorTerms_empty_expression (c : VirtualNode) :
    MatchSelectorTerms (some c) { NodeSelectorTerms := [] }
      = { matched := true, err := none, printed := [] } := by
  rfl

/-- C3, as stated, fails: compiling the empty expression with `NewSelector` and calling `Match` on
a non-nil candidate does not return `(true, nil)`. -/
theorem Match_compiled_empty_expression_counterexample :
    ¬ (((NewSelector { NodeSelectorTerms := [] } []).Match
          (some { Name := "node1", Labels := [], ClusterID := "cluster1" })).matched = true
        ∧ ((NewSelector { NodeSelectorTerms := [] } []).Match
          (some { Name := "node1", Labels := [], ClusterID := "cluster1" })).err = none) := by
  decide

/-- C3, amended: through the compiled-selector interface the empty expression matches nothing,
`Match (NewSelector empty) c = (false, nil)` for every non-nil candidate and every path option;
the rule that the empty expression matches everything is applied by `MatchSelectorTerms`, before
compilation. -/
theorem Match_compiled_empty_expression (c : VirtualNode) (p : Path) :
    (NewSelector { NodeSelectorTerms := [] } p).Match (some c)
        = { matched := false, err := none, printed := [] }
      ∧ MatchSelectorTerms (some c) { NodeSelectorTerms := [] }
        = { matched := true, err := none, printed := [] } := by
  constructor <;> rfl

/-- C4, as stated, fails: `MatchSelectorTerms` on a nil candidate and the empty expression does
not return `(false, nil)`. -/
theorem MatchSelectorTerms_nil_candidate_counterexample :
    ¬ ((MatchSelectorTerms none { NodeSelectorTerms := [] }).matched = false
        ∧ (MatchSelectorTerms none { NodeSelectorTerms := [] }).err = none) := by
  decide

/-- C4, amended: for every expression `E`, `(NewSelector E).Match nil` returns `(false, nil)`;
`MatchSelectorTerms nil E` returns a nil error, and returns `false` exactly when `E` has at least
one term (on the empty expression the shortcut is taken before the nil check, and the result is
`true`). -/
theorem nil_candidate_never_matches (E : NodeSelector) (p : Path) :
    (NewSelector E p).Match none = { matched := false, err := none, printed := [] }
      ∧ (MatchSelectorTerms none E).err = none
      ∧ ((MatchSelectorTerms none E).matched = false ↔ E.NodeSelectorTerms ≠ []) := by
  refine ⟨rfl, ?_, ?_⟩
  · unfold MatchSelectorTerms
    split <;> simp
  · unfold MatchSelectorTerms
    cases h : E.NodeSelectorTerms <;> simp

/-- C9: for every non-empty expression all of whose terms are degenerate and every candidate (nil
or not), `MatchSelectorTerms` returns `(false, nil)`. -/
theorem MatchSelectorTerms_all_degenerate (E : NodeSelector) (c : Option VirtualNode)
    (hne : E.NodeSelectorTerms ≠ [])
    (hdeg : ∀ t ∈ E.NodeSelectorTerms, degenerate t = true) :
    MatchSelectorTerms c E = { matched := false, err := none, printed := [] } := by
  have hlen : ¬ E.NodeSelectorTerms.length = 0 := by
    intro h; exact hne (List.length_eq_zero.mp h)
  have hterms : (NewSelector E []).terms = [] := by
    unfold NewSelector
    apply newSelectorLoop_degenerate
    intro t ht
    have := hdeg t ht
    simpa [degenerate, isEmptyVirtualNodeSelectorTerm, List.isEmpty_iff, List.length_eq_zero] using this
  unfold MatchSelectorTerms
  rw [if_neg hlen]
  cases c with
  | none => rfl
  | some vn =>
    simp only [Option.isNone_some, Bool.false_eq_true, if_false, Selector.Match, hterms]
    rfl

/-- C9 at a concrete input: the expression with one degenerate term, against a named candidate. -/
theorem MatchSelectorTerms_all_degenerate_witness :
    MatchSelectorTerms (some { Name := "node1", Labels := [("region", "eu")], ClusterID := "c1" })
        { NodeSelectorTerms := [{ MatchExpressions := [], MatchFields := [] }] }
      = { matched := false, err := none, printed := [] } :=
  MatchSelectorTerms_all_degenerate _ _ (by decide) (by decide)

/-- C5: for every compiled selector (so for every expression) and every non-nil candidate, if at
least one compiled term without compile errors matches the candidate, `Match` returns
`(true, nil)`, whatever errors the other terms carry and wherever those terms stand. -/
theorem Match_first_matching_term_wins (vns : Selector) (c : VirtualNode)
    (h : ∃ t ∈ vns.terms, t.parseErrs = none
      ∧ (t.doMatch c.Labels (extractVirtualNodeFields c)).1 = true) :
    (vns.Match (some c)).matched = true ∧ (vns.Match (some c)).err = none := by
  have hm : (vns.Match (some c)).matched = true := by
    simp only [Selector.Match]
    rw [matchLoop_matched_iff]
    obtain ⟨t, ht, _, hmt⟩ := h
    exact ⟨t, ht, hmt⟩
  refine ⟨hm, ?_⟩
  simp only [Selector.Match] at hm ⊢
  exact matchLoop_err_of_matched _ _ _ _ _ _ hm

/-- C5 at a concrete input: the matching term stands between two terms that carry compile errors
(an unsupported label operator before it, a field requirement with two values after it). -/
theorem Match_first_matching_term_wins_witness :
    (∃ t ∈ (NewSelector { NodeSelectorTerms :=
          [{ MatchExpressions := [{ Key := "region", Operator := "Near", Values := ["eu"] }],
             MatchFields := [] },
           { MatchExpressions := [{ Key := "region", Operator := "In", Values := ["eu"] }],
             MatchFields := [] },
           { MatchExpressions := [],
             MatchFields := [{ Key := "metadata.name", Operator := "In", Values := ["a", "b"] }] }]
          } []).terms,
        t.parseErrs = none
        ∧ (t.doMatch [("region", "eu")]
            (extractVirtualNodeFields
              { Name := "node1", Labels := [("region", "eu")], ClusterID := "c1" })).1 = true)
    ∧ ((NewSelector { NodeSelectorTerms :=
          [{ MatchExpressions := [{ Key := "region", Operator := "Near", Values := ["eu"] }],
             MatchFields := [] },
           { MatchExpressions := [{ Key := "region", Operator := "In", Values := ["eu"] }],
             MatchFields := [] },
           { MatchExpressions := [],
             MatchFields := [{ Key := "metadata.name", Operator := "In", Values := ["a", "b"] }] }]
          } []).Match
        (some { Name := "node1", Labels := [("region", "eu")], ClusterID := "c1" })).matched = true
    ∧ ((NewSelector { NodeSelectorTerms :=
          [{ MatchExpressions := [{ Key := "region", Operator := "Near", Values := ["eu"] }],
             MatchFields := [] },
           { MatchExpressions := [{ Key := "region", Operator := "In", Values := ["eu"] }],
             MatchFields := [] },
           { MatchExpressions := [],
             MatchFields := [{ Key := "metadata.name", Operator := "In", Values := ["a", "b"] }] }]
          } []).Match
        (some { Name := "node1", Labels := [("region", "eu")], ClusterID := "c1" })).err = none :=
  ⟨by decide,
   Match_first_matching_term_wins _
     { Name := "node1", Labels := [("region", "eu")], ClusterID := "c1" } (by decide)⟩

/-- C6: for every non-empty expression and non-nil candidate such that no compiled term matches,
`Match` returns `false` with an error that is non-nil if and only if at least one compiled term
carries compile errors (so `(false, nil)` when none does); `MatchSelectorTerms` returns the same. -/
theorem Match_error_visibility (E : NodeSelector) (c : VirtualNode) (p : Path)
    (hne : E.NodeSelectorTerms ≠ [])
    (hno : ∀ t ∈ (NewSelector E p).terms,
      (t.doMatch c.Labels (extractVirtualNodeFields c)).1 = false) :
    ((NewSelector E p).Match (some c)).matched = false
      ∧ (((NewSelector E p).Match (some c)).err ≠ none
          ↔ ∃ t ∈ (NewSelector E p).terms, t.parseErrs ≠ none)
      ∧ ((∀ t ∈ (NewSelector E p).terms, t.parseErrs = none) →
          ((NewSelector E p).Match (some c)).err = none)
      ∧ MatchSelectorTerms (some c) E = (NewSelector E []).Match (some c) := by
  have hok : ∀ t ∈ (NewSelector E p).terms, ∀ es, t.parseErrs = some es →
      es ≠ [] ∧ noEmptyAggregate es := by
    intro t ht es hes
    simp only [NewSelector] at ht
    rcases (mem_newSelectorLoop _ _ _ _ _).mp ht with h | ⟨j, u, _, _, heq⟩
    · simp at h
    · subst heq
      exact newVirtualNodeSelectorTerm_errs_ok _ _ _ hes
  have hall : noEmptyAggregate
      ((NewSelector E p).terms.flatMap (fun t => t.parseErrs.getD [])) := by
    intro a ha
    obtain ⟨t, ht, hat⟩ := List.mem_flatMap.mp ha
    cases hp : t.parseErrs with
    | none => simp [hp] at hat
    | some es =>
      rw [hp] at hat
      exact (hok t ht es hp).2 a hat
  have hnil : (NewSelector E p).terms.flatMap (fun t => t.parseErrs.getD []) = []
      ↔ ∀ t ∈ (NewSelector E p).terms, t.parseErrs = none := by
    rw [List.flatMap_eq_nil_iff]
    constructor
    · intro h t ht
      cases hp : t.parseErrs with
      | none => rfl
      | some es =>
        have := h t ht
        rw [hp] at this
        exact absurd this (hok t ht es hp).1
    · intro h t ht
      rw [h t ht]
      rfl
  have herr : ((NewSelector E p).Match (some c)).err = none
      ↔ ∀ t ∈ (NewSelector E p).terms, t.parseErrs = none := by
    simp only [Selector.Match]
    rw [matchLoop_err_of_unmatched _ _ _ _ _ _ hno, List.nil_append, ← hnil]
    exact Flatten_NewAggregate_eq_none_iff _ hall
  refine ⟨?_, ?_, herr.mpr, ?_⟩
  · cases hm : ((NewSelector E p).Match (some c)).matched with
    | false => rfl
    | true =>
      simp only [Selector.Match] at hm
      obtain ⟨t, ht, htm⟩ := (matchLoop_matched_iff _ _ _ _ _ _).mp hm
      rw [hno t ht] at htm
      cases htm
  · rw [Ne, herr]
    push_neg
    rfl
  · have hlen : ¬ E.NodeSelectorTerms.length = 0 := fun h => hne (List.length_eq_zero.mp h)
    unfold MatchSelectorTerms
    rw [if_neg hlen]
    simp

/-- C6 at a concrete input: a malformed term (unsupported operator) and a well-formed term that
does not match the candidate. -/
theorem Match_error_visibility_witness :
    ({ NodeSelectorTerms :=
        [{ MatchExpressions := [{ Key := "region", Operator := "Near", Values := ["eu"] }],
           MatchFields := [] },
         { MatchExpressions := [{ Key := "region", Operator := "In", Values := ["us"] }],
           MatchFields := [] }] : NodeSelector }).NodeSelectorTerms ≠ []
    ∧ (∀ t ∈ (NewSelector { NodeSelectorTerms :=
          [{ MatchExpressions := [{ Key := "region", Operator := "Near", Values := ["eu"] }],
             MatchFields := [] },
           { MatchExpressions := [{ Key := "region", Operator := "In", Values := ["us"] }],
             MatchFields := [] }] } []).terms,
        (t.doMatch [("region", "eu")]
          (extractVirtualNodeFields
            { Name := "node1", Labels := [("region", "eu")], ClusterID := "c1" })).1 = false)
    ∧ ((NewSelector { NodeSelectorTerms :=
          [{ MatchExpressions := [{ Key := "region", Operator := "Near", Values := ["eu"] }],
             MatchFields := [] },
           { MatchExpressions := [{ Key := "region", Operator := "In", Values := ["us"] }],
             MatchFields := [] }] } []).Match
        (some { Name := "node1", Labels := [("region", "eu")], ClusterID := "c1" })).err ≠ none :=
  ⟨by decide, by decide,
   (Match_error_visibility _
     { Name := "node1", Labels := [("region", "eu")], ClusterID := "c1" } [] (by decide)
     (by decide)).2.1.mpr (by decide)⟩

/-- C7: `virtualNodeSelectorRequirementsAsFieldSelector` compiles a non-empty list of field
requirements without error if and only if every requirement has operator `In` or `NotIn` and
exactly one value; every other requirement records exactly one error, and a field matcher is
returned exactly when no error is recorded. -/
theorem fieldSelector_validity (nsr : List NodeSelectorRequirement) (path : Path)
    (hne : nsr ≠ []) :
    ((virtualNodeSelectorRequirementsAsFieldSelector nsr path).2 = none
        ↔ ∀ e ∈ nsr, (e.Operator = NodeSelectorOpIn ∨ e.Operator = NodeSelectorOpNotIn)
            ∧ e.Values.length = 1)
      ∧ goLen (virtualNodeSelectorRequirementsAsFieldSelector nsr path).2
          = (nsr.filter (fun e => !fieldRequirementValid e)).length
      ∧ ((virtualNodeSelectorRequirementsAsFieldSelector nsr path).1 = none
          ↔ (virtualNodeSelectorRequirementsAsFieldSelector nsr path).2 ≠ none) := by
  have hlen : nsr.length ≠ 0 := fun h => hne (List.length_eq_zero.mp h)
  have hcount := fieldSelectorLoop_errs_length path nsr 0 [] []
  simp only [List.length_nil, Nat.zero_add] at hcount
  rw [virtualNodeSelectorRequirementsAsFieldSelector_eq nsr path hlen]
  by_cases h0 : (fieldSelectorLoop path 0 nsr [] []).1 = []
  · rw [if_pos h0]
    rw [h0] at hcount
    have hfil : nsr.filter (fun e => !fieldRequirementValid e) = [] :=
      List.length_eq_zero.mp hcount.symm
    refine ⟨?_, ?_, ?_⟩
    · simp only [true_iff]
      intro e he
      have := (List.filter_eq_nil_iff.mp hfil) e he
      apply (fieldRequirementValid_iff e).mp
      simpa using this
    · simp [goLen, hfil]
    · simp
  · rw [if_neg h0]
    refine ⟨?_, ?_, ?_⟩
    · simp only [false_iff, reduceCtorEq]
      intro hall
      apply h0
      apply List.length_eq_zero.mp
      rw [hcount]
      apply List.length_eq_zero.mpr
      apply List.filter_eq_nil_iff.mpr
      intro e he
      have := (fieldRequirementValid_iff e).mpr (hall e he)
      simp [this]
    · simp [goLen, hcount]
    · simp

/-- C7 at a concrete input: `In` with no value, `NotIn` with two values and `Exists` record one
error each, the well-formed requirement none, and no matcher is returned. -/
theorem fieldSelector_validity_witness :
    ([{ Key := "metadata.name", Operator := "In", Values := [] },
      { Key := "metadata.name", Operator := "NotIn", Values := ["a", "b"] },
      { Key := "metadata.name", Operator := "Exists", Values := [] },
      { Key := "metadata.name", Operator := "In", Values := ["a"] }]
        : List NodeSelectorRequirement) ≠ []
    ∧ goLen (virtualNodeSelectorRequirementsAsFieldSelector
        [{ Key := "metadata.name", Operator := "In", Values := [] },
         { Key := "metadata.name", Operator := "NotIn", Values := ["a", "b"] },
         { Key := "metadata.name", Operator := "Exists", Values := [] },
         { Key := "metadata.name", Operator := "In", Values := ["a"] }] []).2 = 3 :=
  ⟨by decide, (fieldSelector_validity _ [] (by decide)).2.1.trans (by decide)⟩

/-- C8: for every term with a label requirement whose operator is not one of `In`, `NotIn`,
`Exists`, `DoesNotExist`, `Gt`, `Lt`, compilation returns a compiled term that carries a non-empty
list of compile errors and that matches no label set and field set: its evaluation yields `false`
together with those errors. -/
theorem unsupported_label_operator_recorded (term : NodeSelectorTerm) (path : Path)
    (h : ∃ e ∈ term.MatchExpressions, e.Operator ∉ validSelectorOperators) :
    0 < goLen (newVirtualNodeSelectorTerm term path).parseErrs
      ∧ ∀ (ls : LabelSet) (fs : FieldSet),
          (newVirtualNodeSelectorTerm term path).doMatch ls fs
            = (false, (newVirtualNodeSelectorTerm term path).parseErrs) := by
  have hex : ∃ e ∈ term.MatchExpressions, selectionOperator e.Operator = none := by
    obtain ⟨e, he, hop⟩ := h
    refine ⟨e, he, ?_⟩
    simp only [validSelectorOperators, List.mem_cons, List.mem_singleton, not_or,
      List.not_mem_nil, not_false_eq_true, and_true] at hop
    simp [selectionOperator, hop]
  have hne : term.MatchExpressions.length ≠ 0 := by
    obtain ⟨e, he, _⟩ := h
    intro h0
    rw [List.length_eq_zero.mp h0] at he
    simp at he
  have hloop := labelSelectorLoop_unsupported (path.Child "matchExpressions")
    term.MatchExpressions 0 [] [] hex
  have hA : (nodeSelectorRequirementsAsSelector term.MatchExpressions
      (path.Child "matchExpressions")).2
      = some (labelSelectorLoop (path.Child "matchExpressions") 0 term.MatchExpressions [] []).1 := by
    rw [nodeSelectorRequirementsAsSelector_eq _ _ hne, if_neg hloop]
  have hsome : ∃ es, (newVirtualNodeSelectorTerm term path).parseErrs = some es := by
    cases hp : (newVirtualNodeSelectorTerm term path).parseErrs with
    | some es => exact ⟨es, rfl⟩
    | none =>
      have := ((newVirtualNodeSelectorTerm_parseErrs_none_iff term path).mp hp).1
      rw [hA] at this
      cases this
  obtain ⟨es, hes⟩ := hsome
  have hok := newVirtualNodeSelectorTerm_errs_ok term path es hes
  refine ⟨?_, ?_⟩
  · rw [hes]
    exact List.length_pos.mpr hok.1
  · intro ls fs
    unfold selectorTerm.doMatch
    simp [hes]

/-- C8 at a concrete input: a term whose only label requirement has the operator `Near`. -/
theorem unsupported_label_operator_recorded_witness :
    (∃ e ∈ ({ MatchExpressions := [{ Key := "region", Operator := "Near", Values := ["eu"] }],
              MatchFields := [] } : NodeSelectorTerm).MatchExpressions,
        e.Operator ∉ validSelectorOperators)
    ∧ 0 < goLen (newVirtualNodeSelectorTerm
        { MatchExpressions := [{ Key := "region", Operator := "Near", Values := ["eu"] }],
          MatchFields := [] } []).parseErrs :=
  ⟨by decide, (unsupported_label_operator_recorded _ [] (by decide)).1⟩

/-- C10: for every candidate whose name is empty, the extracted field set is empty, and every
term compiled without errors whose label requirements are absent or all accepted matches the
candidate, whatever its field requirements. -/
theorem empty_field_set_passes (c : VirtualNode) (term : NodeSelectorTerm) (path : Path)
    (hname : c.Name = "")
    (herr : (newVirtualNodeSelectorTerm term path).parseErrs = none)
    (hlab : term.MatchExpressions.all (labelRequirementAccepts c.Labels) = true) :
    extractVirtualNodeFields c = []
      ∧ (newVirtualNodeSelectorTerm term path).doMatch c.Labels (extractVirtualNodeFields c)
          = (true, none) := by
  have hfs : extractVirtualNodeFields c = [] := by
    unfold extractVirtualNodeFields
    rw [hname]
    rfl
  refine ⟨hfs, ?_⟩
  have h1 : ((newVirtualNodeSelectorTerm term path).doMatch c.Labels
      (extractVirtualNodeFields c)).1 = true := by
    apply (compiled_doMatch_iff _ _ _ _).mpr
    refine ⟨herr, hlab, Or.inr (Or.inl ?_)⟩
    rw [hfs]
    rfl
  have h2 := doMatch_snd_of_true _ _ _ h1
  exact Prod.ext h1 h2

/-- C10 at a concrete input: the term with the single field requirement
`metadata.name In ["foo"]` matches an unnamed candidate, also through `MatchSelectorTerms`. -/
theorem empty_field_set_passes_witness :
    ({ Name := "", Labels := [], ClusterID := "c0" } : VirtualNode).Name = ""
    ∧ (newVirtualNodeSelectorTerm
        { MatchExpressions := [],
          MatchFields := [{ Key := "metadata.name", Operator := "In", Values := ["foo"] }] }
        (Path.Index (Path.Child [] "nodeSelectorTerms") 0)).doMatch []
          (extractVirtualNodeFields { Name := "", Labels := [], ClusterID := "c0" }) = (true, none)
    ∧ (MatchSelectorTerms (some { Name := "", Labels := [], ClusterID := "c0" })
        { NodeSelectorTerms :=
          [{ MatchExpressions := [],
             MatchFields := [{ Key := "metadata.name", Operator := "In", Values := ["foo"] }] }]
        }).matched = true :=
  ⟨by decide,
   (empty_field_set_passes { Name := "", Labels := [], ClusterID := "c0" }
     { MatchExpressions := [],
       MatchFields := [{ Key := "metadata.name", Operator := "In", Values := ["foo"] }] }
     (Path.Index (Path.Child [] "nodeSelectorTerms") 0) (by decide) (by decide) (by decide)).2,
   by decide⟩

/-- C11: in every pass where the number of virtual nodes differs from the number of mapping-state
records (the entries of `clusterIDMap`), `enforceClusterSelector` returns a non-nil error, the
cardinality mismatch, issues no add-desired-mapping and no remove-desired-mapping call, records
no event and leaves the store as it was. -/
theorem cardinality_gate {σ : Type} (r : Reconciler σ) (vns : List VirtualNode) (s : σ)
    (nsoff : NamespaceOffloading) (clusterIDMap : ClusterIDMap)
    (h : vns.length ≠ clusterIDMap.length) :
    (enforceClusterSelector r (Except.ok vns) s nsoff clusterIDMap).err
        = some (ReconcileError.cardinalityMismatch vns.length clusterIDMap.length)
      ∧ (enforceClusterSelector r (Except.ok vns) s nsoff clusterIDMap).calls = []
      ∧ (enforceClusterSelector r (Except.ok vns) s nsoff clusterIDMap).events = []
      ∧ (enforceClusterSelector r (Except.ok vns) s nsoff clusterIDMap).store = s := by
  have h' : (RetrieveClusterIDsFromVirtualNodes vns).length ≠ clusterIDMap.length := by
    simpa [RetrieveClusterIDsFromVirtualNodes] using h
  rw [enforceClusterSelector_mismatch_eq r vns s nsoff clusterIDMap h']
  simp [RetrieveClusterIDsFromVirtualNodes]

/-- C11 at a concrete input: three candidates and the map that `getClusterIDMap` builds from two
mapping-state records. -/
theorem cardinality_gate_witness :
    ([{ Name := "a", Labels := [], ClusterID := "k1" },
      { Name := "b", Labels := [], ClusterID := "k2" },
      { Name := "c", Labels := [], ClusterID := "k3" }] : List VirtualNode).length
        ≠ (getClusterIDMapLoop [{ Name := "nm1", RemoteClusterID := "k1" },
            { Name := "nm2", RemoteClusterID := "k2" }] []).length
    ∧ (enforceClusterSelector (countingReconciler (fun _ => false))
        (Except.ok [{ Name := "a", Labels := [], ClusterID := "k1" },
                    { Name := "b", Labels := [], ClusterID := "k2" },
                    { Name := "c", Labels := [], ClusterID := "k3" }]) 0
        { Namespace := "ns", ClusterSelector := { NodeSelectorTerms := [] } }
        (getClusterIDMapLoop [{ Name := "nm1", RemoteClusterID := "k1" },
          { Name := "nm2", RemoteClusterID := "k2" }] [])).calls = [] :=
  ⟨by decide, (cardinality_gate _ _ _ _ _ (by decide)).2.1⟩

/-- C12, the code at the failing input: the first candidate matches the well-formed second term,
so an add-desired-mapping call is issued for it; the second candidate matches no term, the error of
the malformed first term surfaces and the pass aborts, after that write. -/
theorem enforceClusterSelector_writes_before_expression_error :
    (MatchSelectorTerms (some { Name := "b", Labels := [("region", "us")], ClusterID := "k2" })
        { NodeSelectorTerms :=
          [{ MatchExpressions := [{ Key := "cpu", Operator := "Gt", Values := ["x"] }],
             MatchFields := [] },
           { MatchExpressions := [{ Key := "region", Operator := "In", Values := ["eu"] }],
             MatchFields := [] }] }).err ≠ none
    ∧ (enforceClusterSelector (countingReconciler (fun _ => false))
        (Except.ok [{ Name := "a", Labels := [("region", "eu")], ClusterID := "k1" },
                    { Name := "b", Labels := [("region", "us")], ClusterID := "k2" }]) 0
        { Namespace := "ns",
          ClusterSelector := { NodeSelectorTerms :=
            [{ MatchExpressions := [{ Key := "cpu", Operator := "Gt", Values := ["x"] }],
               MatchFields := [] },
             { MatchExpressions := [{ Key := "region", Operator := "In", Values := ["eu"] }],
               MatchFields := [] }] } }
        [("k1", { Name := "nm1", RemoteClusterID := "k1" }),
         ("k2", { Name := "nm2", RemoteClusterID := "k2" })]).calls
      = [{ call := Call.add "ns" "ns" (some { Name := "nm1", RemoteClusterID := "k1" }),
           failed := false }]
    ∧ (enforceClusterSelector (countingReconciler (fun _ => false))
        (Except.ok [{ Name := "a", Labels := [("region", "eu")], ClusterID := "k1" },
                    { Name := "b", Labels := [("region", "us")], ClusterID := "k2" }]) 0
        { Namespace := "ns",
          ClusterSelector := { NodeSelectorTerms :=
            [{ MatchExpressions := [{ Key := "cpu", Operator := "Gt", Values := ["x"] }],
               MatchFields := [] },
             { MatchExpressions := [{ Key := "region", Operator := "In", Values := ["eu"] }],
               MatchFields := [] }] } }
        [("k1", { Name := "nm1", RemoteClusterID := "k1" }),
         ("k2", { Name := "nm2", RemoteClusterID := "k2" })]).events.length = 1 := by
  decide

/-- C13: in every pass that reads the registry, passes the cardinality check and meets no match
error, `enforceClusterSelector` issues exactly one call per candidate, in the order of the
candidates: add-desired-mapping when the candidate matched, remove-desired-mapping when it did
not, on the record found under the cluster identifier of the candidate. -/
theorem convergence_call_per_candidate {σ : Type} (r : Reconciler σ) (vns : List VirtualNode)
    (s : σ) (nsoff : NamespaceOffloading) (clusterIDMap : ClusterIDMap)
    (hcard : (RetrieveClusterIDsFromVirtualNodes vns).length = clusterIDMap.length)
    (hnoerr : ∀ c ∈ vns, (MatchSelectorTerms (some c) nsoff.ClusterSelector).err = none) :
    (enforceClusterSelector r (Except.ok vns) s nsoff clusterIDMap).calls.map (fun c => c.call)
        = vns.map (fun vn =>
            if (MatchSelectorTerms (some vn) nsoff.ClusterSelector).matched
            then Call.add nsoff.Namespace (r.remoteNamespaceName nsoff)
              (clusterIDMap.lookup vn.ClusterID)
            else Call.remove nsoff.Namespace (clusterIDMap.lookup vn.ClusterID))
      ∧ (enforceClusterSelector r (Except.ok vns) s nsoff clusterIDMap).calls.length
          = vns.length := by
  rw [enforceClusterSelector_ok_eq r vns s nsoff clusterIDMap hcard]
  obtain ⟨news, h1, h2⟩ := enforceLoop_calls r nsoff clusterIDMap vns none [] s
  rw [h1, List.nil_append, h2, passCalls_of_no_error _ _ _ _ hnoerr]
  refine ⟨rfl, ?_⟩
  have := congrArg List.length h2
  rw [passCalls_of_no_error _ _ _ _ hnoerr] at this
  simpa using this

/-- C13 at a concrete input: a matching and a non-matching candidate. -/
theorem convergence_call_per_candidate_witness :
    (enforceClusterSelector (countingReconciler (fun _ => false))
        (Except.ok [{ Name := "a", Labels := [("region", "eu")], ClusterID := "k1" },
                    { Name := "b", Labels := [("region", "us")], ClusterID := "k2" }]) 0
        { Namespace := "ns",
          ClusterSelector := { NodeSelectorTerms :=
            [{ MatchExpressions := [{ Key := "region", Operator := "In", Values := ["eu"] }],
               MatchFields := [] }] } }
        [("k1", { Name := "nm1", RemoteClusterID := "k1" }),
         ("k2", { Name := "nm2", RemoteClusterID := "k2" })]).calls.length
      = ([{ Name := "a", Labels := [("region", "eu")], ClusterID := "k1" },
          { Name := "b", Labels := [("region", "us")], ClusterID := "k2" }]
          : List VirtualNode).length :=
  (convergence_call_per_candidate (countingReconciler (fun _ => false))
    [{ Name := "a", Labels := [("region", "eu")], ClusterID := "k1" },
     { Name := "b", Labels := [("region", "us")], ClusterID := "k2" }] 0
    { Namespace := "ns",
      ClusterSelector := { NodeSelectorTerms :=
        [{ MatchExpressions := [{ Key := "region", Operator := "In", Values := ["eu"] }],
           MatchFields := [] }] } }
    [("k1", { Name := "nm1", RemoteClusterID := "k1" }),
     ("k2", { Name := "nm2", RemoteClusterID := "k2" })] (by decide) (by decide)).2

/-- C14, as stated, fails: the first candidate matches and its add-desired-mapping call fails; the
second candidate meets the error of the malformed term and the pass returns the invalid-selector
error, not "failed to configure all desired mappings", although a call failed. -/
theorem partial_failure_aggregation_counterexample :
    ¬ ((enforceClusterSelector (countingReconciler (fun n => n == 0))
          (Except.ok [{ Name := "a", Labels := [("region", "eu")], ClusterID := "k1" },
                      { Name := "b", Labels := [("region", "us")], ClusterID := "k2" }]) 0
          { Namespace := "ns",
            ClusterSelector := { NodeSelectorTerms :=
              [{ MatchExpressions := [{ Key := "cpu", Operator := "Gt", Values := ["x"] }],
                 MatchFields := [] },
               { MatchExpressions := [{ Key := "region", Operator := "In", Values := ["eu"] }],
                 MatchFields := [] }] } }
          [("k1", { Name := "nm1", RemoteClusterID := "k1" }),
           ("k2", { Name := "nm2", RemoteClusterID := "k2" })]).err
        = some ReconcileError.failedToConfigure
      ↔ ∃ c ∈ (enforceClusterSelector (countingReconciler (fun n => n == 0))
          (Except.ok [{ Name := "a", Labels := [("region", "eu")], ClusterID := "k1" },
                      { Name := "b", Labels := [("region", "us")], ClusterID := "k2" }]) 0
          { Namespace := "ns",
            ClusterSelector := { NodeSelectorTerms :=
              [{ MatchExpressions := [{ Key := "cpu", Operator := "Gt", Values := ["x"] }],
                 MatchFields := [] },
               { MatchExpressions := [{ Key := "region", Operator := "In", Values := ["eu"] }],
                 MatchFields := [] }] } }
          [("k1", { Name := "nm1", RemoteClusterID := "k1" }),
           ("k2", { Name := "nm2", RemoteClusterID := "k2" })]).calls, c.failed = true) := by
  decide

/-- C14, amended: a failing call never aborts the pass. In every pass that passes the cardinality
check and meets no match error, whatever the Mapping Store answers to each call, the convergence
call of every candidate is issued, and the pass returns the single error "failed to configure all
desired mappings" if and only if at least one call failed, a nil error if and only if none did. -/
theorem partial_failure_aggregation {σ : Type} (r : Reconciler σ) (vns : List VirtualNode)
    (s : σ) (nsoff : NamespaceOffloading) (clusterIDMap : ClusterIDMap)
    (hcard : (RetrieveClusterIDsFromVirtualNodes vns).length = clusterIDMap.length)
    (hnoerr : ∀ c ∈ vns, (MatchSelectorTerms (some c) nsoff.ClusterSelector).err = none) :
    (enforceClusterSelector r (Except.ok vns) s nsoff clusterIDMap).calls.map (fun c => c.call)
        = vns.map (convergenceCall (r.remoteNamespaceName nsoff) nsoff clusterIDMap)
      ∧ ((enforceClusterSelector r (Except.ok vns) s nsoff clusterIDMap).err
            = some ReconcileError.failedToConfigure
          ↔ ∃ c ∈ (enforceClusterSelector r (Except.ok vns) s nsoff clusterIDMap).calls,
              c.failed = true)
      ∧ ((enforceClusterSelector r (Except.ok vns) s nsoff clusterIDMap).err = none
          ↔ ∀ c ∈ (enforceClusterSelector r (Except.ok vns) s nsoff clusterIDMap).calls,
              c.failed = false) := by
  rw [enforceClusterSelector_ok_eq r vns s nsoff clusterIDMap hcard]
  obtain ⟨news, h1, h2⟩ := enforceLoop_calls r nsoff clusterIDMap vns none [] s
  obtain ⟨news', g1, _, _, g4⟩ := enforceLoop_no_error r nsoff clusterIDMap vns none [] s hnoerr
  have hnews : news' = news := by
    rw [g1] at h1
    simpa using h1
  subst hnews
  rw [g4, g1, List.nil_append, h2, passCalls_of_no_error _ _ _ _ hnoerr]
  refine ⟨rfl, ?_, ?_⟩
  · cases hany : news'.any (fun c => c.failed) with
    | true =>
      simp only [if_true, true_iff]
      simpa [List.any_eq_true] using hany
    | false =>
      simp only [Bool.false_eq_true, if_false, reduceCtorEq, false_iff]
      simpa [List.any_eq_false] using hany
  · cases hany : news'.any (fun c => c.failed) with
    | true =>
      simp only [if_true, reduceCtorEq, false_iff]
      intro hall
      obtain ⟨c, hc, hf⟩ := List.any_eq_true.mp hany
      rw [hall c hc] at hf
      cases hf
    | false =>
      simp only [Bool.false_eq_true, if_false, true_iff]
      intro c hc
      have := List.any_eq_false.mp hany c hc
      simpa using this

/-- C14, amended, at a concrete input: three candidates that do not match, the second remove fails; the
third remove is still issued and the pass returns the aggregated error. -/
theorem partial_failure_aggregation_witness :
    (enforceClusterSelector (countingReconciler (fun n => n == 1))
        (Except.ok [{ Name := "a", Labels := [("region", "us")], ClusterID := "k1" },
                    { Name := "b", Labels := [("region", "us")], ClusterID := "k2" },
                    { Name := "c", Labels := [("region", "us")], ClusterID := "k3" }]) 0
        { Namespace := "ns",
          ClusterSelector := { NodeSelectorTerms :=
            [{ MatchExpressions := [{ Key := "region", Operator := "In", Values := ["eu"] }],
               MatchFields := [] }] } }
        [("k1", { Name := "nm1", RemoteClusterID := "k1" }),
         ("k2", { Name := "nm2", RemoteClusterID := "k2" }),
         ("k3", { Name := "nm3", RemoteClusterID := "k3" })]).err
      = some ReconcileError.failedToConfigure
    ∧ (enforceClusterSelector (countingReconciler (fun n => n == 1))
        (Except.ok [{ Name := "a", Labels := [("region", "us")], ClusterID := "k1" },
                    { Name := "b", Labels := [("region", "us")], ClusterID := "k2" },
                    { Name := "c", Labels := [("region", "us")], ClusterID := "k3" }]) 0
        { Namespace := "ns",
          ClusterSelector := { NodeSelectorTerms :=
            [{ MatchExpressions := [{ Key := "region", Operator := "In", Values := ["eu"] }],
               MatchFields := [] }] } }
        [("k1", { Name := "nm1", RemoteClusterID := "k1" }),
         ("k2", { Name := "nm2", RemoteClusterID := "k2" }),
         ("k3", { Name := "nm3", RemoteClusterID := "k3" })]).calls
      = [{ call := Call.remove "ns" (some { Name := "nm1", RemoteClusterID := "k1" }),
           failed := false },
         { call := Call.remove "ns" (some { Name := "nm2", RemoteClusterID := "k2" }),
           failed := true },
         { call := Call.remove "ns" (some { Name := "nm3", RemoteClusterID := "k3" }),
           failed := false }] :=
  ⟨(partial_failure_aggregation (countingReconciler (fun n => n == 1))
      [{ Name := "a", Labels := [("region", "us")], ClusterID := "k1" },
       { Name := "b", Labels := [("region", "us")], ClusterID := "k2" },
       { Name := "c", Labels := [("region", "us")], ClusterID := "k3" }] 0
      { Namespace := "ns",
        ClusterSelector := { NodeSelectorTerms :=
          [{ MatchExpressions := [{ Key := "region", Operator := "In", Values := ["eu"] }],
             MatchFields := [] }] } }
      [("k1", { Name := "nm1", RemoteClusterID := "k1" }),
       ("k2", { Name := "nm2", RemoteClusterID := "k2" }),
       ("k3", { Name := "nm3", RemoteClusterID := "k3" })] (by decide) (by decide)).2.1.mpr
      (by decide),
   by decide⟩

/-- C15: `enforceClusterSelector` returns a nil error if and only if listing the candidates
succeeded, the numbers of candidates and of mapping-state records are equal, `MatchSelectorTerms`
returned no error for any candidate, and every issued add or remove call succeeded, that is the
Mapping Store, receiving the convergence calls of the candidates one after the other from the
state `s`, returned no error; every other pass returns a non-nil error. In every pass the flag
recorded with each issued call is the answer of the Mapping Store to that call. -/
theorem pass_result_nil_iff {σ : Type} (r : Reconciler σ)
    (listed : Except String (List VirtualNode)) (s : σ) (nsoff : NamespaceOffloading)
    (clusterIDMap : ClusterIDMap) :
    ((enforceClusterSelector r listed s nsoff clusterIDMap).err = none
      ↔ ∃ vns, listed = Except.ok vns ∧ vns.length = clusterIDMap.length
          ∧ (∀ c ∈ vns, (MatchSelectorTerms (some c) nsoff.ClusterSelector).err = none)
          ∧ ∀ e ∈ storeAnswers r s (vns.map
              (convergenceCall (r.remoteNamespaceName nsoff) nsoff clusterIDMap)), e = none)
      ∧ (enforceClusterSelector r listed s nsoff clusterIDMap).calls.map (fun c => c.failed)
          = (storeAnswers r s
              ((enforceClusterSelector r listed s nsoff clusterIDMap).calls.map
                (fun c => c.call))).map Option.isSome := by
  constructor
  · cases listed with
    | error e => simp [enforceClusterSelector]
    | ok vns =>
      by_cases hcard : (RetrieveClusterIDsFromVirtualNodes vns).length = clusterIDMap.length
      · have hcard' : vns.length = clusterIDMap.length := by
          simpa [RetrieveClusterIDsFromVirtualNodes] using hcard
        rw [enforceClusterSelector_ok_eq r vns s nsoff clusterIDMap hcard]
        by_cases hnoerr : ∀ c ∈ vns, (MatchSelectorTerms (some c) nsoff.ClusterSelector).err = none
        · rw [enforceLoop_err_answers r nsoff clusterIDMap vns none [] s hnoerr]
          cases hany : (storeAnswers r s (vns.map
              (convergenceCall (r.remoteNamespaceName nsoff) nsoff clusterIDMap))).any
                Option.isSome with
          | true =>
            simp only [if_true, reduceCtorEq, false_iff]
            rintro ⟨vns', hv, _, _, hall⟩
            cases hv
            obtain ⟨e, he, hsome⟩ := List.any_eq_true.mp hany
            rw [hall e he] at hsome
            cases hsome
          | false =>
            simp only [Bool.false_eq_true, if_false, true_iff]
            refine ⟨vns, rfl, hcard', hnoerr, ?_⟩
            intro e he
            have := List.any_eq_false.mp hany e he
            cases e with
            | none => rfl
            | some x => simp at this
        · have hex : ∃ c ∈ vns,
              (MatchSelectorTerms (some c) nsoff.ClusterSelector).err ≠ none := by
            push_neg at hnoerr
            exact hnoerr
          obtain ⟨pre, c, post, e, _, _, _, _, h5, _⟩ :=
            enforceLoop_stops r nsoff clusterIDMap vns none [] s hex
          rw [h5]
          simp only [reduceCtorEq, false_iff]
          rintro ⟨vns', hv, _, hall, _⟩
          cases hv
          exact absurd hall hnoerr
      · have hcard' : ¬ vns.length = clusterIDMap.length := by
          simpa [RetrieveClusterIDsFromVirtualNodes] using hcard
        rw [enforceClusterSelector_mismatch_eq r vns s nsoff clusterIDMap hcard]
        simp only [reduceCtorEq, false_iff]
        rintro ⟨vns', hv, hc, _⟩
        cases hv
        exact absurd hc hcard'
  · cases listed with
    | error e => simp [enforceClusterSelector, storeAnswers]
    | ok vns =>
      by_cases hcard : (RetrieveClusterIDsFromVirtualNodes vns).length = clusterIDMap.length
      · rw [enforceClusterSelector_ok_eq r vns s nsoff clusterIDMap hcard]
        obtain ⟨news, h1, h2⟩ := enforceLoop_failed_answers r nsoff clusterIDMap vns none [] s
        rw [h1, List.nil_append]
        exact h2
      · rw [enforceClusterSelector_mismatch_eq r vns s nsoff clusterIDMap hcard]
        simp [storeAnswers]

/-- C16: in a pass that passes the cardinality check, an event is recorded if and only if
`MatchSelectorTerms` returns a non-nil error for some candidate; then exactly one event, of type
Warning and reason Invalid, is recorded for the error of the first such candidate, the calls
issued are those of the candidates before it, and the pass returns the invalid-selector error
wrapping that error. A pass aborted by a registry read failure or by a cardinality mismatch
records no event. -/
theorem invalid_expression_reported_once {σ : Type} (r : Reconciler σ) (vns : List VirtualNode)
    (s : σ) (nsoff : NamespaceOffloading) (clusterIDMap : ClusterIDMap)
    (hcard : (RetrieveClusterIDsFromVirtualNodes vns).length = clusterIDMap.length) :
    ((enforceClusterSelector r (Except.ok vns) s nsoff clusterIDMap).events ≠ []
        ↔ ∃ c ∈ vns, (MatchSelectorTerms (some c) nsoff.ClusterSelector).err ≠ none)
      ∧ ((∃ c ∈ vns, (MatchSelectorTerms (some c) nsoff.ClusterSelector).err ≠ none) →
          ∃ pre c post e, vns = pre ++ c :: post
            ∧ (∀ x ∈ pre, (MatchSelectorTerms (some x) nsoff.ClusterSelector).err = none)
            ∧ (MatchSelectorTerms (some c) nsoff.ClusterSelector).err = some e
            ∧ (enforceClusterSelector r (Except.ok vns) s nsoff clusterIDMap).events
                = [{ eventtype := "Warning", reason := "Invalid", err := e }]
            ∧ (enforceClusterSelector r (Except.ok vns) s nsoff clusterIDMap).err
                = some (ReconcileError.invalidClusterSelector e)
            ∧ (enforceClusterSelector r (Except.ok vns) s nsoff clusterIDMap).calls.length
                = pre.length)
      ∧ (∀ cause, (enforceClusterSelector r (Except.error cause) s nsoff clusterIDMap).events = [])
      ∧ (∀ vns', (RetrieveClusterIDsFromVirtualNodes vns').length ≠ clusterIDMap.length →
          (enforceClusterSelector r (Except.ok vns') s nsoff clusterIDMap).events = []) := by
  rw [enforceClusterSelector_ok_eq r vns s nsoff clusterIDMap hcard]
  have hstop : (∃ c ∈ vns, (MatchSelectorTerms (some c) nsoff.ClusterSelector).err ≠ none) →
      ∃ pre c post e, vns = pre ++ c :: post
        ∧ (∀ x ∈ pre, (MatchSelectorTerms (some x) nsoff.ClusterSelector).err = none)
        ∧ (MatchSelectorTerms (some c) nsoff.ClusterSelector).err = some e
        ∧ (enforceLoop r nsoff clusterIDMap vns none [] s).events
            = [{ eventtype := "Warning", reason := "Invalid", err := e }]
        ∧ (enforceLoop r nsoff clusterIDMap vns none [] s).err
            = some (ReconcileError.invalidClusterSelector e)
        ∧ (enforceLoop r nsoff clusterIDMap vns none [] s).calls.length = pre.length := by
    intro hex
    obtain ⟨pre, c, post, e, h1, h2, h3, h4, h5, h6⟩ :=
      enforceLoop_stops r nsoff clusterIDMap vns none [] s hex
    exact ⟨pre, c, post, e, h1, h2, h3, h4, h5, by simpa using h6⟩
  refine ⟨?_, hstop, ?_, ?_⟩
  · constructor
    · intro hev
      by_contra hcon
      push_neg at hcon
      obtain ⟨news, _, _, g3, _⟩ := enforceLoop_no_error r nsoff clusterIDMap vns none [] s hcon
      exact hev g3
    · intro hex
      obtain ⟨pre, c, post, e, _, _, _, h4, _, _⟩ := hstop hex
      rw [h4]
      simp
  · intro cause
    rfl
  · intro vns' hne
    rw [enforceClusterSelector_mismatch_eq r vns' s nsoff clusterIDMap hne]

/-- C16 at a concrete input: the second of two candidates meets the error of a malformed term;
one event is recorded. -/
theorem invalid_expression_reported_once_witness :
    (enforceClusterSelector (countingReconciler (fun _ => false))
        (Except.ok [{ Name := "a", Labels := [("region", "eu")], ClusterID := "k1" },
                    { Name := "b", Labels := [("region", "us")], ClusterID := "k2" }]) 0
        { Namespace := "ns",
          ClusterSelector := { NodeSelectorTerms :=
            [{ MatchExpressions := [{ Key := "cpu", Operator := "Gt", Values := ["x"] }],
               MatchFields := [] },
             { MatchExpressions := [{ Key := "region", Operator := "In", Values := ["eu"] }],
               MatchFields := [] }] } }
        [("k1", { Name := "nm1", RemoteClusterID := "k1" }),
         ("k2", { Name := "nm2", RemoteClusterID := "k2" })]).events ≠ [] :=
  (invalid_expression_reported_once (countingReconciler (fun _ => false))
    [{ Name := "a", Labels := [("region", "eu")], ClusterID := "k1" },
     { Name := "b", Labels := [("region", "us")], ClusterID := "k2" }] 0
    { Namespace := "ns",
      ClusterSelector := { NodeSelectorTerms :=
        [{ MatchExpressions := [{ Key := "cpu", Operator := "Gt", Values := ["x"] }],
           MatchFields := [] },
         { MatchExpressions := [{ Key := "region", Operator := "In", Values := ["eu"] }],
           MatchFields := [] }] } }
    [("k1", { Name := "nm1", RemoteClusterID := "k1" }),
     ("k2", { Name := "nm2", RemoteClusterID := "k2" })] (by decide)).1.mpr (by decide)

/-- C17: with the Mapping Store seen as a set of cluster identifiers with idempotent add and
remove, running the pass twice in a row with the same candidates, mapping-state records and
expression issues the same calls in the second run as in the first and leaves the store, a set
without duplicates, in the same state after the second run as after the first. -/
theorem idempotent_convergence (listed : Except String (List VirtualNode)) (s : Finset String)
    (nsoff : NamespaceOffloading) (clusterIDMap : ClusterIDMap) :
    (enforceClusterSelector setReconciler listed
        (enforceClusterSelector setReconciler listed s nsoff clusterIDMap).store
        nsoff clusterIDMap).store
        = (enforceClusterSelector setReconciler listed s nsoff clusterIDMap).store
      ∧ (enforceClusterSelector setReconciler listed
          (enforceClusterSelector setReconciler listed s nsoff clusterIDMap).store
          nsoff clusterIDMap).calls.map (fun c => c.call)
        = (enforceClusterSelector setReconciler listed s nsoff clusterIDMap).calls.map
            (fun c => c.call) := by
  cases listed with
  | error e => exact ⟨rfl, rfl⟩
  | ok vns =>
    by_cases hcard : (RetrieveClusterIDsFromVirtualNodes vns).length = clusterIDMap.length
    · simp only [enforceClusterSelector_ok_eq setReconciler vns _ nsoff clusterIDMap hcard,
        enforceLoop_setReconciler_store]
      refine ⟨foldl_applyCall_idempotent _ _, ?_⟩
      obtain ⟨n1, a1, b1⟩ := enforceLoop_calls setReconciler nsoff clusterIDMap vns none [] s
      obtain ⟨n2, a2, b2⟩ := enforceLoop_calls setReconciler nsoff clusterIDMap vns none []
        ((passCalls nsoff.Namespace nsoff clusterIDMap vns).foldl applyCall s)
      rw [a1, a2, List.nil_append, List.nil_append, b1, b2]
    · simp only [enforceClusterSelector_mismatch_eq setReconciler vns _ nsoff clusterIDMap hcard,
        and_self]

/-- C18, as stated, fails: a candidate matches the well-formed term of an expression that also has
a malformed term, and its cluster identifier is in the set after pass 1; its labels change and it
no longer matches; the error of the malformed term then surfaces, pass 2 aborts without any call
and the identifier is still in the set. -/
theorem retraction_counterexample :
    (MatchSelectorTerms (some { Name := "a", Labels := [("region", "eu")], ClusterID := "k1" })
        { NodeSelectorTerms :=
          [{ MatchExpressions := [{ Key := "cpu", Operator := "Gt", Values := ["x"] }],
             MatchFields := [] },
           { MatchExpressions := [{ Key := "region", Operator := "In", Values := ["eu"] }],
             MatchFields := [] }] }).matched = true
    ∧ "k1" ∈ (enforceClusterSelector setReconciler
        (Except.ok [{ Name := "a", Labels := [("region", "eu")], ClusterID := "k1" }]) ∅
        { Namespace := "ns",
          ClusterSelector := { NodeSelectorTerms :=
            [{ MatchExpressions := [{ Key := "cpu", Operator := "Gt", Values := ["x"] }],
               MatchFields := [] },
             { MatchExpressions := [{ Key := "region", Operator := "In", Values := ["eu"] }],
               MatchFields := [] }] } }
        [("k1", { Name := "nm1", RemoteClusterID := "k1" })]).store
    ∧ (MatchSelectorTerms (some { Name := "a", Labels := [("region", "us")], ClusterID := "k1" })
        { NodeSelectorTerms :=
          [{ MatchExpressions := [{ Key := "cpu", Operator := "Gt", Values := ["x"] }],
             MatchFields := [] },
           { MatchExpressions := [{ Key := "region", Operator := "In", Values := ["eu"] }],
             MatchFields := [] }] }).matched = false
    ∧ (enforceClusterSelector setReconciler
        (Except.ok [{ Name := "a", Labels := [("region", "us")], ClusterID := "k1" }])
        (enforceClusterSelector setReconciler
          (Except.ok [{ Name := "a", Labels := [("region", "eu")], ClusterID := "k1" }]) ∅
          { Namespace := "ns",
            ClusterSelector := { NodeSelectorTerms :=
              [{ MatchExpressions := [{ Key := "cpu", Operator := "Gt", Values := ["x"] }],
                 MatchFields := [] },
               { MatchExpressions := [{ Key := "region", Operator := "In", Values := ["eu"] }],
                 MatchFields := [] }] } }
          [("k1", { Name := "nm1", RemoteClusterID := "k1" })]).store
        { Namespace := "ns",
          ClusterSelector := { NodeSelectorTerms :=
            [{ MatchExpressions := [{ Key := "cpu", Operator := "Gt", Values := ["x"] }],
               MatchFields := [] },
             { MatchExpressions := [{ Key := "region", Operator := "In", Values := ["eu"] }],
               MatchFields := [] }] } }
        [("k1", { Name := "nm1", RemoteClusterID := "k1" })]).calls = []
    ∧ "k1" ∈ (enforceClusterSelector setReconciler
        (Except.ok [{ Name := "a", Labels := [("region", "us")], ClusterID := "k1" }])
        (enforceClusterSelector setReconciler
          (Except.ok [{ Name := "a", Labels := [("region", "eu")], ClusterID := "k1" }]) ∅
          { Namespace := "ns",
            ClusterSelector := { NodeSelectorTerms :=
              [{ MatchExpressions := [{ Key := "cpu", Operator := "Gt", Values := ["x"] }],
                 MatchFields := [] },
               { MatchExpressions := [{ Key := "region", Operator := "In", Values := ["eu"] }],
                 MatchFields := [] }] } }
          [("k1", { Name := "nm1", RemoteClusterID := "k1" })]).store
        { Namespace := "ns",
          ClusterSelector := { NodeSelectorTerms :=
            [{ MatchExpressions := [{ Key := "cpu", Operator := "Gt", Values := ["x"] }],
               MatchFields := [] },
             { MatchExpressions := [{ Key := "region", Operator := "In", Values := ["eu"] }],
               MatchFields := [] }] } }
        [("k1", { Name := "nm1", RemoteClusterID := "k1" })]).store := by
  decide

/-- C18, amended: in a pass that reads the registry, passes the cardinality check and meets no
match error, a candidate that does not match the expression gets a remove-desired-mapping call on
the record of its cluster identifier; when that record exists, the map is keyed by the cluster
identifiers of its records and no later candidate of the pass has the same cluster identifier,
the identifier is absent from the desired-mapping set after the pass, whatever the set held
before. -/
theorem retraction_when_pass_completes (pre post : List VirtualNode) (c : VirtualNode)
    (nm : NamespaceMap) (s : Finset String) (nsoff : NamespaceOffloading)
    (clusterIDMap : ClusterIDMap)
    (hcard : (RetrieveClusterIDsFromVirtualNodes (pre ++ c :: post)).length = clusterIDMap.length)
    (hnoerr : ∀ x ∈ pre ++ c :: post,
      (MatchSelectorTerms (some x) nsoff.ClusterSelector).err = none)
    (hunmatched : (MatchSelectorTerms (some c) nsoff.ClusterSelector).matched = false)
    (hrec : clusterIDMap.lookup c.ClusterID = some nm)
    (hkeys : ∀ id m, clusterIDMap.lookup id = some m → m.RemoteClusterID = id)
    (hlater : ∀ x ∈ post, x.ClusterID ≠ c.ClusterID) :
    Call.remove nsoff.Namespace (some nm)
        ∈ (enforceClusterSelector setReconciler (Except.ok (pre ++ c :: post)) s nsoff
            clusterIDMap).calls.map (fun r => r.call)
      ∧ c.ClusterID ∉ (enforceClusterSelector setReconciler (Except.ok (pre ++ c :: post)) s
          nsoff clusterIDMap).store := by
  have hconv : convergenceCall nsoff.Namespace nsoff clusterIDMap c
      = Call.remove nsoff.Namespace (some nm) := by
    simp [convergenceCall, hunmatched, hrec]
  rw [enforceClusterSelector_ok_eq setReconciler _ s nsoff clusterIDMap hcard]
  constructor
  · obtain ⟨news, h1, h2⟩ :=
      enforceLoop_calls setReconciler nsoff clusterIDMap (pre ++ c :: post) none [] s
    rw [h1, List.nil_append, h2, passCalls_of_no_error _ _ _ _ hnoerr]
    have : setReconciler.remoteNamespaceName nsoff = nsoff.Namespace := rfl
    rw [this, ← hconv]
    exact List.mem_map_of_mem _ (by simp)
  · rw [enforceLoop_setReconciler_store, passCalls_of_no_error _ _ _ _ hnoerr]
    have hdec := mem_foldl_applyCall c.ClusterID
      ((pre ++ c :: post).map (convergenceCall nsoff.Namespace nsoff clusterIDMap)) s
    simp only [List.map_append, List.map_cons, List.foldl_append, List.foldl_cons, hconv]
      at hdec
    have hstep : ∀ b, stepMem c.ClusterID b (Call.remove nsoff.Namespace (some nm)) = false := by
      intro b
      simp [stepMem, hkeys _ _ hrec]
    rw [hstep, foldl_stepMem_untouched c.ClusterID nsoff nsoff.Namespace clusterIDMap hkeys post
      false hlater] at hdec
    rw [List.map_append, List.map_cons, hconv]
    simpa using hdec

/-- C18, amended, at a concrete input: the candidate of cluster `k1` no longer matches a
well-formed expression; the identifier leaves the set that held it. -/
theorem retraction_when_pass_completes_witness :
    "k1" ∉ (enforceClusterSelector setReconciler
        (Except.ok ([] ++ ({ Name := "a", Labels := [("region", "us")], ClusterID := "k1" }
          : VirtualNode) :: [])) {"k1"}
        { Namespace := "ns",
          ClusterSelector := { NodeSelectorTerms :=
            [{ MatchExpressions := [{ Key := "region", Operator := "In", Values := ["eu"] }],
               MatchFields := [] }] } }
        [("k1", { Name := "nm1", RemoteClusterID := "k1" })]).store :=
  (retraction_when_pass_completes [] []
    { Name := "a", Labels := [("region", "us")], ClusterID := "k1" }
    { Name := "nm1", RemoteClusterID := "k1" } {"k1"}
    { Namespace := "ns",
      ClusterSelector := { NodeSelectorTerms :=
        [{ MatchExpressions := [{ Key := "region", Operator := "In", Values := ["eu"] }],
           MatchFields := [] }] } }
    [("k1", { Name := "nm1", RemoteClusterID := "k1" })]
    (by decide) (by decide) (by decide) (by decide)
    (by
      intro id m h
      simp only [List.lookup] at h
      split at h
      · simp only [Option.some.injEq] at h
        subst h
        simp_all
      · cases h)
    (by decide)).2

/-- C19: for every label requirement with operator `Gt` or `Lt` whose value list is not exactly
one string that `ParseInt` accepts, compiling the term records the aggregate of the errors of that
requirement, so the compiled term carries a non-empty list of errors and matches no label set and
field set. -/
theorem non_numeric_value_is_compile_error (term : NodeSelectorTerm) (path : Path) (j : Nat)
    (e : NodeSelectorRequirement)
    (hj : term.MatchExpressions[j]? = some e)
    (hop : e.Operator = NodeSelectorOpGt ∨ e.Operator = NodeSelectorOpLt)
    (hval : ¬ ∃ v, e.Values = [v] ∧ (ParseInt v).isSome = true) :
    (∃ es op a, (newVirtualNodeSelectorTerm term path).parseErrs = some es
        ∧ selectionOperator e.Operator = some op
        ∧ (NewRequirement e.Key op e.Values
            (Path.Index (Path.Child path "matchExpressions") j)).2 = some a
        ∧ Err.aggregate a ∈ es)
      ∧ 0 < goLen (newVirtualNodeSelectorTerm term path).parseErrs
      ∧ ∀ (ls : LabelSet) (fs : FieldSet),
          (newVirtualNodeSelectorTerm term path).doMatch ls fs
            = (false, (newVirtualNodeSelectorTerm term path).parseErrs) := by
  obtain ⟨op, hsel, hnum⟩ : ∃ op, selectionOperator e.Operator = some op
      ∧ (op = Operator.GreaterThan ∨ op = Operator.LessThan) := by
    rcases hop with h | h
    · exact ⟨Operator.GreaterThan, by rw [h]; decide, Or.inl rfl⟩
    · exact ⟨Operator.LessThan, by rw [h]; decide, Or.inr rfl⟩
  have hreq : requirementErrors e.Key op e.Values
      (Path.Index (Path.Child path "matchExpressions") j) ≠ [] := by
    unfold requirementErrors
    have := operatorErrors_numeric_ne_nil op e.Values
      (Path.Child (Path.Index (Path.Child path "matchExpressions") j) "values") hnum hval
    simp [this]
  obtain ⟨a, ha⟩ := Option.isSome_iff_exists.mp (ToAggregate_isSome _ hreq)
  have ha' : (NewRequirement e.Key op e.Values
      (Path.Index (Path.Child path "matchExpressions") j)).2 = some a := ha
  have hne : term.MatchExpressions.length ≠ 0 := by
    intro h0
    rw [List.length_eq_zero.mp h0] at hj
    simp at hj
  have hmem : Err.aggregate a
      ∈ (labelSelectorLoop (Path.Child path "matchExpressions") 0 term.MatchExpressions [] []).1 :=
    labelSelectorLoop_records _ _ 0 [] [] j e op a hj hsel (by rw [Nat.zero_add]; exact ha')
  have hloop : (labelSelectorLoop (Path.Child path "matchExpressions") 0
      term.MatchExpressions [] []).1 ≠ [] := List.ne_nil_of_mem hmem
  have hA : (nodeSelectorRequirementsAsSelector term.MatchExpressions
      (Path.Child path "matchExpressions")).2
      = some (labelSelectorLoop (Path.Child path "matchExpressions") 0
          term.MatchExpressions [] []).1 := by
    rw [nodeSelectorRequirementsAsSelector_eq _ _ hne, if_neg hloop]
  have hsome : ∃ es, (newVirtualNodeSelectorTerm term path).parseErrs = some es
      ∧ Err.aggregate a ∈ es := by
    rw [newVirtualNodeSelectorTerm_eq, hA]
    simp only [Option.getD_some, goAppend, List.length_eq_zero, hloop, if_false]
    exact ⟨_, rfl, List.mem_append_left _ hmem⟩
  obtain ⟨es, hes, hin⟩ := hsome
  refine ⟨⟨es, op, a, hes, hsel, ha', hin⟩, ?_, ?_⟩
  · rw [hes]
    exact List.length_pos.mpr (List.ne_nil_of_mem hin)
  · intro ls fs
    unfold selectorTerm.doMatch
    simp [hes]

/-- C19 at a concrete input: `cpu Gt ["x"]`. -/
theorem non_numeric_value_is_compile_error_witness :
    0 < goLen (newVirtualNodeSelectorTerm
        { MatchExpressions := [{ Key := "cpu", Operator := "Gt", Values := ["x"] }],
          MatchFields := [] } []).parseErrs :=
  (non_numeric_value_is_compile_error
    { MatchExpressions := [{ Key := "cpu", Operator := "Gt", Values := ["x"] }],
      MatchFields := [] } [] 0 { Key := "cpu", Operator := "Gt", Values := ["x"] }
    (by decide) (by decide)
    (by
      rintro ⟨v, hv, hp⟩
      simp only [List.cons.injEq, and_true] at hv
      subst hv
      revert hp
      decide)).2.1

/-- C20, as stated, fails: against an expression with a malformed term and a well-formed term, the
candidate that matches the well-formed term gets a nil error and the candidate that matches no
term gets a non-nil error. -/
theorem error_not_uniform_counterexample :
    ¬ ((MatchSelectorTerms (some { Name := "a", Labels := [("region", "eu")], ClusterID := "k1" })
          { NodeSelectorTerms :=
            [{ MatchExpressions := [{ Key := "cpu", Operator := "Gt", Values := ["x"] }],
               MatchFields := [] },
             { MatchExpressions := [{ Key := "region", Operator := "In", Values := ["eu"] }],
               MatchFields := [] }] }).err ≠ none
        ↔ (MatchSelectorTerms
            (some { Name := "b", Labels := [("region", "us")], ClusterID := "k2" })
          { NodeSelectorTerms :=
            [{ MatchExpressions := [{ Key := "cpu", Operator := "Gt", Values := ["x"] }],
               MatchFields := [] },
             { MatchExpressions := [{ Key := "region", Operator := "In", Values := ["eu"] }],
               MatchFields := [] }] }).err ≠ none) := by
  decide

/-- C20, amended: for every expression and every two non-nil candidates that both match no term
of it, `MatchSelectorTerms` returns the same error for both, so a non-nil error for the one if and
only if for the other; the error depends on the expression alone. -/
theorem error_uniform_among_unmatched (E : NodeSelector) (c1 c2 : VirtualNode)
    (h1 : (MatchSelectorTerms (some c1) E).matched = false)
    (h2 : (MatchSelectorTerms (some c2) E).matched = false) :
    (MatchSelectorTerms (some c1) E).err = (MatchSelectorTerms (some c2) E).err
      ∧ ((MatchSelectorTerms (some c1) E).err ≠ none
          ↔ (MatchSelectorTerms (some c2) E).err ≠ none) := by
  have h : (MatchSelectorTerms (some c1) E).err = (MatchSelectorTerms (some c2) E).err := by
    rw [MatchSelectorTerms_err_of_unmatched E c1 h1, MatchSelectorTerms_err_of_unmatched E c2 h2]
  exact ⟨h, by rw [h]⟩

/-- C20, amended, at a concrete input: two candidates that match no term of an expression with a
malformed term get the same, non-nil, error. -/
theorem error_uniform_among_unmatched_witness :
    (MatchSelectorTerms (some { Name := "b", Labels := [("region", "us")], ClusterID := "k2" })
        { NodeSelectorTerms :=
          [{ MatchExpressions := [{ Key := "cpu", Operator := "Gt", Values := ["x"] }],
             MatchFields := [] },
           { MatchExpressions := [{ Key := "region", Operator := "In", Values := ["eu"] }],
             MatchFields := [] }] }).matched = false
    ∧ (MatchSelectorTerms (some { Name := "c", Labels := [], ClusterID := "k3" })
        { NodeSelectorTerms :=
          [{ MatchExpressions := [{ Key := "cpu", Operator := "Gt", Values := ["x"] }],
             MatchFields := [] },
           { MatchExpressions := [{ Key := "region", Operator := "In", Values := ["eu"] }],
             MatchFields := [] }] }).matched = false
    ∧ (MatchSelectorTerms (some { Name := "b", Labels := [("region", "us")], ClusterID := "k2" })
        { NodeSelectorTerms :=
          [{ MatchExpressions := [{ Key := "cpu", Operator := "Gt", Values := ["x"] }],
             MatchFields := [] },
           { MatchExpressions := [{ Key := "region", Operator := "In", Values := ["eu"] }],
             MatchFields := [] }] }).err
      = (MatchSelectorTerms (some { Name := "c", Labels := [], ClusterID := "k3" })
        { NodeSelectorTerms :=
          [{ MatchExpressions := [{ Key := "cpu", Operator := "Gt", Values := ["x"] }],
             MatchFields := [] },
           { MatchExpressions := [{ Key := "region", Operator := "In", Values := ["eu"] }],
             MatchFields := [] }] }).err :=
  ⟨by decide, by decide,
   (error_uniform_among_unmatched _
     { Name := "b", Labels := [("region", "us")], ClusterID := "k2" }
     { Name := "c", Labels := [], ClusterID := "k3" } (by decide) (by decide)).1⟩

/-- C22, the code at the failing input: `Match` evaluates two compiled terms against a candidate
and writes a line for each through `pterm` (the calls marked "remove before merge"), so the
returned pair is not its only observable effect. -/
theorem Match_writes_output :
    (MatchSelectorTerms (some { Name := "node1", Labels := [("region", "eu")], ClusterID := "k1" })
        { NodeSelectorTerms :=
          [{ MatchExpressions := [{ Key := "region", Operator := "In", Values := ["us"] }],
             MatchFields := [] },
           { MatchExpressions := [{ Key := "region", Operator := "In", Values := ["eu"] }],
             MatchFields := [] }] }).printed
      = ["VirtualNode node1 did not match", "VirtualNode node1 matched"] := by
  decide

/-- C23: for every candidate with a non-empty name `n` and every value `v`, the term with no label
requirement and the single field requirement `metadata.name In [v]` matches if and only if
`n = v`, and the term with `metadata.name NotIn [v]` matches if and only if `n ≠ v`; so does
`MatchSelectorTerms` on the expression made of that term. -/
theorem name_field_matching (c : VirtualNode) (v : String) (path : Path) (hname : c.Name ≠ "") :
    (((newVirtualNodeSelectorTerm
          { MatchExpressions := [],
            MatchFields := [{ Key := "metadata.name", Operator := NodeSelectorOpIn,
                              Values := [v] }] } path).doMatch
        c.Labels (extractVirtualNodeFields c)).1 = true ↔ c.Name = v)
      ∧ (((newVirtualNodeSelectorTerm
          { MatchExpressions := [],
            MatchFields := [{ Key := "metadata.name", Operator := NodeSelectorOpNotIn,
                              Values := [v] }] } path).doMatch
        c.Labels (extractVirtualNodeFields c)).1 = true ↔ c.Name ≠ v)
      ∧ ((MatchSelectorTerms (some c)
          { NodeSelectorTerms :=
            [{ MatchExpressions := [],
               MatchFields := [{ Key := "metadata.name", Operator := NodeSelectorOpIn,
                                 Values := [v] }] }] }).matched = true ↔ c.Name = v)
      ∧ ((MatchSelectorTerms (some c)
          { NodeSelectorTerms :=
            [{ MatchExpressions := [],
               MatchFields := [{ Key := "metadata.name", Operator := NodeSelectorOpNotIn,
                                 Values := [v] }] }] }).matched = true ↔ c.Name ≠ v) := by
  have hfs := extractVirtualNodeFields_of_name c hname
  have hin : ∀ p : Path, (((newVirtualNodeSelectorTerm
      { MatchExpressions := [],
        MatchFields := [{ Key := "metadata.name", Operator := NodeSelectorOpIn,
                          Values := [v] }] } p).doMatch
      c.Labels (extractVirtualNodeFields c)).1 = true ↔ c.Name = v) := by
    intro p
    rw [compiled_doMatch_iff, newVirtualNodeSelectorTerm_parseErrs_none_iff, hfs]
    simp [nodeSelectorRequirementsAsSelector, virtualNodeSelectorRequirementsAsFieldSelector,
      fieldSelectorLoop, fieldRequirementAccepts, FieldSet.Get, List.lookup]
  have hnotin : ∀ p : Path, (((newVirtualNodeSelectorTerm
      { MatchExpressions := [],
        MatchFields := [{ Key := "metadata.name", Operator := NodeSelectorOpNotIn,
                          Values := [v] }] } p).doMatch
      c.Labels (extractVirtualNodeFields c)).1 = true ↔ c.Name ≠ v) := by
    intro p
    rw [compiled_doMatch_iff, newVirtualNodeSelectorTerm_parseErrs_none_iff, hfs]
    simp [nodeSelectorRequirementsAsSelector, virtualNodeSelectorRequirementsAsFieldSelector,
      fieldSelectorLoop, fieldRequirementAccepts, FieldSet.Get, List.lookup,
      NodeSelectorOpNotIn_ne_In]
  refine ⟨hin path, hnotin path, ?_, ?_⟩
  · rw [MatchSelectorTerms_single c _ (by simp [isEmptyVirtualNodeSelectorTerm])]
    exact hin _
  · rw [MatchSelectorTerms_single c _ (by simp [isEmptyVirtualNodeSelectorTerm])]
    exact hnotin _

/-- C23 at a concrete input: the candidate named `node1` against `metadata.name In ["node1"]`. -/
theorem name_field_matching_witness :
    ({ Name := "node1", Labels := [], ClusterID := "k1" } : VirtualNode).Name ≠ ""
    ∧ (MatchSelectorTerms (some { Name := "node1", Labels := [], ClusterID := "k1" })
        { NodeSelectorTerms :=
          [{ MatchExpressions := [],
             MatchFields := [{ Key := "metadata.name", Operator := NodeSelectorOpIn,
                               Values := ["node1"] }] }] }).matched = true :=
  ⟨by decide,
   (name_field_matching { Name := "node1", Labels := [], ClusterID := "k1" } "node1" []
     (by decide)).2.2.1.mpr rfl⟩

/-- C28: for every expression and every two non-nil candidates with equal names and equal label
maps (every key has the same value, or none, in both), whatever their cluster identity,
`MatchSelectorTerms` returns the same result, printed lines included. -/
theorem MatchSelectorTerms_reads_labels_and_name (E : NodeSelector) (c1 c2 : VirtualNode)
    (hname : c1.Name = c2.Name)
    (hlabels : ∀ k, c1.Labels.lookup k = c2.Labels.lookup k) :
    MatchSelectorTerms (some c1) E = MatchSelectorTerms (some c2) E := by
  have hfs : extractVirtualNodeFields c1 = extractVirtualNodeFields c2 := by
    unfold extractVirtualNodeFields
    rw [hname]
  unfold MatchSelectorTerms
  by_cases hlen : E.NodeSelectorTerms.length = 0
  · simp [hlen]
  · simp only [hlen, if_false, Option.isNone_some, Bool.false_eq_true, Selector.Match]
    rw [hname, hfs]
    exact matchLoop_congr _ _ _ _ hlabels _ _ _

/-- C28 at a concrete input: two candidates of different clusters, whose equal label maps are
written in different orders. -/
theorem MatchSelectorTerms_reads_labels_and_name_witness :
    MatchSelectorTerms
        (some { Name := "node1", Labels := [("region", "eu"), ("cpu", "8")], ClusterID := "k1" })
        { NodeSelectorTerms :=
          [{ MatchExpressions := [{ Key := "cpu", Operator := "Gt", Values := ["4"] }],
             MatchFields := [] }] }
      = MatchSelectorTerms
        (some { Name := "node1", Labels := [("cpu", "8"), ("region", "eu")], ClusterID := "k2" })
        { NodeSelectorTerms :=
          [{ MatchExpressions := [{ Key := "cpu", Operator := "Gt", Values := ["4"] }],
             MatchFields := [] }] } :=
  MatchSelectorTerms_reads_labels_and_name _
    { Name := "node1", Labels := [("region", "eu"), ("cpu", "8")], ClusterID := "k1" }
    { Name := "node1", Labels := [("cpu", "8"), ("region", "eu")], ClusterID := "k2" }
    rfl
    (by
      intro k
      by_cases h1 : k = "region"
      · subst h1; decide
      · by_cases h2 : k = "cpu"
        · subst h2; decide
        · have e1 : (k == "region") = false := by simpa using h1
          have e2 : (k == "cpu") = false := by simpa using h2
          simp [List.lookup, e1, e2])

/-- C25: `NewSelector` yields one compiled term per non-degenerate term of the expression, in the
original order, each compiled under its original position; and for every expression with at least
one non-degenerate term and every candidate (nil or not), `MatchSelectorTerms` on the expression
and on the expression without its degenerate terms return the same boolean and agree on whether
the error is nil. -/
theorem degenerate_terms_contribute_nothing (E : NodeSelector) (c : Option VirtualNode) (p : Path)
    (h : ∃ t ∈ E.NodeSelectorTerms, degenerate t = false) :
    (NewSelector E p).terms
        = ((E.NodeSelectorTerms.enum).filter (fun it => !degenerate it.2)).map
            (fun it => newVirtualNodeSelectorTerm it.2
              (Path.Index (Path.Child p "nodeSelectorTerms") it.1))
      ∧ (NewSelector E p).terms.length = (removeDegenerate E).NodeSelectorTerms.length
      ∧ (MatchSelectorTerms c E).matched = (MatchSelectorTerms c (removeDegenerate E)).matched
      ∧ ((MatchSelectorTerms c E).err = none
          ↔ (MatchSelectorTerms c (removeDegenerate E)).err = none) := by
  have hterms : (NewSelector E p).terms
      = ((E.NodeSelectorTerms.enum).filter (fun it => !degenerate it.2)).map
          (fun it => newVirtualNodeSelectorTerm it.2
            (Path.Index (Path.Child p "nodeSelectorTerms") it.1)) := by
    simp only [NewSelector, newSelectorLoop_eq, List.nil_append, List.enum, degenerate_eq_isEmpty]
  have hne : E.NodeSelectorTerms ≠ [] := by
    obtain ⟨t, ht, _⟩ := h
    exact List.ne_nil_of_mem ht
  have hne' : (removeDegenerate E).NodeSelectorTerms ≠ [] := by
    obtain ⟨t, ht, hd⟩ := h
    exact List.ne_nil_of_mem (List.mem_filter.mpr ⟨ht, by simp [hd]⟩)
  refine ⟨hterms, ?_, ?_⟩
  · rw [hterms, List.length_map, List.enum]
    exact enumFrom_filter_length _ (fun t => !degenerate t) 0
  · cases c with
    | none =>
      have h1 : ¬ E.NodeSelectorTerms.length = 0 := fun h0 => hne (List.length_eq_zero.mp h0)
      have h2 : ¬ (removeDegenerate E).NodeSelectorTerms.length = 0 :=
        fun h0 => hne' (List.length_eq_zero.mp h0)
      simp [MatchSelectorTerms, h1, h2]
    | some vn =>
      apply MatchSelectorTerms_congr_of_mem E (removeDegenerate E) vn hne hne'
      · intro t htm
        have hd : degenerate t = false := by
          cases hd : degenerate t with
          | false => rfl
          | true => simp [termMatches, hd] at htm
        simp [removeDegenerate, List.mem_filter, hd]
      · intro t htb
        have hd : degenerate t = false := by
          cases hd : degenerate t with
          | false => rfl
          | true => simp [termBroken, hd] at htb
        simp [removeDegenerate, List.mem_filter, hd]

/-- C25 at a concrete input: a degenerate term before a term that matches. -/
theorem degenerate_terms_contribute_nothing_witness :
    (MatchSelectorTerms (some { Name := "node1", Labels := [("region", "eu")], ClusterID := "k1" })
        { NodeSelectorTerms :=
          [{ MatchExpressions := [], MatchFields := [] },
           { MatchExpressions := [{ Key := "region", Operator := "In", Values := ["eu"] }],
             MatchFields := [] }] }).matched
      = (MatchSelectorTerms
          (some { Name := "node1", Labels := [("region", "eu")], ClusterID := "k1" })
          (removeDegenerate { NodeSelectorTerms :=
            [{ MatchExpressions := [], MatchFields := [] },
             { MatchExpressions := [{ Key := "region", Operator := "In", Values := ["eu"] }],
               MatchFields := [] }] })).matched :=
  (degenerate_terms_contribute_nothing _
    (some { Name := "node1", Labels := [("region", "eu")], ClusterID := "k1" }) []
    (by decide)).2.2.1

/-- C27: for every expression, every permutation of its terms and every candidate (nil or not),
`MatchSelectorTerms` returns the same boolean on both and agrees on whether the error is nil. -/
theorem term_order_irrelevant (E E' : NodeSelector) (c : Option VirtualNode)
    (hperm : E.NodeSelectorTerms.Perm E'.NodeSelectorTerms) :
    (MatchSelectorTerms c E).matched = (MatchSelectorTerms c E').matched
      ∧ ((MatchSelectorTerms c E).err = none ↔ (MatchSelectorTerms c E').err = none) := by
  have hlen : E.NodeSelectorTerms.length = E'.NodeSelectorTerms.length := hperm.length_eq
  by_cases hne : E.NodeSelectorTerms = []
  · have hne' : E'.NodeSelectorTerms = [] := by
      apply List.length_eq_zero.mp
      rw [← hlen, hne]
      rfl
    simp [MatchSelectorTerms, hne, hne']
  · have hne' : E'.NodeSelectorTerms ≠ [] := by
      intro h0
      apply hne
      apply List.length_eq_zero.mp
      rw [hlen, h0]
      rfl
    cases c with
    | none =>
      have h1 : ¬ E.NodeSelectorTerms.length = 0 := fun h0 => hne (List.length_eq_zero.mp h0)
      have h2 : ¬ E'.NodeSelectorTerms.length = 0 := fun h0 => hne' (List.length_eq_zero.mp h0)
      simp [MatchSelectorTerms, h1, h2]
    | some vn =>
      exact MatchSelectorTerms_congr_of_mem E E' vn hne hne'
        (fun t _ => hperm.mem_iff) (fun t _ => hperm.mem_iff)

/-- C27 at a concrete input: a malformed term and a matching term, in both orders. -/
theorem term_order_irrelevant_witness :
    (MatchSelectorTerms (some { Name := "node1", Labels := [("region", "eu")], ClusterID := "k1" })
        { NodeSelectorTerms :=
          [{ MatchExpressions := [{ Key := "cpu", Operator := "Gt", Values := ["x"] }],
             MatchFields := [] },
           { MatchExpressions := [{ Key := "region", Operator := "In", Values := ["eu"] }],
             MatchFields := [] }] }).matched
      = (MatchSelectorTerms
          (some { Name := "node1", Labels := [("region", "eu")], ClusterID := "k1" })
          { NodeSelectorTerms :=
            [{ MatchExpressions := [{ Key := "region", Operator := "In", Values := ["eu"] }],
               MatchFields := [] },
             { MatchExpressions := [{ Key := "cpu", Operator := "Gt", Values := ["x"] }],
               MatchFields := [] }] }).matched :=
  (term_order_irrelevant _ _
    (some { Name := "node1", Labels := [("region", "eu")], ClusterID := "k1" })
    (List.Perm.swap _ _ [])).1

/-- C24, amended: when no compiled term of an expression matches the candidate, the error returned
by `Match` is nil if no compile error was collected and otherwise the aggregate of the compile
errors collected from all the compiled terms, in the order of the terms, nothing removed: every
error carried by a term is in it. Each error carries the path of its term and requirement, so no
error value occurs in it twice. -/
theorem errors_aggregated_once (E : NodeSelector) (c : VirtualNode) (p : Path)
    (hno : ∀ t ∈ (NewSelector E p).terms,
      (t.doMatch c.Labels (extractVirtualNodeFields c)).1 = false) :
    ((NewSelector E p).Match (some c)).err
        = (if collectedErrors (NewSelector E p) = [] then none
           else some (collectedErrors (NewSelector E p)))
      ∧ (collectedErrors (NewSelector E p)).Nodup
      ∧ (∀ t ∈ (NewSelector E p).terms, ∀ es, t.parseErrs = some es → ∀ fe,
          (Err.fieldError fe ∈ es ∨ ∃ a, Err.aggregate a ∈ es ∧ fe ∈ a) →
            fe ∈ collectedErrors (NewSelector E p)) := by
  refine ⟨?_, collectedErrors_nodup E p, ?_⟩
  · simp only [Selector.Match]
    rw [matchLoop_err_of_unmatched _ _ _ _ _ _ hno, List.nil_append]
    unfold collectedErrors
    cases hL : (NewSelector E p).terms.flatMap (fun t => t.parseErrs.getD []) with
    | nil => simp [NewAggregate, Flatten, flattenErrors]
    | cons x rest =>
      simp only [NewAggregate, Flatten, NewAggregateOfFieldErrors, List.length_cons,
        Nat.add_one_ne_zero, if_false, List.length_eq_zero]
  · intro t ht es hes fe hfe
    unfold collectedErrors
    rw [mem_flattenErrors]
    rcases hfe with h | ⟨a, ha, hfa⟩
    · exact Or.inl (List.mem_flatMap.mpr ⟨t, ht, by rw [hes]; exact h⟩)
    · exact Or.inr ⟨a, List.mem_flatMap.mpr ⟨t, ht, by rw [hes]; exact ha⟩, hfa⟩

/-- C24, amended, at a concrete input: two terms with the same malformed requirement, against a candidate
that matches neither; the two errors differ by the position of their term and both are
returned. -/
theorem errors_aggregated_once_witness :
    (∀ t ∈ (NewSelector { NodeSelectorTerms :=
          [{ MatchExpressions := [{ Key := "cpu", Operator := "Gt", Values := ["x"] }],
             MatchFields := [] },
           { MatchExpressions := [{ Key := "cpu", Operator := "Gt", Values := ["x"] }],
             MatchFields := [] }] } []).terms,
        (t.doMatch [("region", "eu")]
          (extractVirtualNodeFields
            { Name := "node1", Labels := [("region", "eu")], ClusterID := "k1" })).1 = false)
    ∧ (collectedErrors (NewSelector { NodeSelectorTerms :=
          [{ MatchExpressions := [{ Key := "cpu", Operator := "Gt", Values := ["x"] }],
             MatchFields := [] },
           { MatchExpressions := [{ Key := "cpu", Operator := "Gt", Values := ["x"] }],
             MatchFields := [] }] } [])).length = 2
    ∧ (collectedErrors (NewSelector { NodeSelectorTerms :=
          [{ MatchExpressions := [{ Key := "cpu", Operator := "Gt", Values := ["x"] }],
             MatchFields := [] },
           { MatchExpressions := [{ Key := "cpu", Operator := "Gt", Values := ["x"] }],
             MatchFields := [] }] } [])).Nodup :=
  ⟨by decide, by decide,
   (errors_aggregated_once _
     { Name := "node1", Labels := [("region", "eu")], ClusterID := "k1" } [] (by decide)).2.1⟩

/-- C24, as stated, fails: two terms with the same malformed requirement `cpu Gt ["x"]`, against a
candidate that matches neither, yield an aggregate with two occurrences of the compile error, one
per term, which differ only in the position of the term in their path; nothing is
deduplicated. -/
theorem errors_not_deduplicated_counterexample :
    (MatchSelectorTerms (some { Name := "node1", Labels := [("region", "eu")], ClusterID := "k1" })
        { NodeSelectorTerms :=
          [{ MatchExpressions := [{ Key := "cpu", Operator := "Gt", Values := ["x"] }],
             MatchFields := [] },
           { MatchExpressions := [{ Key := "cpu", Operator := "Gt", Values := ["x"] }],
             MatchFields := [] }] }).err
      = some
          [{ ErrType := ErrorType.Invalid,
             Field := [PathSeg.name "nodeSelectorTerms", PathSeg.index 0,
                       PathSeg.name "matchExpressions", PathSeg.index 0,
                       PathSeg.name "values", PathSeg.index 0],
             BadValue := BadValue.str "x",
             Detail := "for 'Gt', 'Lt' operators, the value must be an integer" },
           { ErrType := ErrorType.Invalid,
             Field := [PathSeg.name "nodeSelectorTerms", PathSeg.index 1,
                       PathSeg.name "matchExpressions", PathSeg.index 0,
                       PathSeg.name "values", PathSeg.index 0],
             BadValue := BadValue.str "x",
             Detail := "for 'Gt', 'Lt' operators, the value must be an integer" }] := by
  decide

/-- C21, as stated, fails: two candidates of the same cluster `k1` and a map of two records pass
the cardinality check, and the pass issues two calls, an add and a remove, on the record of `k1`.
The loop, which is all that runs once the check has passed, issues the same two calls when the map
holds the record of `k1` alone, so the two calls do not depend on how the candidates of one
cluster are counted. -/
theorem calls_on_same_cluster_counterexample :
    (RetrieveClusterIDsFromVirtualNodes
        [{ Name := "a", Labels := [("region", "eu")], ClusterID := "k1" },
         { Name := "b", Labels := [("region", "us")], ClusterID := "k1" }]).length
      = (getClusterIDMapLoop [{ Name := "nm1", RemoteClusterID := "k1" },
                              { Name := "nm2", RemoteClusterID := "k2" }] []).length
    ∧ (enforceClusterSelector (countingReconciler (fun _ => false))
        (Except.ok [{ Name := "a", Labels := [("region", "eu")], ClusterID := "k1" },
                    { Name := "b", Labels := [("region", "us")], ClusterID := "k1" }]) 0
        { Namespace := "ns",
          ClusterSelector := { NodeSelectorTerms :=
            [{ MatchExpressions := [{ Key := "region", Operator := "In", Values := ["eu"] }],
               MatchFields := [] }] } }
        (getClusterIDMapLoop [{ Name := "nm1", RemoteClusterID := "k1" },
                              { Name := "nm2", RemoteClusterID := "k2" }] [])).calls.map
          (fun r => r.call)
      = [Call.add "ns" "ns" (some { Name := "nm1", RemoteClusterID := "k1" }),
         Call.remove "ns" (some { Name := "nm1", RemoteClusterID := "k1" })]
    ∧ ¬ ((enforceClusterSelector (countingReconciler (fun _ => false))
        (Except.ok [{ Name := "a", Labels := [("region", "eu")], ClusterID := "k1" },
                    { Name := "b", Labels := [("region", "us")], ClusterID := "k1" }]) 0
        { Namespace := "ns",
          ClusterSelector := { NodeSelectorTerms :=
            [{ MatchExpressions := [{ Key := "region", Operator := "In", Values := ["eu"] }],
               MatchFields := [] }] } }
        (getClusterIDMapLoop [{ Name := "nm1", RemoteClusterID := "k1" },
                              { Name := "nm2", RemoteClusterID := "k2" }] [])).calls.filterMap
          (fun r => callTarget r.call)).Nodup
    ∧ (enforceLoop (countingReconciler (fun _ => false))
        { Namespace := "ns",
          ClusterSelector := { NodeSelectorTerms :=
            [{ MatchExpressions := [{ Key := "region", Operator := "In", Values := ["eu"] }],
               MatchFields := [] }] } }
        (getClusterIDMapLoop [{ Name := "nm1", RemoteClusterID := "k1" }] [])
        [{ Name := "a", Labels := [("region", "eu")], ClusterID := "k1" },
         { Name := "b", Labels := [("region", "us")], ClusterID := "k1" }]
        none [] 0).calls.map (fun r => r.call)
      = [Call.add "ns" "ns" (some { Name := "nm1", RemoteClusterID := "k1" }),
         Call.remove "ns" (some { Name := "nm1", RemoteClusterID := "k1" })] := by
  decide

/-- C21, amended: within one pass that passes the cardinality check, when the candidates have
pairwise distinct cluster identifiers and the map is keyed by the cluster identifiers of its
records, no two add or remove calls are issued for the same cluster identifier. -/
theorem calls_target_disjoint_keys {σ : Type} (r : Reconciler σ) (vns : List VirtualNode) (s : σ)
    (nsoff : NamespaceOffloading) (clusterIDMap : ClusterIDMap)
    (hcard : (RetrieveClusterIDsFromVirtualNodes vns).length = clusterIDMap.length)
    (hnodup : (vns.map (fun vn => vn.ClusterID)).Nodup)
    (hkeys : ∀ id m, clusterIDMap.lookup id = some m → m.RemoteClusterID = id) :
    ((enforceClusterSelector r (Except.ok vns) s nsoff clusterIDMap).calls.filterMap
      (fun c => callTarget c.call)).Nodup := by
  rw [enforceClusterSelector_ok_eq r vns s nsoff clusterIDMap hcard]
  obtain ⟨news, h1, h2⟩ := enforceLoop_calls r nsoff clusterIDMap vns none [] s
  have hmap : (enforceLoop r nsoff clusterIDMap vns none [] s).calls.filterMap
      (fun c => callTarget c.call)
      = (passCalls (r.remoteNamespaceName nsoff) nsoff clusterIDMap vns).filterMap callTarget := by
    rw [h1, List.nil_append, ← h2, List.filterMap_map]
    rfl
  rw [hmap]
  exact (passCalls_targets_nodup _ nsoff clusterIDMap hkeys vns hnodup).1

/-- C21, amended, at a concrete input: two candidates of two clusters and the map that
`getClusterIDMap` builds from the records of the two clusters; the two calls are on the records of
`k1` and of `k2`. -/
theorem calls_target_disjoint_keys_witness :
    (enforceClusterSelector (countingReconciler (fun _ => false))
        (Except.ok [{ Name := "a", Labels := [("region", "eu")], ClusterID := "k1" },
                    { Name := "b", Labels := [("region", "us")], ClusterID := "k2" }]) 0
        { Namespace := "ns",
          ClusterSelector := { NodeSelectorTerms :=
            [{ MatchExpressions := [{ Key := "region", Operator := "In", Values := ["eu"] }],
               MatchFields := [] }] } }
        (getClusterIDMapLoop [{ Name := "nm1", RemoteClusterID := "k1" },
                              { Name := "nm2", RemoteClusterID := "k2" }] [])).calls.filterMap
          (fun c => callTarget c.call) = ["k1", "k2"]
    ∧ ((enforceClusterSelector (countingReconciler (fun _ => false))
        (Except.ok [{ Name := "a", Labels := [("region", "eu")], ClusterID := "k1" },
                    { Name := "b", Labels := [("region", "us")], ClusterID := "k2" }]) 0
        { Namespace := "ns",
          ClusterSelector := { NodeSelectorTerms :=
            [{ MatchExpressions := [{ Key := "region", Operator := "In", Values := ["eu"] }],
               MatchFields := [] }] } }
        (getClusterIDMapLoop [{ Name := "nm1", RemoteClusterID := "k1" },
                              { Name := "nm2", RemoteClusterID := "k2" }] [])).calls.filterMap
          (fun c => callTarget c.call)).Nodup :=
  ⟨by decide,
   calls_target_disjoint_keys (countingReconciler (fun _ => false))
    [{ Name := "a", Labels := [("region", "eu")], ClusterID := "k1" },
     { Name := "b", Labels := [("region", "us")], ClusterID := "k2" }] 0
    { Namespace := "ns",
      ClusterSelector := { NodeSelectorTerms :=
        [{ MatchExpressions := [{ Key := "region", Operator := "In", Values := ["eu"] }],
           MatchFields := [] }] } }
    (getClusterIDMapLoop [{ Name := "nm1", RemoteClusterID := "k1" },
                          { Name := "nm2", RemoteClusterID := "k2" }] [])
    (by decide) (by decide)
    (getClusterIDMapLoop_keyed _ [] (fun _ _ h => by simp [List.lookup] at h))⟩

/-- C26, as stated, fails: one candidate of cluster `k1` and one record, of cluster `k2`, pass the
cardinality check; the lookup of `k1` fails and the call is invoked with a nil record. -/
theorem call_without_record_counterexample :
    (RetrieveClusterIDsFromVirtualNodes
        [{ Name := "a", Labels := [("region", "eu")], ClusterID := "k1" }]).length
      = (getClusterIDMapLoop [{ Name := "nm2", RemoteClusterID := "k2" }] []).length
    ∧ (enforceClusterSelector (countingReconciler (fun _ => false))
        (Except.ok [{ Name := "a", Labels := [("region", "eu")], ClusterID := "k1" }]) 0
        { Namespace := "ns",
          ClusterSelector := { NodeSelectorTerms :=
            [{ MatchExpressions := [{ Key := "region", Operator := "In", Values := ["eu"] }],
               MatchFields := [] }] } }
        (getClusterIDMapLoop [{ Name := "nm2", RemoteClusterID := "k2" }] [])).calls.map
          (fun r => r.call)
      = [Call.add "ns" "ns" none] := by
  decide

/-- C26, amended: in every pass that passes the cardinality check and in which the map holds a
record under the cluster identifier of every candidate, every call issued is invoked with a
record, never with a nil one. -/
theorem calls_have_their_record {σ : Type} (r : Reconciler σ) (vns : List VirtualNode) (s : σ)
    (nsoff : NamespaceOffloading) (clusterIDMap : ClusterIDMap)
    (hcard : (RetrieveClusterIDsFromVirtualNodes vns).length = clusterIDMap.length)
    (hall : ∀ vn ∈ vns, (clusterIDMap.lookup vn.ClusterID).isSome = true) :
    ∀ c ∈ (enforceClusterSelector r (Except.ok vns) s nsoff clusterIDMap).calls,
      (callRecord c.call).isSome = true := by
  rw [enforceClusterSelector_ok_eq r vns s nsoff clusterIDMap hcard]
  obtain ⟨news, h1, h2⟩ := enforceLoop_calls r nsoff clusterIDMap vns none [] s
  intro c hc
  rw [h1, List.nil_append] at hc
  have hmem : c.call ∈ passCalls (r.remoteNamespaceName nsoff) nsoff clusterIDMap vns := by
    rw [← h2]
    exact List.mem_map_of_mem _ hc
  obtain ⟨vn, hvn, heq⟩ := mem_passCalls _ _ _ _ _ hmem
  rw [heq, callRecord_convergenceCall]
  exact hall vn hvn

/-- C26, amended, at a concrete input: the map built from the record of the cluster of the only
candidate; the call of the pass is an add with that record. -/
theorem calls_have_their_record_witness :
    ({ call := Call.add "ns" "ns" (some { Name := "nm1", RemoteClusterID := "k1" }),
       failed := false } : CallRecord)
      ∈ (enforceClusterSelector (countingReconciler (fun _ => false))
        (Except.ok [{ Name := "a", Labels := [("region", "eu")], ClusterID := "k1" }]) 0
        { Namespace := "ns",
          ClusterSelector := { NodeSelectorTerms :=
            [{ MatchExpressions := [{ Key := "region", Operator := "In", Values := ["eu"] }],
               MatchFields := [] }] } }
        (getClusterIDMapLoop [{ Name := "nm1", RemoteClusterID := "k1" }] [])).calls
    ∧ (callRecord (Call.add "ns" "ns" (some { Name := "nm1", RemoteClusterID := "k1" }))).isSome
        = true :=
  ⟨by decide,
   calls_have_their_record (countingReconciler (fun _ => false))
    [{ Name := "a", Labels := [("region", "eu")], ClusterID := "k1" }] 0
    { Namespace := "ns",
      ClusterSelector := { NodeSelectorTerms :=
        [{ MatchExpressions := [{ Key := "region", Operator := "In", Values := ["eu"] }],
           MatchFields := [] }] } }
    (getClusterIDMapLoop [{ Name := "nm1", RemoteClusterID := "k1" }] [])
    (by decide) (by decide)
    { call := Call.add "ns" "ns" (some { Name := "nm1", RemoteClusterID := "k1" }),
      failed := false }
    (by decide)⟩

/-- C29 fails on the code: for a configuration without remapped pod CIDR and a client whose
listing of the networks fails, `CreateOrGetNetwork` returns a nil network with the error, and
`RemapConfiguration` faults on `network.Name` while it builds the error message instead of
returning `(true, err)`. -/
theorem RemapConfiguration_faults_on_network_error :
    (CreateOrGetNetwork
        { ListNetworkByLabel := fun _ _ _ => Except.error "connection refused",
          Create := fun s n => (s, Except.ok n) }
        () { configurationGVK := some ("networking.liqo.io/v1alpha1", "Configuration") }
        { Name := "cfg1", Namespace := "liqo-tenant-1", UID := "uid-1",
          Spec := { Remote := { CIDR := { Pod := "10.0.0.0/16", External := "10.1.0.0/16" } } },
          Status := { Remote := { CIDR := { Pod := "", External := "" } } } }
        LabelCIDRTypePod).2 = (none, some "connection refused")
    ∧ (RemapConfiguration
        { ListNetworkByLabel := fun _ _ _ => Except.error "connection refused",
          Create := fun s n => (s, Except.ok n) }
        { configurationGVK := some ("networking.liqo.io/v1alpha1", "Configuration") } ()
        { Name := "cfg1", Namespace := "liqo-tenant-1", UID := "uid-1",
          Spec := { Remote := { CIDR := { Pod := "10.0.0.0/16", External := "10.1.0.0/16" } } },
          Status := { Remote := { CIDR := { Pod := "", External := "" } } } }).2
      = RemapOutcome.nilPointerDereference := by
  decide

/-- C30 fails on the code: for the CIDR type `external` the forged network has the name, the
namespace and the label of the claim, but its `Spec.CIDR` is the remote pod CIDR of the
configuration, not the remote external CIDR. -/
theorem ForgeNetwork_external_has_pod_cidr :
    (ForgeNetwork
        { Name := "cfg1", Namespace := "liqo-tenant-1", UID := "uid-1",
          Spec := { Remote := { CIDR := { Pod := "10.0.0.0/16", External := "10.1.0.0/16" } } },
          Status := { Remote := { CIDR := { Pod := "", External := "" } } } }
        LabelCIDRTypeExternal
        { configurationGVK := some ("networking.liqo.io/v1alpha1", "Configuration") })
      = { Name := "cfg1-external", Namespace := "liqo-tenant-1",
          Labels := [("configuration.liqo.io/cidr-type", "external")],
          OwnerReferences := [{ APIVersion := "networking.liqo.io/v1alpha1",
                                Kind := "Configuration", Name := "cfg1", UID := "uid-1" }],
          Spec := { CIDR := "10.0.0.0/16" },
          Status := { CIDR := "" } } := by
  decide

end Liqo
